import Mathlib

/-!
# CC65 advanced optimisations: entity engine and grid access benchmark

A shallow embedding of the C sources of the tutorial steps
(`game.c` of steps 02, 04, 05, 08, 09 and `mapget.c` of step 13) and the
properties of the specification proved about it.

Conventions of the embedding.

* `unsigned char` values are natural numbers; every conversion of an `int`
  expression to an `unsigned char` object is written `to_byte` (`% 256`).
* A C array is a total map `Nat → Nat` from index to element, an assignment
  `a[i] = v` is `store a i v`.
* A pointer into an array is the index of the element it points to; a pointer
  into the display memory is its address, a natural number, and the display
  memory is a map from addresses to bytes, disjoint from the program's globals.
* Global variables become the fields of a record that every function takes
  and returns.
-/

/-! ## Definitions -/

/-- Conversion of an integer value to `unsigned char`. -/
def to_byte (n : Nat) : Nat := n % 256

/-- The array `a` after the assignment `a[i] = v`. -/
def store (a : Nat → Nat) (i v : Nat) : Nat → Nat :=
  fun j => if j = i then v else a j

/-! ### The grid access benchmark (`mapget.c`, step 13) -/

namespace Mapget

/-- `#define MAP_SIZE_X 20` -/
def MAP_SIZE_X : Nat := 20

/-- `#define MAP_SIZE_Y 12` -/
def MAP_SIZE_Y : Nat := 12

/-- The globals of `mapget.c`: `byte array_index; byte array_value;`
`byte map[MAP_SIZE_X * MAP_SIZE_Y];` and `byte x,y,i,temp;`. -/
structure Globals where
  array_index : Nat
  array_value : Nat
  map : Nat → Nat
  x : Nat
  y : Nat
  i : Nat
  temp : Nat

/-- `const byte map_lookup[MAP_SIZE_Y]`: the initialisers are `int` constant
expressions converted to `byte`. -/
def map_lookup : List Nat :=
  [ to_byte (MAP_SIZE_X * 0),
    to_byte (MAP_SIZE_X * 1),
    to_byte (MAP_SIZE_X * 2),
    to_byte (MAP_SIZE_X * 3),
    to_byte (MAP_SIZE_X * 4),
    to_byte (MAP_SIZE_X * 5),
    to_byte (MAP_SIZE_X * 6),
    to_byte (MAP_SIZE_X * 7),
    to_byte (MAP_SIZE_X * 8),
    to_byte (MAP_SIZE_X * 9),
    to_byte (MAP_SIZE_X * 10),
    to_byte (MAP_SIZE_X * 11) ]

/-- `byte *map_lookup_ptr[MAP_SIZE_Y]`: the pointer `&map[k]` is represented by
the index `k` of the cell of `map` it points to. -/
def map_lookup_ptr : List Nat :=
  [ MAP_SIZE_X * 0,
    MAP_SIZE_X * 1,
    MAP_SIZE_X * 2,
    MAP_SIZE_X * 3,
    MAP_SIZE_X * 4,
    MAP_SIZE_X * 5,
    MAP_SIZE_X * 6,
    MAP_SIZE_X * 7,
    MAP_SIZE_X * 8,
    MAP_SIZE_X * 9,
    MAP_SIZE_X * 10,
    MAP_SIZE_X * 11 ]

/-- `#define MapSet1(x,y,a) map_lookup_ptr[y][x]=(a);` -/
def MapSet1 (g : Globals) (x y a : Nat) : Globals :=
  { g with map := store g.map (map_lookup_ptr.getD y 0 + x) (to_byte a) }

/-- `#define MapGet1(x,y) map_lookup_ptr[y][x]` -/
def MapGet1 (g : Globals) (x y : Nat) : Nat :=
  g.map (map_lookup_ptr.getD y 0 + x)

/-- `#define MapSet2(x,y,a) map[(x)+map_lookup[(y)]]=(a);` -/
def MapSet2 (g : Globals) (x y a : Nat) : Globals :=
  { g with map := store g.map (x + map_lookup.getD y 0) (to_byte a) }

/-- `#define MapGet2(x,y) map[(x)+map_lookup[(y)]]` -/
def MapGet2 (g : Globals) (x y : Nat) : Nat :=
  g.map (x + map_lookup.getD y 0)

/-- `#define MapSet3(x,y,a) array_index = (x)+map_lookup[(y)];
array_value = (a); map[array_index]=array_value;` -/
def MapSet3 (g : Globals) (x y a : Nat) : Globals :=
  let g := { g with array_index := to_byte (x + map_lookup.getD y 0) }
  let g := { g with array_value := to_byte a }
  { g with map := store g.map g.array_index g.array_value }

/-- `#define MapGet3(x,y,r) array_index = (x)+map_lookup[(y)]; r=map[array_index];`
The value assigned to `r` is returned next to the new globals. -/
def MapGet3 (g : Globals) (x y : Nat) : Globals × Nat :=
  let g := { g with array_index := to_byte (x + map_lookup.getD y 0) }
  (g, g.map g.array_index)

/-- The three access strategies of the benchmark, numbered as in the macros. -/
inductive Strategy where
  | S1
  | S2
  | S3
  deriving DecidableEq, Repr

/-- Read of cell `(x, y)` through the chosen strategy: the globals afterwards
and the value read. -/
def MapGet (s : Strategy) (g : Globals) (x y : Nat) : Globals × Nat :=
  match s with
  | .S1 => (g, MapGet1 g x y)
  | .S2 => (g, MapGet2 g x y)
  | .S3 => MapGet3 g x y

/-- Write of `a` to cell `(x, y)` through the chosen strategy. -/
def MapSet (s : Strategy) (g : Globals) (x y a : Nat) : Globals :=
  match s with
  | .S1 => MapSet1 g x y a
  | .S2 => MapSet2 g x y a
  | .S3 => MapSet3 g x y a

/-- One grid operation: a read or a write of a cell. -/
inductive Op where
  | get (x y : Nat)
  | set (x y a : Nat)
  deriving DecidableEq, Repr

/-- The coordinates of an operation lie in the grid. -/
def Op.valid : Op → Prop
  | .get x y => x < MAP_SIZE_X ∧ y < MAP_SIZE_Y
  | .set x y _ => x < MAP_SIZE_X ∧ y < MAP_SIZE_Y

/-- Runs a sequence of operations, each through its own strategy, and collects
the values read, in order. -/
def run : List (Strategy × Op) → Globals → Globals × List Nat
  | [], g => (g, [])
  | (s, .get x y) :: rest, g =>
    let r := MapGet s g x y
    let out := run rest r.1
    (out.1, r.2 :: out.2)
  | (s, .set x y a) :: rest, g => run rest (MapSet s g x y a)

/-- The grid after a sequence of operations and the values read, computed on
the flat array with the row-major index `MAP_SIZE_X * y + x`. -/
def run_flat : List Op → (Nat → Nat) → (Nat → Nat) × List Nat
  | [], m => (m, [])
  | .get x y :: rest, m =>
    let out := run_flat rest m
    (out.1, m (MAP_SIZE_X * y + x) :: out.2)
  | .set x y a :: rest, m => run_flat rest (store m (MAP_SIZE_X * y + x) (to_byte a))

/-- Body of the innermost loop of `test1`:
`temp  = MapGet1(x,y); MapSet1(x,y,temp + 1);`. -/
def test1_body (g : Globals) : Globals :=
  let g := { g with temp := MapGet1 g g.x g.y }
  MapSet1 g g.x g.y (g.temp + 1)

/-- Body of the innermost loop of `test2`:
`temp  = MapGet2(x,y); MapSet2(x,y,temp + 1);`. -/
def test2_body (g : Globals) : Globals :=
  let g := { g with temp := MapGet2 g g.x g.y }
  MapSet2 g g.x g.y (g.temp + 1)

/-- Body of the innermost loop of `test3`:
`MapGet3(x,y,temp); MapSet3(x,y,temp + 1);`. -/
def test3_body (g : Globals) : Globals :=
  let r := MapGet3 g g.x g.y
  let g := { r.1 with temp := r.2 }
  MapSet3 g g.x g.y (g.temp + 1)

/-- The loop `for (...; x<MAP_SIZE_X; ++x) body` of the three tests, from the
current value of the global `x`, run for at most the given number of
iterations. -/
def x_loop (body : Globals → Globals) : Nat → Globals → Globals
  | 0, g => g
  | fuel + 1, g =>
    if g.x < MAP_SIZE_X then
      let g := body g
      x_loop body fuel { g with x := to_byte (g.x + 1) }
    else g

/-- The loop `for (...; y<MAP_SIZE_Y; ++y) { for (x=0; ...) body }` of the three
tests, from the current value of the global `y`. The counters are bytes, so
every loop is granted 256 iterations. -/
def y_loop (body : Globals → Globals) : Nat → Globals → Globals
  | 0, g => g
  | fuel + 1, g =>
    if g.y < MAP_SIZE_Y then
      let g := x_loop body 256 { g with x := 0 }
      y_loop body fuel { g with y := to_byte (g.y + 1) }
    else g

/-- One full sweep: the `for (y=0; ...)` statement with its inner loop. -/
def sweep (body : Globals → Globals) (g : Globals) : Globals :=
  y_loop body 256 { g with y := 0 }

/-- The loop `for (...; i<100; ++i) { for (y=0; ...) ... }` of the three tests,
from the current value of the global `i`. -/
def i_loop (body : Globals → Globals) : Nat → Globals → Globals
  | 0, g => g
  | fuel + 1, g =>
    if g.i < 100 then
      let g := sweep body g
      i_loop body fuel { g with i := to_byte (g.i + 1) }
    else g

/-- `void test1()` -/
def test1 (g : Globals) : Globals :=
  i_loop test1_body 256 { g with i := 0 }

/-- `void test2()` -/
def test2 (g : Globals) : Globals :=
  i_loop test2_body 256 { g with i := 0 }

/-- `void test3()` -/
def test3 (g : Globals) : Globals :=
  i_loop test3_body 256 { g with i := 0 }

/-- A loop body that, at an in-grid `(x, y)`, replaces the cell by its value
plus one converted to a byte, touches no other cell and no loop counter. -/
def increments_cell (body : Globals → Globals) : Prop :=
  ∀ g : Globals, g.x < MAP_SIZE_X → g.y < MAP_SIZE_Y →
    (body g).map =
      store g.map (MAP_SIZE_X * g.y + g.x) (to_byte (g.map (MAP_SIZE_X * g.y + g.x) + 1)) ∧
    (body g).x = g.x ∧ (body g).y = g.y ∧ (body g).i = g.i

end Mapget

/-! ### The entity engine, structure-of-arrays layout (steps 05, 08 and 09)

The three steps declare the same `s_entity`, `s_player` and `s_game_state`
(step 05 types the `type` array with the `enum`, steps 08 and 09 with
`unsigned char`). -/

/-- `#define SCREEN_SIZE_X 40` -/
def SCREEN_SIZE_X : Nat := 40

/-- `#define NO_ENEMIES 30` -/
def NO_ENEMIES : Nat := 30

/-- `#define NO_ENTITIES (NO_ENEMIES+1)` -/
def NO_ENTITIES : Nat := NO_ENEMIES + 1

/-- `#define PLAYER_INDEX (NO_ENEMIES)` -/
def PLAYER_INDEX : Nat := NO_ENEMIES

/-- `ENTITY_DEAD`, first enumerator and `#define ENTITY_DEAD 0`. -/
def ENTITY_DEAD : Nat := 0

/-- `ENTITY_PLAYER`, second enumerator and `#define ENTITY_PLAYER 1`. -/
def ENTITY_PLAYER : Nat := 1

/-- `ENTITY_ENEMY`, third enumerator and `#define ENTITY_ENEMY 2`. -/
def ENTITY_ENEMY : Nat := 2

/-- The code of a character constant stored in a `char`. -/
def char_code (c : Char) : Nat := to_byte c.toNat

namespace SoA

/-- `typedef struct s_entity`: one array of `NO_ENTITIES` cells per attribute,
the player in the last cell. -/
structure s_entity where
  x : Nat → Nat
  y : Nat → Nat
  hp : Nat → Nat
  type : Nat → Nat

/-- `typedef struct s_player`. -/
structure s_player where
  attack : Nat

/-- `typedef struct s_game_state`. -/
structure s_game_state where
  entities : s_entity
  player : s_player

end SoA

/-! ### The entity engine, array-of-structs layout (step 04) -/

namespace AoS

/-- `typedef struct s_entity` of step 04, every field an `unsigned char`
(`type` holds the value of the enumerator). -/
structure s_entity where
  x : Nat
  y : Nat
  hp : Nat
  type : Nat
  deriving DecidableEq, Repr

/-- `typedef struct s_player`. -/
structure s_player where
  entity : s_entity
  attack : Nat

/-- `typedef struct s_game_state`, `enemies` being an array of `NO_ENEMIES`
entities. -/
structure s_game_state where
  enemies : Nat → s_entity
  player : s_player

/-- A value of type `s_entity *`: the address of a cell of
`game_state.enemies` or of `game_state.player.entity`. The null value the
pointer globals hold before their first assignment is not represented; the
code assigns each of them before the call that dereferences it. -/
inductive entity_ptr where
  | enemy (index : Nat)
  | player
  deriving DecidableEq, Repr

/-- The entity `*p`. -/
def deref (gs : s_game_state) (p : entity_ptr) : s_entity :=
  match p with
  | .enemy index => gs.enemies index
  | .player => gs.player.entity

/-- The game state after the assignment `*p = e`. -/
def assign (gs : s_game_state) (p : entity_ptr) (e : s_entity) : s_game_state :=
  match p with
  | .enemy index => { gs with enemies := fun j => if j = index then e else gs.enemies j }
  | .player => { gs with player.entity := e }

end AoS

namespace Step04

/-- The globals of step 04: `screen_ptr`, `game_state`, the three pointers that
replace the parameters, and the display memory `screen_ptr` points into. -/
structure Globals where
  screen_ptr : Nat
  game_state : AoS.s_game_state
  place_enemy_ptr : AoS.entity_ptr
  draw_entity_ptr : AoS.entity_ptr
  damage_enemy_ptr : AoS.entity_ptr
  screen : Nat → Nat

/-- `void damage_enemy()` of step 04, on `damage_enemy_ptr`; the decrement of
the `unsigned char` is taken modulo 256 as in step 09. -/
def damage_enemy (g : Globals) : Globals :=
  if (AoS.deref g.game_state g.damage_enemy_ptr).hp > 0 then
    { g with
      game_state :=
        AoS.assign g.game_state g.damage_enemy_ptr
          { AoS.deref g.game_state g.damage_enemy_ptr with
            hp := to_byte ((AoS.deref g.game_state g.damage_enemy_ptr).hp + 255) } }
  else g

/-- `void place_enemy(unsigned char x, unsigned char y)` of step 04, on
`place_enemy_ptr`. -/
def place_enemy (g : Globals) (x y : Nat) : Globals :=
  let g := { g with
    game_state :=
      AoS.assign g.game_state g.place_enemy_ptr
        { AoS.deref g.game_state g.place_enemy_ptr with x := x } }
  { g with
    game_state :=
      AoS.assign g.game_state g.place_enemy_ptr
        { AoS.deref g.game_state g.place_enemy_ptr with y := y } }

/-- The `for (...; index < _countof(game_state.enemies); index++)` loop of
`set_entities`, from the given value of the local `index`; the local `e` is
`&game_state.enemies[index]`. -/
def set_entities_loop : Nat → Nat → Globals → Globals
  | 0, _, g => g
  | fuel + 1, index, g =>
    if index < NO_ENEMIES then
      let e := AoS.entity_ptr.enemy index
      let g := { g with place_enemy_ptr := e }
      let g := place_enemy g (to_byte ((index * 5) % SCREEN_SIZE_X)) (to_byte (index / 2 + 9))
      let g := { g with
        game_state := AoS.assign g.game_state e { AoS.deref g.game_state e with hp := 99 } }
      let g := { g with
        game_state :=
          AoS.assign g.game_state e { AoS.deref g.game_state e with type := ENTITY_ENEMY } }
      set_entities_loop fuel (to_byte (index + 1)) g
    else g

/-- `void set_entities()` of step 04, with 256 iterations granted to the loop on
the byte `index`. -/
def set_entities (g : Globals) : Globals :=
  let g := set_entities_loop 256 0 g
  let g := { g with game_state.player.entity.hp := 99 }
  let g := { g with game_state.player.entity.x := SCREEN_SIZE_X / 2 }
  { g with game_state.player.entity.type := ENTITY_PLAYER }

/-- `char get_entity_tile(e_entity_type type)`: the `switch`. -/
def get_entity_tile (type : Nat) : Nat :=
  if type = ENTITY_PLAYER then char_code 'p'
  else if type = ENTITY_ENEMY then char_code 'e'
  else char_code 'x'

/-- `void draw_entity()` of step 04, on `draw_entity_ptr`. -/
def draw_entity (g : Globals) : Globals :=
  let FIRST_DIGIT_CHAR := 0x10
  let draw_ptr := g.screen_ptr +
    ((AoS.deref g.game_state g.draw_entity_ptr).y * SCREEN_SIZE_X +
      (AoS.deref g.game_state g.draw_entity_ptr).x)
  let g := { g with
    screen := store g.screen draw_ptr
      (to_byte (get_entity_tile (AoS.deref g.game_state g.draw_entity_ptr).type)) }
  let draw_ptr := draw_ptr + 1
  let g := { g with
    screen := store g.screen draw_ptr
      (to_byte ((AoS.deref g.game_state g.draw_entity_ptr).hp / 10 + FIRST_DIGIT_CHAR)) }
  let draw_ptr := draw_ptr + 1
  { g with
    screen := store g.screen draw_ptr
      (to_byte ((AoS.deref g.game_state g.draw_entity_ptr).hp % 10 + FIRST_DIGIT_CHAR)) }

/-- The `for (index=0; index < _countof(game_state.enemies); index++)` loop of
`one_frame`, from the given value of the local `index`. -/
def one_frame_loop : Nat → Nat → Globals → Globals
  | 0, _, g => g
  | fuel + 1, index, g =>
    if index < NO_ENEMIES then
      let e := AoS.entity_ptr.enemy index
      let g := { g with damage_enemy_ptr := e }
      let g := damage_enemy g
      let g := { g with draw_entity_ptr := e }
      let g := draw_entity g
      one_frame_loop fuel (to_byte (index + 1)) g
    else g

/-- `void one_frame()` of step 04. -/
def one_frame (g : Globals) : Globals :=
  let g := one_frame_loop 256 0 g
  let g := { g with draw_entity_ptr := AoS.entity_ptr.player }
  draw_entity g

end Step04

/-! ### Step 02: the game state is a local of `main`, its fields are `int` -/

namespace Step02

/-- `typedef struct s_entity` of step 02, every field an `int` (`type` holds the
value of the enumerator). -/
structure s_entity where
  x : Int
  y : Int
  hp : Int
  type : Int
  deriving DecidableEq, Repr

/-- `typedef struct s_player`. -/
structure s_player where
  entity : s_entity
  attack : Int

/-- `typedef struct s_game_state`. -/
structure s_game_state where
  enemies : Nat → s_entity
  player : s_player

/-- `void place_enemy(s_entity *e_ptr, int x, int y)`: the entity `*e_ptr`
after the call. -/
def place_enemy (e : s_entity) (x y : Int) : s_entity :=
  let e := { e with x := x }
  { e with y := y }

/-- The `for (...; index < _countof(game_state->enemies); index++)` loop of
`set_entities`, from the given value of the local `index`, run for at most the
given number of iterations. -/
def set_entities_loop : Nat → Nat → s_game_state → s_game_state
  | 0, _, gs => gs
  | fuel + 1, index, gs =>
    if index < NO_ENEMIES then
      let e := gs.enemies index
      let e := place_enemy e (((index : Int) * 5) % (SCREEN_SIZE_X : Int)) ((index : Int) / 2 + 9)
      let e := { e with hp := 99 }
      let e := { e with type := (ENTITY_ENEMY : Int) }
      let gs := { gs with enemies := fun j => if j = index then e else gs.enemies j }
      set_entities_loop fuel (index + 1) gs
    else gs

/-- `void set_entities(s_game_state *game_state)`: the state `*game_state` after
the call. The loop is granted `NO_ENEMIES` iterations; by
`set_entities_loop_fuel_step02` more of them give the same result. -/
def set_entities (gs : s_game_state) : s_game_state :=
  let gs := set_entities_loop NO_ENEMIES 0 gs
  let gs := { gs with player.entity.hp := 99 }
  let gs := { gs with player.entity.x := ((SCREEN_SIZE_X / 2 : Nat) : Int) }
  { gs with player.entity.type := (ENTITY_PLAYER : Int) }

end Step02

/-! ### Step 05: structure of arrays, one index global per function -/

namespace Step05

/-- The globals of step 05: `screen_ptr`, `game_state`, the three index
globals that replace the parameters, and the display memory. -/
structure Globals where
  screen_ptr : Nat
  game_state : SoA.s_game_state
  place_enemy_index : Nat
  draw_entity_index : Nat
  damage_enemy_index : Nat
  screen : Nat → Nat

/-- `void place_enemy(unsigned char x, unsigned char y)` -/
def place_enemy (g : Globals) (x y : Nat) : Globals :=
  let g := { g with
    game_state.entities.x := store g.game_state.entities.x g.place_enemy_index x }
  { g with game_state.entities.y := store g.game_state.entities.y g.place_enemy_index y }

/-- The `for (...; index < NO_ENEMIES; index++)` loop of `set_entities`, from
the given value of the local `index`. -/
def set_entities_loop : Nat → Nat → Globals → Globals
  | 0, _, g => g
  | fuel + 1, index, g =>
    if index < NO_ENEMIES then
      let g := { g with place_enemy_index := index }
      let g := place_enemy g (to_byte ((index * 5) % SCREEN_SIZE_X)) (to_byte (index / 2 + 9))
      let g := { g with game_state.entities.hp := store g.game_state.entities.hp index 99 }
      let g := { g with
        game_state.entities.type := store g.game_state.entities.type index ENTITY_ENEMY }
      set_entities_loop fuel (to_byte (index + 1)) g
    else g

/-- `void set_entities()` of step 05. The local counter `index` is a byte, so
256 iterations are granted; by `set_entities_loop_fuel_step05` any number from
30 on gives the same result. -/
def set_entities (g : Globals) : Globals :=
  let g := set_entities_loop 256 0 g
  let g := { g with game_state.entities.hp := store g.game_state.entities.hp PLAYER_INDEX 99 }
  let g := { g with
    game_state.entities.x := store g.game_state.entities.x PLAYER_INDEX (SCREEN_SIZE_X / 2) }
  { g with
    game_state.entities.type := store g.game_state.entities.type PLAYER_INDEX ENTITY_PLAYER }

/-- `char get_entity_tile(e_entity_type type)`: the `switch`. -/
def get_entity_tile (type : Nat) : Nat :=
  if type = ENTITY_PLAYER then char_code 'p'
  else if type = ENTITY_ENEMY then char_code 'e'
  else char_code 'x'

/-- `void draw_entity()` of step 05, on `draw_entity_index`. -/
def draw_entity (g : Globals) : Globals :=
  let FIRST_DIGIT_CHAR := 0x10
  let draw_ptr := g.screen_ptr +
    (g.game_state.entities.y g.draw_entity_index * SCREEN_SIZE_X +
      g.game_state.entities.x g.draw_entity_index)
  let g := { g with
    screen := store g.screen draw_ptr
      (to_byte (get_entity_tile (g.game_state.entities.type g.draw_entity_index))) }
  let draw_ptr := draw_ptr + 1
  let g := { g with
    screen := store g.screen draw_ptr
      (to_byte (g.game_state.entities.hp g.draw_entity_index / 10 + FIRST_DIGIT_CHAR)) }
  let draw_ptr := draw_ptr + 1
  { g with
    screen := store g.screen draw_ptr
      (to_byte (g.game_state.entities.hp g.draw_entity_index % 10 + FIRST_DIGIT_CHAR)) }

/-- `void damage_enemy()` of step 05, on `damage_enemy_index`; the decrement of
the `unsigned char` is taken modulo 256 as in step 09. -/
def damage_enemy (g : Globals) : Globals :=
  if g.game_state.entities.hp g.damage_enemy_index > 0 then
    { g with
      game_state.entities.hp :=
        store g.game_state.entities.hp g.damage_enemy_index
          (to_byte (g.game_state.entities.hp g.damage_enemy_index + 255)) }
  else g

/-- The `for (...; index < NO_ENEMIES; index++)` loop of `one_frame`, from the
given value of the local `index`. -/
def one_frame_loop : Nat → Nat → Globals → Globals
  | 0, _, g => g
  | fuel + 1, index, g =>
    if index < NO_ENEMIES then
      let g := { g with damage_enemy_index := index }
      let g := damage_enemy g
      let g := { g with draw_entity_index := index }
      let g := draw_entity g
      one_frame_loop fuel (to_byte (index + 1)) g
    else g

/-- `void one_frame()` of step 05, with 256 iterations granted to the loop on
the byte `index`; by `one_frame_loop_fuel_step05` any number from 30 on gives
the same result. -/
def one_frame (g : Globals) : Globals :=
  let g := one_frame_loop 256 0 g
  let g := { g with draw_entity_index := PLAYER_INDEX }
  draw_entity g

end Step05

/-! ### Step 08: structure of arrays, the shared cursor `index1` -/

namespace Step08

/-- The globals of step 08: the zero-page cursor `index1`, `screen_ptr`,
`game_state`, and the display memory. -/
structure Globals where
  index1 : Nat
  screen_ptr : Nat
  game_state : SoA.s_game_state
  screen : Nat → Nat

/-- `char get_entity_tile(unsigned char type)`: the `switch`. -/
def get_entity_tile (type : Nat) : Nat :=
  if type = ENTITY_PLAYER then char_code 'p'
  else if type = ENTITY_ENEMY then char_code 'e'
  else char_code 'x'

/-- `void draw_entity()` of step 08. -/
def draw_entity (g : Globals) : Globals :=
  let FIRST_DIGIT_CHAR := 0x10
  let draw_ptr := g.screen_ptr +
    (g.game_state.entities.y g.index1 * SCREEN_SIZE_X + g.game_state.entities.x g.index1)
  let g := { g with
    screen := store g.screen draw_ptr
      (to_byte (get_entity_tile (g.game_state.entities.type g.index1))) }
  let draw_ptr := draw_ptr + 1
  let g := { g with
    screen := store g.screen draw_ptr
      (to_byte (g.game_state.entities.hp g.index1 / 10 + FIRST_DIGIT_CHAR)) }
  let draw_ptr := draw_ptr + 1
  { g with
    screen := store g.screen draw_ptr
      (to_byte (g.game_state.entities.hp g.index1 % 10 + FIRST_DIGIT_CHAR)) }

/-- `void place_enemy(unsigned char x, unsigned char y)` of step 08. -/
def place_enemy (g : Globals) (x y : Nat) : Globals :=
  let g := { g with game_state.entities.x := store g.game_state.entities.x g.index1 x }
  { g with game_state.entities.y := store g.game_state.entities.y g.index1 y }

/-- The `for (...; index1 < NO_ENEMIES; index1++)` loop of `set_entities` of
step 08. -/
def set_entities_loop : Nat → Globals → Globals
  | 0, g => g
  | fuel + 1, g =>
    if g.index1 < NO_ENEMIES then
      let g := place_enemy g (to_byte ((g.index1 * 5) % SCREEN_SIZE_X)) (to_byte (g.index1 / 2 + 9))
      let g := { g with game_state.entities.hp := store g.game_state.entities.hp g.index1 99 }
      let g := { g with
        game_state.entities.type := store g.game_state.entities.type g.index1 ENTITY_ENEMY }
      set_entities_loop fuel { g with index1 := to_byte (g.index1 + 1) }
    else g

/-- `void set_entities()` of step 08. -/
def set_entities (g : Globals) : Globals :=
  let g := set_entities_loop 256 { g with index1 := 0 }
  let g := { g with game_state.entities.hp := store g.game_state.entities.hp PLAYER_INDEX 99 }
  let g := { g with
    game_state.entities.x := store g.game_state.entities.x PLAYER_INDEX (SCREEN_SIZE_X / 2) }
  { g with
    game_state.entities.type := store g.game_state.entities.type PLAYER_INDEX ENTITY_PLAYER }

/-- `void damage_enemy()` of step 08; the decrement of the `unsigned char` is
taken modulo 256 as in step 09. -/
def damage_enemy (g : Globals) : Globals :=
  if g.game_state.entities.hp g.index1 > 0 then
    { g with
      game_state.entities.hp :=
        store g.game_state.entities.hp g.index1
          (to_byte (g.game_state.entities.hp g.index1 + 255)) }
  else g

/-- The `for (...; index1 < NO_ENEMIES; index1++)` loop of `one_frame` of
step 08. -/
def one_frame_loop : Nat → Globals → Globals
  | 0, g => g
  | fuel + 1, g =>
    if g.index1 < NO_ENEMIES then
      let g := damage_enemy g
      let g := draw_entity g
      one_frame_loop fuel { g with index1 := to_byte (g.index1 + 1) }
    else g

/-- `void one_frame()` of step 08. -/
def one_frame (g : Globals) : Globals :=
  let g := one_frame_loop 256 { g with index1 := 0 }
  let g := { g with index1 := PLAYER_INDEX }
  draw_entity g

end Step08

/-! ### Step 09: lookup tables in place of the arithmetic and the `switch` -/

namespace Step09

/-- `#define SCREEN_SIZE_Y 24` -/
def SCREEN_SIZE_Y : Nat := 24

/-- `#define MAX_LOOKUP_VALUE 100` -/
def MAX_LOOKUP_VALUE : Nat := 100

/-- `#define FIRST_DIGIT_CHAR 0x10;` -/
def FIRST_DIGIT_CHAR : Nat := 0x10

/-- The globals of step 09: the zero-page cursor `index1`, `game_state`, the
three tables filled by `init_lookup_tables`, and the display memory the
screen pointers point into. -/
structure Globals where
  index1 : Nat
  game_state : SoA.s_game_state
  div_10_lookup : Nat → Nat
  mod_10_lookup : Nat → Nat
  screen_line_lookup : Nat → Nat
  screen : Nat → Nat

/-- `char get_entity_tile[] = { 'x', 'p', 'e' };` -/
def get_entity_tile : List Nat :=
  [char_code 'x', char_code 'p', char_code 'e']

/-- `void place_enemy(unsigned char x, unsigned char y)` -/
def place_enemy (g : Globals) (x y : Nat) : Globals :=
  let g := { g with game_state.entities.x := store g.game_state.entities.x g.index1 x }
  { g with game_state.entities.y := store g.game_state.entities.y g.index1 y }

/-- The `for (...; index1 < NO_ENEMIES; index1++)` loop of `set_entities`, run
for at most the given number of iterations. -/
def set_entities_loop : Nat → Globals → Globals
  | 0, g => g
  | fuel + 1, g =>
    if g.index1 < NO_ENEMIES then
      let g := place_enemy g (to_byte ((g.index1 * 5) % SCREEN_SIZE_X)) (to_byte (g.index1 / 2 + 9))
      let g := { g with game_state.entities.hp := store g.game_state.entities.hp g.index1 99 }
      let g := { g with
        game_state.entities.type := store g.game_state.entities.type g.index1 ENTITY_ENEMY }
      set_entities_loop fuel { g with index1 := to_byte (g.index1 + 1) }
    else g

/-- `void set_entities()`. The loop counter is a byte, so 256 iterations are
granted; `set_entities_loop_exit` shows that the loop ends by its own test. -/
def set_entities (g : Globals) : Globals :=
  let g := set_entities_loop 256 { g with index1 := 0 }
  let g := { g with game_state.entities.hp := store g.game_state.entities.hp PLAYER_INDEX 99 }
  let g := { g with
    game_state.entities.x := store g.game_state.entities.x PLAYER_INDEX (SCREEN_SIZE_X / 2) }
  { g with
    game_state.entities.type := store g.game_state.entities.type PLAYER_INDEX ENTITY_PLAYER }

/-- `void draw_entity()` -/
def draw_entity (g : Globals) : Globals :=
  let draw_ptr := g.screen_line_lookup (g.game_state.entities.y g.index1)
  let draw_ptr := draw_ptr + g.game_state.entities.x g.index1
  let g := { g with
    screen := store g.screen draw_ptr
      (get_entity_tile.getD (g.game_state.entities.type g.index1) 0) }
  let draw_ptr := draw_ptr + 1
  let g := { g with
    screen := store g.screen draw_ptr (g.div_10_lookup (g.game_state.entities.hp g.index1)) }
  let draw_ptr := draw_ptr + 1
  { g with
    screen := store g.screen draw_ptr (g.mod_10_lookup (g.game_state.entities.hp g.index1)) }

/-- `void damage_enemy()`. The decrement `--` of an `unsigned char` is the
subtraction of one modulo 256, written as the addition of 255 modulo 256. -/
def damage_enemy (g : Globals) : Globals :=
  if g.game_state.entities.hp g.index1 > 0 then
    { g with
      game_state.entities.hp :=
        store g.game_state.entities.hp g.index1
          (to_byte (g.game_state.entities.hp g.index1 + 255)) }
  else g

/-- The `for (...; index1 < NO_ENEMIES; index1++)` loop of `one_frame`, run for
at most the given number of iterations. -/
def one_frame_loop : Nat → Globals → Globals
  | 0, g => g
  | fuel + 1, g =>
    if g.index1 < NO_ENEMIES then
      let g := damage_enemy g
      let g := draw_entity g
      one_frame_loop fuel { g with index1 := to_byte (g.index1 + 1) }
    else g

/-- `void one_frame()`. As in `set_entities`, 256 iterations are granted and
`one_frame_loop_exit` shows that the loop ends by its own test. -/
def one_frame (g : Globals) : Globals :=
  let g := one_frame_loop 256 { g with index1 := 0 }
  let g := { g with index1 := PLAYER_INDEX }
  draw_entity g

/-- First loop of `init_lookup_tables`, over the rows of the screen;
`screen_ptr` is the local copy of `OS.savmsc`. -/
def init_screen_loop (screen_ptr : Nat) : Nat → Globals → Globals
  | 0, g => g
  | fuel + 1, g =>
    if g.index1 < SCREEN_SIZE_Y then
      let g := { g with
        screen_line_lookup :=
          store g.screen_line_lookup g.index1 (screen_ptr + g.index1 * SCREEN_SIZE_X) }
      init_screen_loop screen_ptr fuel { g with index1 := to_byte (g.index1 + 1) }
    else g

/-- Second loop of `init_lookup_tables`, over the health values. -/
def init_digit_loop : Nat → Globals → Globals
  | 0, g => g
  | fuel + 1, g =>
    if g.index1 < MAX_LOOKUP_VALUE then
      let g := { g with
        div_10_lookup :=
          store g.div_10_lookup g.index1 (to_byte (g.index1 / 10 + FIRST_DIGIT_CHAR)) }
      let g := { g with
        mod_10_lookup :=
          store g.mod_10_lookup g.index1 (to_byte (g.index1 % 10 + FIRST_DIGIT_CHAR)) }
      init_digit_loop fuel { g with index1 := to_byte (g.index1 + 1) }
    else g

/-- `void init_lookup_tables()`; `savmsc` is the value of `OS.savmsc`, the
address of the display memory, which the operating system provides. Both loops
are granted 256 iterations and end by their own test
(`init_lookup_tables_exit`). -/
def init_lookup_tables (savmsc : Nat) (g : Globals) : Globals :=
  let screen_ptr := savmsc
  let g := init_screen_loop screen_ptr 256 { g with index1 := 0 }
  init_digit_loop 256 { g with index1 := 0 }

/-- The globals of step 09 at any point after `init_lookup_tables`: the three
tables are the ones it built, `index1`, `game_state` and the display memory are
whatever the code that ran since has left. -/
def with_tables (savmsc : Nat) (g0 : Globals) (index1 : Nat) (gs : SoA.s_game_state)
    (screen : Nat → Nat) : Globals :=
  { init_lookup_tables savmsc g0 with index1 := index1, game_state := gs, screen := screen }

/-- The state after `n` calls of `one_frame`. -/
def frames : Nat → Globals → Globals
  | 0, g => g
  | n + 1, g => frames n (one_frame g)

/-- `void main(void)` up to `end_benchmark()`: the tables, the entities and the
100 frames of the `times` loop (the benchmark calls only read the timer). -/
def main (savmsc : Nat) (g : Globals) : Globals :=
  let g := init_lookup_tables savmsc g
  let g := set_entities g
  frames 100 g

/-- The zero-initialised globals of step 09 at program start (objects with
static storage start at zero); `screen` is the display memory as the operating
system left it. -/
def zero_init (screen : Nat → Nat) : Globals :=
  { index1 := 0
    game_state := ⟨⟨fun _ => 0, fun _ => 0, fun _ => 0, fun _ => 0⟩, ⟨0⟩⟩
    div_10_lookup := fun _ => 0
    mod_10_lookup := fun _ => 0
    screen_line_lookup := fun _ => 0
    screen := screen }

/-- The globals of step 09 in `main` after `init_lookup_tables`, `set_entities`
and `n` calls of `one_frame`, from the zero-initialised globals. -/
def after_frames (screen : Nat → Nat) (savmsc n : Nat) : Globals :=
  frames n (set_entities (init_lookup_tables savmsc (zero_init screen)))

/-- The value of `draw_ptr` after `draw_ptr += x` when `draw_entity` runs for
slot `j`: the address of the first of the three cells of the slot. -/
def glyph_addr (g : Globals) (j : Nat) : Nat :=
  g.screen_line_lookup (g.game_state.entities.y j) + g.game_state.entities.x j

/-- The one array access of `damage_enemy`, `hp[index1]`, is inside the array of
`NO_ENTITIES` cells. -/
def damage_enemy_in_bounds (g : Globals) : Prop :=
  g.index1 < NO_ENTITIES

/-- Every array access of `draw_entity` is in bounds: `index1` inside the entity
arrays, `y[index1]` inside `screen_line_lookup`, `type[index1]` inside
`get_entity_tile`, `hp[index1]` inside the two digit tables, and the three
cells written inside the `SCREEN_SIZE_X * SCREEN_SIZE_Y` cells of the surface
that starts at `savmsc`. -/
def draw_entity_in_bounds (savmsc : Nat) (g : Globals) : Prop :=
  g.index1 < NO_ENTITIES ∧
  g.game_state.entities.y g.index1 < SCREEN_SIZE_Y ∧
  g.game_state.entities.type g.index1 < get_entity_tile.length ∧
  g.game_state.entities.hp g.index1 < MAX_LOOKUP_VALUE ∧
  savmsc ≤ glyph_addr g g.index1 ∧
  glyph_addr g g.index1 + 2 < savmsc + SCREEN_SIZE_X * SCREEN_SIZE_Y

instance (g : Globals) : Decidable (damage_enemy_in_bounds g) := by
  unfold damage_enemy_in_bounds
  infer_instance

instance (savmsc : Nat) (g : Globals) : Decidable (draw_entity_in_bounds savmsc g) := by
  unfold draw_entity_in_bounds
  infer_instance

/-- The loop of `one_frame` with every array access checked: `none` as soon as
an access is out of bounds (or the iterations granted run out), else the state
the loop leaves. -/
def one_frame_loop_checked (savmsc : Nat) : Nat → Globals → Option Globals
  | 0, g => if g.index1 < NO_ENEMIES then none else some g
  | fuel + 1, g =>
    if g.index1 < NO_ENEMIES then
      if damage_enemy_in_bounds g then
        let g := damage_enemy g
        if draw_entity_in_bounds savmsc g then
          let g := draw_entity g
          one_frame_loop_checked savmsc fuel { g with index1 := to_byte (g.index1 + 1) }
        else none
      else none
    else some g

/-- `one_frame` with every array access checked. -/
def one_frame_checked (savmsc : Nat) (g : Globals) : Option Globals :=
  match one_frame_loop_checked savmsc 256 { g with index1 := 0 } with
  | none => none
  | some g =>
    let g := { g with index1 := PLAYER_INDEX }
    if draw_entity_in_bounds savmsc g then some (draw_entity g) else none

/-- Every slot is placed so that its three cells fit in its row of the screen,
its health is at most 99 and its type is one of the three entity types. -/
def in_range (gs : SoA.s_game_state) : Prop :=
  ∀ i, i < NO_ENTITIES →
    gs.entities.x i + 2 < SCREEN_SIZE_X ∧ gs.entities.y i < SCREEN_SIZE_Y ∧
    gs.entities.hp i ≤ 99 ∧ gs.entities.type i ≤ 2

end Step09

/-! ### Correspondence of the two layouts -/

namespace AoS

/-- The array-of-structs state `a` and the structure-of-arrays state `s` hold
the same entities: `enemies[i]` is slot `i`, `player.entity` is slot
`PLAYER_INDEX`, and `player.attack` is the same. -/
def corresponds (a : s_game_state) (s : SoA.s_game_state) : Prop :=
  (∀ i, i < NO_ENEMIES →
    a.enemies i =
      ⟨s.entities.x i, s.entities.y i, s.entities.hp i, s.entities.type i⟩) ∧
  a.player.entity =
    ⟨s.entities.x PLAYER_INDEX, s.entities.y PLAYER_INDEX, s.entities.hp PLAYER_INDEX,
      s.entities.type PLAYER_INDEX⟩ ∧
  a.player.attack = s.player.attack

end AoS

/-! ## Theorems -/

theorem to_byte_of_lt (n : Nat) (h : n < 256) : to_byte n = n := Nat.mod_eq_of_lt h

theorem store_same (a : Nat → Nat) (i v : Nat) : store a i v i = v := by
  simp [store]

theorem store_other (a : Nat → Nat) (i v j : Nat) (h : j ≠ i) : store a i v j = a j := by
  simp [store, h]

/-! ### The grid access benchmark -/

namespace Mapget

theorem map_lookup_eq (y : Nat) (hy : y < 12) : map_lookup.getD y 0 = 20 * y := by
  interval_cases y <;> rfl

theorem map_lookup_ptr_eq (y : Nat) (hy : y < 12) : map_lookup_ptr.getD y 0 = 20 * y := by
  interval_cases y <;> rfl

theorem cell_index_lt (x y : Nat) (hx : x < 20) (hy : y < 12) : 20 * y + x < 240 := by
  omega

theorem MapGet_value (s : Strategy) (g : Globals) (x y : Nat) (hx : x < MAP_SIZE_X)
    (hy : y < MAP_SIZE_Y) : (MapGet s g x y).2 = g.map (MAP_SIZE_X * y + x) := by
  simp only [MAP_SIZE_X, MAP_SIZE_Y] at hx hy
  have h1 := map_lookup_eq y hy
  have h2 := map_lookup_ptr_eq y hy
  have h3 : (x + 20 * y) % 256 = 20 * y + x := by omega
  cases s
  · show g.map (map_lookup_ptr.getD y 0 + x) = g.map (20 * y + x)
    rw [h2]
  · show g.map (x + map_lookup.getD y 0) = g.map (20 * y + x)
    rw [h1, Nat.add_comm]
  · show g.map (to_byte (x + map_lookup.getD y 0)) = g.map (20 * y + x)
    rw [h1, to_byte, h3]

theorem MapGet_map (s : Strategy) (g : Globals) (x y : Nat) :
    (MapGet s g x y).1.map = g.map := by
  cases s <;> rfl

theorem MapSet_map (s : Strategy) (g : Globals) (x y a : Nat) (hx : x < MAP_SIZE_X)
    (hy : y < MAP_SIZE_Y) :
    (MapSet s g x y a).map = store g.map (MAP_SIZE_X * y + x) (to_byte a) := by
  simp only [MAP_SIZE_X, MAP_SIZE_Y] at hx hy
  have h1 := map_lookup_eq y hy
  have h2 := map_lookup_ptr_eq y hy
  have h3 : (x + 20 * y) % 256 = 20 * y + x := by omega
  cases s
  · show store g.map (map_lookup_ptr.getD y 0 + x) (to_byte a) = store g.map (20 * y + x) _
    rw [h2]
  · show store g.map (x + map_lookup.getD y 0) (to_byte a) = store g.map (20 * y + x) _
    rw [h1, Nat.add_comm]
  · show store g.map (to_byte (x + map_lookup.getD y 0)) (to_byte a) = store g.map (20 * y + x) _
    rw [h1, to_byte, h3]

theorem run_eq_run_flat (steps : List (Strategy × Op)) :
    ∀ g : Globals, (∀ st ∈ steps, st.2.valid) →
      (run steps g).1.map = (run_flat (steps.map Prod.snd) g.map).1 ∧
      (run steps g).2 = (run_flat (steps.map Prod.snd) g.map).2 := by
  induction steps with
  | nil => intro g _; exact ⟨rfl, rfl⟩
  | cons st rest ih =>
    intro g hv
    have hst : st.2.valid := hv st (List.mem_cons_self _ _)
    have hrest : ∀ t ∈ rest, t.2.valid := fun t ht => hv t (List.mem_cons_of_mem _ ht)
    obtain ⟨s, op⟩ := st
    cases op with
    | get x y =>
      obtain ⟨hx, hy⟩ := hst
      have ih1 := ih (MapGet s g x y).1 hrest
      rw [MapGet_map] at ih1
      simp only [run, run_flat, List.map_cons]
      exact ⟨ih1.1, by rw [ih1.2, MapGet_value s g x y hx hy]⟩
    | set x y a =>
      obtain ⟨hx, hy⟩ := hst
      have ih1 := ih (MapSet s g x y a) hrest
      rw [MapSet_map s g x y a hx hy] at ih1
      simp only [run, run_flat, List.map_cons]
      exact ih1

/-- C1: for every grid state and every `x < 20`, `y < 12`, the three read forms
`MapGet1`, `MapGet2`, `MapGet3` return the same cell value (and leave the grid
as it is), the three write forms `MapSet1`, `MapSet2`, `MapSet3` of any value
produce the same grid contents, and two runs of the same sequence of in-grid
get/set operations from equal grids end in equal grids and read equal values,
whichever strategy performs each step of either run. -/
theorem strategies_equivalent (g : Globals) (x y v : Nat) (hx : x < 20) (hy : y < 12)
    (g2 : Globals) (steps1 steps2 : List (Strategy × Op))
    (hops : steps1.map Prod.snd = steps2.map Prod.snd)
    (hvalid : ∀ st ∈ steps1, st.2.valid) (hg : g.map = g2.map) :
    (MapGet1 g x y = MapGet2 g x y ∧ MapGet2 g x y = (MapGet3 g x y).2 ∧
      (MapGet3 g x y).1.map = g.map) ∧
    ((MapSet1 g x y v).map = (MapSet2 g x y v).map ∧
      (MapSet2 g x y v).map = (MapSet3 g x y v).map) ∧
    ((run steps1 g).1.map = (run steps2 g2).1.map ∧ (run steps1 g).2 = (run steps2 g2).2) := by
  have g1 := MapGet_value .S1 g x y hx hy
  have g2' := MapGet_value .S2 g x y hx hy
  have g3 := MapGet_value .S3 g x y hx hy
  have s1 := MapSet_map .S1 g x y v hx hy
  have s2 := MapSet_map .S2 g x y v hx hy
  have s3 := MapSet_map .S3 g x y v hx hy
  simp only [MapGet, MapSet] at g1 g2' g3 s1 s2 s3
  have hvalid2 : ∀ st ∈ steps2, st.2.valid := by
    intro st hst
    have hmem : st.2 ∈ steps2.map Prod.snd := List.mem_map_of_mem _ hst
    rw [← hops] at hmem
    obtain ⟨t, ht, hte⟩ := List.mem_map.mp hmem
    rw [← hte]
    exact hvalid t ht
  have r1 := run_eq_run_flat steps1 g hvalid
  have r2 := run_eq_run_flat steps2 g2 hvalid2
  refine ⟨⟨?_, ?_, rfl⟩, ⟨?_, ?_⟩, ?_, ?_⟩
  · rw [g1, g2']
  · rw [g2', g3]
  · rw [s1, s2]
  · rw [s2, s3]
  · rw [r1.1, r2.1, hops, hg]
  · rw [r1.2, r2.2, hops, hg]

/-- Witness of C1 at cell `(3, 5)`: a write through strategy 1 followed by a read
through strategy 3, against the same operations through strategies 2 and 1. -/
theorem strategies_equivalent_witness :
    (MapGet1 ⟨0, 0, fun _ => 0, 0, 0, 0, 0⟩ 3 5 = MapGet2 ⟨0, 0, fun _ => 0, 0, 0, 0, 0⟩ 3 5 ∧
      MapGet2 ⟨0, 0, fun _ => 0, 0, 0, 0, 0⟩ 3 5 = (MapGet3 ⟨0, 0, fun _ => 0, 0, 0, 0, 0⟩ 3 5).2 ∧
      (MapGet3 ⟨0, 0, fun _ => 0, 0, 0, 0, 0⟩ 3 5).1.map = fun _ => 0) ∧
    ((MapSet1 ⟨0, 0, fun _ => 0, 0, 0, 0, 0⟩ 3 5 7).map =
        (MapSet2 ⟨0, 0, fun _ => 0, 0, 0, 0, 0⟩ 3 5 7).map ∧
      (MapSet2 ⟨0, 0, fun _ => 0, 0, 0, 0, 0⟩ 3 5 7).map =
        (MapSet3 ⟨0, 0, fun _ => 0, 0, 0, 0, 0⟩ 3 5 7).map) ∧
    ((run [(.S1, .set 3 5 7), (.S3, .get 3 5)] ⟨0, 0, fun _ => 0, 0, 0, 0, 0⟩).1.map =
        (run [(.S2, .set 3 5 7), (.S1, .get 3 5)] ⟨9, 9, fun _ => 0, 0, 0, 0, 0⟩).1.map ∧
      (run [(.S1, .set 3 5 7), (.S3, .get 3 5)] ⟨0, 0, fun _ => 0, 0, 0, 0, 0⟩).2 =
        (run [(.S2, .set 3 5 7), (.S1, .get 3 5)] ⟨9, 9, fun _ => 0, 0, 0, 0, 0⟩).2) :=
  strategies_equivalent ⟨0, 0, fun _ => 0, 0, 0, 0, 0⟩ 3 5 7 (by decide) (by decide)
    ⟨9, 9, fun _ => 0, 0, 0, 0, 0⟩ [(.S1, .set 3 5 7), (.S3, .get 3 5)]
    [(.S2, .set 3 5 7), (.S1, .get 3 5)] rfl
    (by
      intro st hst
      simp only [List.mem_cons, List.mem_singleton, List.not_mem_nil, or_false] at hst
      rcases hst with h | h <;> subst h <;> exact ⟨by decide, by decide⟩)
    rfl

/-- C2: for every grid state, every `x < 20`, `y < 12`, every byte `v` and every
pair of strategies `S`, `T`, reading `(x, y)` through `T` right after writing `v`
to `(x, y)` through `S` returns `v`. -/
theorem read_after_write (S T : Strategy) (g : Globals) (x y v : Nat) (hx : x < 20)
    (hy : y < 12) (hv : v < 256) : (MapGet T (MapSet S g x y v) x y).2 = v := by
  rw [MapGet_value T _ x y hx hy, MapSet_map S g x y v hx hy, store_same]
  exact Nat.mod_eq_of_lt hv

/-- Witness of C2: cell `(3, 5)` set to 7 through strategy 1 and read through
strategy 3 gives 7. -/
theorem read_after_write_witness :
    (MapGet .S3 (MapSet .S1 ⟨0, 0, fun _ => 0, 0, 0, 0, 0⟩ 3 5 7) 3 5).2 = 7 :=
  read_after_write .S1 .S3 ⟨0, 0, fun _ => 0, 0, 0, 0, 0⟩ 3 5 7 (by decide) (by decide)
    (by decide)

end Mapget

/-! ### The entity engine: the loops of step 09 in closed form -/

namespace Step09

theorem set_entities_loop_spec (fuel : Nat) : ∀ g : Globals, g.index1 ≤ 30 →
    30 - g.index1 ≤ fuel →
    set_entities_loop fuel g =
      { g with
        index1 := 30
        game_state :=
          { entities :=
              { x := fun i => if g.index1 ≤ i ∧ i < 30 then (i * 5) % 40
                  else g.game_state.entities.x i
                y := fun i => if g.index1 ≤ i ∧ i < 30 then i / 2 + 9
                  else g.game_state.entities.y i
                hp := fun i => if g.index1 ≤ i ∧ i < 30 then 99
                  else g.game_state.entities.hp i
                type := fun i => if g.index1 ≤ i ∧ i < 30 then ENTITY_ENEMY
                  else g.game_state.entities.type i }
            player := g.game_state.player } } := by
  induction fuel with
  | zero =>
    intro g h1 h2
    obtain ⟨k, ⟨⟨ex, ey, eh, et⟩, pl⟩, d, m, sl, sc⟩ := g
    simp only at h1 h2
    have hk : k = 30 := by omega
    subst hk
    have hf : ∀ i : Nat, ¬ (30 ≤ i ∧ i < 30) := by omega
    simp [set_entities_loop, hf]
  | succ fuel ih =>
    intro g h1 h2
    obtain ⟨k, ⟨⟨ex, ey, eh, et⟩, pl⟩, d, m, sl, sc⟩ := g
    simp only at h1 h2
    by_cases hk : k < 30
    · have hb : to_byte (k + 1) = k + 1 := to_byte_of_lt _ (by omega)
      have hx : to_byte (k * 5 % 40) = k * 5 % 40 := to_byte_of_lt _ (by omega)
      have hy : to_byte (k / 2 + 9) = k / 2 + 9 := to_byte_of_lt _ (by omega)
      simp only [set_entities_loop, NO_ENEMIES, hk, if_true, place_enemy, hb, hx, hy,
        SCREEN_SIZE_X]
      rw [ih _ (by simp only; omega) (by simp only; omega)]
      simp only [Globals.mk.injEq, SoA.s_game_state.mk.injEq, SoA.s_entity.mk.injEq, true_and, and_true]
      refine ⟨?_, ?_, ?_, ?_⟩ <;> funext i <;> simp only [store] <;>
        split_ifs <;> first | rfl | omega
    · have hk2 : k = 30 := by omega
      subst hk2
      have hf : ∀ i : Nat, ¬ (30 ≤ i ∧ i < 30) := by omega
      simp [set_entities_loop, NO_ENEMIES, hf]

theorem set_entities_loop_exit (g : Globals) :
    ¬ (set_entities_loop 256 { g with index1 := 0 }).index1 < NO_ENEMIES := by
  rw [set_entities_loop_spec 256 _ (Nat.zero_le _) (by show 30 - 0 ≤ 256; omega)]
  simp [NO_ENEMIES]

theorem set_entities_eq (g : Globals) :
    set_entities g =
      { g with
        index1 := 30
        game_state :=
          { entities :=
              { x := fun i => if i = 30 then 20 else if i < 30 then (i * 5) % 40
                  else g.game_state.entities.x i
                y := fun i => if i < 30 then i / 2 + 9 else g.game_state.entities.y i
                hp := fun i => if i = 30 then 99 else if i < 30 then 99
                  else g.game_state.entities.hp i
                type := fun i => if i = 30 then ENTITY_PLAYER else if i < 30 then ENTITY_ENEMY
                  else g.game_state.entities.type i }
            player := g.game_state.player } } := by
  simp only [set_entities]
  rw [set_entities_loop_spec 256 _ (Nat.zero_le _) (by show 30 - 0 ≤ 256; omega)]
  simp only [Globals.mk.injEq, SoA.s_game_state.mk.injEq, SoA.s_entity.mk.injEq, true_and,
    and_true, PLAYER_INDEX, NO_ENEMIES, SCREEN_SIZE_X]
  refine ⟨?_, ?_, ?_, ?_⟩ <;> funext i <;> (try simp only [store]) <;>
    split_ifs <;> first | rfl | omega

theorem damage_enemy_hp (g : Globals) :
    (damage_enemy g).game_state.entities.hp =
      fun i => if i = g.index1 ∧ g.game_state.entities.hp i > 0
        then to_byte (g.game_state.entities.hp i + 255) else g.game_state.entities.hp i := by
  funext i
  unfold damage_enemy
  by_cases h : g.game_state.entities.hp g.index1 > 0
  · simp only [h, if_true, store]
    by_cases hi : i = g.index1
    · subst hi; simp [h]
    · simp [hi]
  · simp only [h, if_false]
    by_cases hi : i = g.index1
    · subst hi; simp [h]
    · simp [hi]

theorem damage_enemy_frame (g : Globals) :
    (damage_enemy g).index1 = g.index1 ∧
    (damage_enemy g).game_state.entities.x = g.game_state.entities.x ∧
    (damage_enemy g).game_state.entities.y = g.game_state.entities.y ∧
    (damage_enemy g).game_state.entities.type = g.game_state.entities.type ∧
    (damage_enemy g).game_state.player = g.game_state.player ∧
    (damage_enemy g).div_10_lookup = g.div_10_lookup ∧
    (damage_enemy g).mod_10_lookup = g.mod_10_lookup ∧
    (damage_enemy g).screen_line_lookup = g.screen_line_lookup ∧
    (damage_enemy g).screen = g.screen := by
  unfold damage_enemy
  split_ifs <;> exact ⟨rfl, rfl, rfl, rfl, rfl, rfl, rfl, rfl, rfl⟩

theorem draw_entity_frame (g : Globals) :
    (draw_entity g).index1 = g.index1 ∧
    (draw_entity g).game_state = g.game_state ∧
    (draw_entity g).div_10_lookup = g.div_10_lookup ∧
    (draw_entity g).mod_10_lookup = g.mod_10_lookup ∧
    (draw_entity g).screen_line_lookup = g.screen_line_lookup :=
  ⟨rfl, rfl, rfl, rfl, rfl⟩

theorem one_frame_loop_spec (fuel : Nat) : ∀ g : Globals, g.index1 ≤ 30 →
    30 - g.index1 ≤ fuel →
    (one_frame_loop fuel g).index1 = 30 ∧
    (one_frame_loop fuel g).game_state.entities.x = g.game_state.entities.x ∧
    (one_frame_loop fuel g).game_state.entities.y = g.game_state.entities.y ∧
    (one_frame_loop fuel g).game_state.entities.type = g.game_state.entities.type ∧
    (one_frame_loop fuel g).game_state.player = g.game_state.player ∧
    (one_frame_loop fuel g).div_10_lookup = g.div_10_lookup ∧
    (one_frame_loop fuel g).mod_10_lookup = g.mod_10_lookup ∧
    (one_frame_loop fuel g).screen_line_lookup = g.screen_line_lookup ∧
    (one_frame_loop fuel g).game_state.entities.hp =
      fun i => if g.index1 ≤ i ∧ i < 30 ∧ g.game_state.entities.hp i > 0
        then to_byte (g.game_state.entities.hp i + 255) else g.game_state.entities.hp i := by
  induction fuel with
  | zero =>
    intro g h1 h2
    have hk : g.index1 = 30 := by omega
    refine ⟨hk, rfl, rfl, rfl, rfl, rfl, rfl, rfl, ?_⟩
    funext i
    have : ¬ (g.index1 ≤ i ∧ i < 30 ∧ g.game_state.entities.hp i > 0) := by omega
    simp only [one_frame_loop, this, if_false]
  | succ fuel ih =>
    intro g h1 h2
    by_cases hk : g.index1 < 30
    · have hb : to_byte (g.index1 + 1) = g.index1 + 1 := to_byte_of_lt _ (by omega)
      obtain ⟨d1, d2, d3, d4, d5, d6, d7, d8, _⟩ := damage_enemy_frame g
      have dh := damage_enemy_hp g
      have hstep : one_frame_loop (fuel + 1) g =
          one_frame_loop fuel
            { draw_entity (damage_enemy g) with index1 := g.index1 + 1 } := by
        simp only [one_frame_loop, NO_ENEMIES, hk, if_true]
        rw [show (draw_entity (damage_enemy g)).index1 = g.index1 from d1, hb]
      rw [hstep]
      obtain ⟨i1, i2, i3, i4, i5, i6, i7, i8, i9⟩ :=
        ih { draw_entity (damage_enemy g) with index1 := g.index1 + 1 }
          (by simp only; omega) (by simp only; omega)
      refine ⟨i1, i2.trans d2, i3.trans d3, i4.trans d4, i5.trans d5, i6.trans d6,
        i7.trans d7, i8.trans d8, ?_⟩
      rw [i9]
      funext i
      show (if g.index1 + 1 ≤ i ∧ i < 30 ∧ (damage_enemy g).game_state.entities.hp i > 0
        then to_byte ((damage_enemy g).game_state.entities.hp i + 255)
        else (damage_enemy g).game_state.entities.hp i) = _
      rw [dh]
      simp only
      by_cases hi : i = g.index1
      · rw [hi]
        have : ¬ (g.index1 + 1 ≤ g.index1 ∧ g.index1 < 30 ∧
            (if g.index1 = g.index1 ∧ g.game_state.entities.hp g.index1 > 0
              then to_byte (g.game_state.entities.hp g.index1 + 255)
              else g.game_state.entities.hp g.index1) > 0) := by omega
        have hlt : ¬ (g.index1 + 1 ≤ g.index1) := by omega
        simp only [hlt, false_and, if_false, true_and, le_refl, hk]
      · have e1 : (i = g.index1 ∧ g.game_state.entities.hp i > 0) ↔ False := by
          constructor
          · intro h; exact hi h.1
          · intro h; exact h.elim
        simp only [e1, if_false]
        by_cases hc : g.index1 + 1 ≤ i ∧ i < 30 ∧ g.game_state.entities.hp i > 0
        · have hc2 : g.index1 ≤ i ∧ i < 30 ∧ g.game_state.entities.hp i > 0 := by omega
          simp only [hc, hc2, if_true]
        · have hc2 : ¬ (g.index1 ≤ i ∧ i < 30 ∧ g.game_state.entities.hp i > 0) := by omega
          simp only [hc, hc2, if_false]
    · have hk2 : g.index1 = 30 := by omega
      have hstep : one_frame_loop (fuel + 1) g = g := by
        simp only [one_frame_loop, NO_ENEMIES, hk, if_false]
      rw [hstep]
      refine ⟨hk2, rfl, rfl, rfl, rfl, rfl, rfl, rfl, ?_⟩
      funext i
      have : ¬ (g.index1 ≤ i ∧ i < 30 ∧ g.game_state.entities.hp i > 0) := by omega
      simp only [this, if_false]

theorem init_screen_loop_spec (sp : Nat) (fuel : Nat) : ∀ g : Globals, g.index1 ≤ 24 →
    24 - g.index1 ≤ fuel →
    init_screen_loop sp fuel g =
      { g with
        index1 := 24
        screen_line_lookup := fun y => if g.index1 ≤ y ∧ y < 24 then sp + y * 40
          else g.screen_line_lookup y } := by
  induction fuel with
  | zero =>
    intro g h1 h2
    obtain ⟨k, gs, d, m, sl, sc⟩ := g
    simp only at h1 h2
    have hk : k = 24 := by omega
    subst hk
    have hf : ∀ i : Nat, ¬ (24 ≤ i ∧ i < 24) := by omega
    simp [init_screen_loop, hf]
  | succ fuel ih =>
    intro g h1 h2
    obtain ⟨k, gs, d, m, sl, sc⟩ := g
    simp only at h1 h2
    by_cases hk : k < 24
    · have hb : to_byte (k + 1) = k + 1 := to_byte_of_lt _ (by omega)
      simp only [init_screen_loop, SCREEN_SIZE_Y, hk, if_true, hb, SCREEN_SIZE_X]
      rw [ih _ (by simp only; omega) (by simp only; omega)]
      simp only [Globals.mk.injEq, true_and, and_true]
      funext i
      simp only [store]
      split_ifs <;> first | rfl | omega
    · have hk2 : k = 24 := by omega
      subst hk2
      have hf : ∀ i : Nat, ¬ (24 ≤ i ∧ i < 24) := by omega
      simp [init_screen_loop, SCREEN_SIZE_Y, hf]

theorem init_digit_loop_spec (fuel : Nat) : ∀ g : Globals, g.index1 ≤ 100 →
    100 - g.index1 ≤ fuel →
    init_digit_loop fuel g =
      { g with
        index1 := 100
        div_10_lookup := fun h => if g.index1 ≤ h ∧ h < 100 then h / 10 + 16
          else g.div_10_lookup h
        mod_10_lookup := fun h => if g.index1 ≤ h ∧ h < 100 then h % 10 + 16
          else g.mod_10_lookup h } := by
  induction fuel with
  | zero =>
    intro g h1 h2
    obtain ⟨k, gs, d, m, sl, sc⟩ := g
    simp only at h1 h2
    have hk : k = 100 := by omega
    subst hk
    have hf : ∀ i : Nat, ¬ (100 ≤ i ∧ i < 100) := by omega
    simp [init_digit_loop, hf]
  | succ fuel ih =>
    intro g h1 h2
    obtain ⟨k, gs, d, m, sl, sc⟩ := g
    simp only at h1 h2
    by_cases hk : k < 100
    · have hb : to_byte (k + 1) = k + 1 := to_byte_of_lt _ (by omega)
      have hd : to_byte (k / 10 + 16) = k / 10 + 16 := to_byte_of_lt _ (by omega)
      have hm : to_byte (k % 10 + 16) = k % 10 + 16 := to_byte_of_lt _ (by omega)
      simp only [init_digit_loop, MAX_LOOKUP_VALUE, hk, if_true, hb, FIRST_DIGIT_CHAR, hd, hm]
      rw [ih _ (by simp only; omega) (by simp only; omega)]
      simp only [Globals.mk.injEq, true_and, and_true]
      refine ⟨?_, ?_⟩ <;> funext i <;> simp only [store] <;>
        split_ifs <;> first | rfl | omega
    · have hk2 : k = 100 := by omega
      subst hk2
      have hf : ∀ i : Nat, ¬ (100 ≤ i ∧ i < 100) := by omega
      simp [init_digit_loop, MAX_LOOKUP_VALUE, hf]

theorem init_lookup_tables_eq (savmsc : Nat) (g : Globals) :
    init_lookup_tables savmsc g =
      { g with
        index1 := 100
        div_10_lookup := fun h => if h < 100 then h / 10 + 16 else g.div_10_lookup h
        mod_10_lookup := fun h => if h < 100 then h % 10 + 16 else g.mod_10_lookup h
        screen_line_lookup := fun y => if y < 24 then savmsc + y * 40
          else g.screen_line_lookup y } := by
  simp only [init_lookup_tables]
  rw [init_screen_loop_spec savmsc 256 _ (Nat.zero_le _) (by show 24 - 0 ≤ 256; omega)]
  rw [init_digit_loop_spec 256 _ (Nat.zero_le _) (by show 100 - 0 ≤ 256; omega)]
  simp only [Globals.mk.injEq, true_and, and_true, Nat.zero_le]

theorem init_lookup_tables_values (savmsc : Nat) (g : Globals) (h y : Nat) (hh : h ≤ 99)
    (hy : y < 24) :
    (init_lookup_tables savmsc g).div_10_lookup h = 0x10 + h / 10 ∧
    (init_lookup_tables savmsc g).mod_10_lookup h = 0x10 + h % 10 ∧
    (init_lookup_tables savmsc g).screen_line_lookup y = savmsc + y * 40 := by
  have hh2 : h < 100 := by omega
  rw [init_lookup_tables_eq]
  simp only [hh2, hy, if_true]
  exact ⟨by omega, by omega, trivial⟩

theorem init_lookup_tables_exit (savmsc : Nat) (g : Globals) :
    ¬ (init_screen_loop savmsc 256 { g with index1 := 0 }).index1 < SCREEN_SIZE_Y ∧
    ¬ (init_lookup_tables savmsc g).index1 < MAX_LOOKUP_VALUE := by
  rw [init_lookup_tables_eq,
    init_screen_loop_spec savmsc 256 _ (Nat.zero_le _) (by show 24 - 0 ≤ 256; omega)]
  simp [SCREEN_SIZE_Y, MAX_LOOKUP_VALUE]

theorem damage_enemy_at (g : Globals) (hb : g.game_state.entities.hp g.index1 < 256) :
    (damage_enemy g).game_state.entities.hp g.index1 = g.game_state.entities.hp g.index1 - 1 := by
  rw [damage_enemy_hp]
  simp only [to_byte, true_and]
  split_ifs <;> omega

theorem damage_enemy_iterate (n : Nat) : ∀ g : Globals,
    g.game_state.entities.hp g.index1 < 256 →
    (damage_enemy^[n] g).index1 = g.index1 ∧
    (damage_enemy^[n] g).game_state.entities.hp g.index1 =
      g.game_state.entities.hp g.index1 - n := by
  induction n with
  | zero => intro g _; exact ⟨rfl, rfl⟩
  | succ n ih =>
    intro g hb
    have h1 := damage_enemy_at g hb
    have hidx : (damage_enemy g).index1 = g.index1 := (damage_enemy_frame g).1
    have hb2 : (damage_enemy g).game_state.entities.hp (damage_enemy g).index1 < 256 := by
      rw [hidx, h1]; omega
    obtain ⟨i1, i2⟩ := ih (damage_enemy g) hb2
    rw [Function.iterate_succ_apply]
    rw [hidx] at i1 i2
    refine ⟨i1, ?_⟩
    rw [i2, h1]
    omega

end Step09

namespace AoS

theorem deref_assign (gs : s_game_state) (p : entity_ptr) (e : s_entity) :
    deref (assign gs p e) p = e := by
  cases p <;> simp [deref, assign]

end AoS

namespace Step04

theorem damage_enemy_ptr_eq_step04 (g : Globals) :
    (damage_enemy g).damage_enemy_ptr = g.damage_enemy_ptr := by
  unfold damage_enemy
  split_ifs <;> rfl

theorem damage_enemy_at_step04 (g : Globals)
    (hb : (AoS.deref g.game_state g.damage_enemy_ptr).hp < 256) :
    (AoS.deref (damage_enemy g).game_state g.damage_enemy_ptr).hp =
      (AoS.deref g.game_state g.damage_enemy_ptr).hp - 1 := by
  unfold damage_enemy
  split_ifs with h
  · simp only [AoS.deref_assign, to_byte]
    omega
  · omega

theorem damage_enemy_iterate_step04 (n : Nat) : ∀ g : Globals,
    (AoS.deref g.game_state g.damage_enemy_ptr).hp < 256 →
    (damage_enemy^[n] g).damage_enemy_ptr = g.damage_enemy_ptr ∧
    (AoS.deref (damage_enemy^[n] g).game_state g.damage_enemy_ptr).hp =
      (AoS.deref g.game_state g.damage_enemy_ptr).hp - n := by
  induction n with
  | zero => intro g _; exact ⟨rfl, rfl⟩
  | succ n ih =>
    intro g hb
    have h1 := damage_enemy_at_step04 g hb
    have hidx := damage_enemy_ptr_eq_step04 g
    have hb2 : (AoS.deref (damage_enemy g).game_state (damage_enemy g).damage_enemy_ptr).hp
        < 256 := by
      rw [hidx, h1]; omega
    obtain ⟨i1, i2⟩ := ih (damage_enemy g) hb2
    rw [Function.iterate_succ_apply]
    rw [hidx] at i1 i2
    refine ⟨i1, ?_⟩
    rw [i2, h1]
    omega

end Step04

/-- C3: `damage_enemy` (tick) on the slot it is pointed at (`index1` in step 09,
`damage_enemy_ptr` in step 04), whose health is a byte: a positive health
becomes exactly that health minus one, a health of 0 stays 0 (it does not wrap
to 255), the health never increases, and from health 99 both 99 and 100
applications give 0. -/
theorem damage_enemy_saturating (g : Step09.Globals) (g4 : Step04.Globals)
    (hb : g.game_state.entities.hp g.index1 < 256)
    (hb4 : (AoS.deref g4.game_state g4.damage_enemy_ptr).hp < 256) :
    ((0 < g.game_state.entities.hp g.index1 →
        (Step09.damage_enemy g).game_state.entities.hp g.index1 =
          g.game_state.entities.hp g.index1 - 1) ∧
      (g.game_state.entities.hp g.index1 = 0 →
        (Step09.damage_enemy g).game_state.entities.hp g.index1 = 0) ∧
      (Step09.damage_enemy g).game_state.entities.hp g.index1 ≤
        g.game_state.entities.hp g.index1 ∧
      (g.game_state.entities.hp g.index1 = 99 →
        (Step09.damage_enemy^[99] g).game_state.entities.hp g.index1 = 0 ∧
        (Step09.damage_enemy^[100] g).game_state.entities.hp g.index1 = 0)) ∧
    ((0 < (AoS.deref g4.game_state g4.damage_enemy_ptr).hp →
        (AoS.deref (Step04.damage_enemy g4).game_state g4.damage_enemy_ptr).hp =
          (AoS.deref g4.game_state g4.damage_enemy_ptr).hp - 1) ∧
      ((AoS.deref g4.game_state g4.damage_enemy_ptr).hp = 0 →
        (AoS.deref (Step04.damage_enemy g4).game_state g4.damage_enemy_ptr).hp = 0) ∧
      (AoS.deref (Step04.damage_enemy g4).game_state g4.damage_enemy_ptr).hp ≤
        (AoS.deref g4.game_state g4.damage_enemy_ptr).hp ∧
      ((AoS.deref g4.game_state g4.damage_enemy_ptr).hp = 99 →
        (AoS.deref (Step04.damage_enemy^[99] g4).game_state g4.damage_enemy_ptr).hp = 0 ∧
        (AoS.deref (Step04.damage_enemy^[100] g4).game_state g4.damage_enemy_ptr).hp = 0)) := by
  have a1 := Step09.damage_enemy_at g hb
  have a2 := (Step09.damage_enemy_iterate 99 g hb).2
  have a3 := (Step09.damage_enemy_iterate 100 g hb).2
  have b1 := Step04.damage_enemy_at_step04 g4 hb4
  have b2 := (Step04.damage_enemy_iterate_step04 99 g4 hb4).2
  have b3 := (Step04.damage_enemy_iterate_step04 100 g4 hb4).2
  refine ⟨⟨fun _ => a1, fun h0 => ?_, ?_, fun h99 => ⟨?_, ?_⟩⟩,
    ⟨fun _ => b1, fun h0 => ?_, ?_, fun h99 => ⟨?_, ?_⟩⟩⟩
  · rw [a1, h0]
  · rw [a1]; omega
  · rw [a2, h99]
  · rw [a3, h99]
  · rw [b1, h0]
  · rw [b1]; omega
  · rw [b2, h99]
  · rw [b3, h99]


/-- Witness of C3: enemy slot 3 of step 09 and the enemy `damage_enemy_ptr`
points to in step 04, both at health 99, are at health 98 after one tick. -/
theorem damage_enemy_saturating_witness :
    (Step09.damage_enemy
        ⟨3, ⟨⟨fun _ => 0, fun _ => 0, fun _ => 99, fun _ => 2⟩, ⟨0⟩⟩,
          fun _ => 0, fun _ => 0, fun _ => 0, fun _ => 0⟩).game_state.entities.hp 3 = 98 ∧
    (AoS.deref (Step04.damage_enemy
        ⟨0, ⟨fun _ => ⟨0, 0, 99, 2⟩, ⟨⟨20, 0, 99, 1⟩, 0⟩⟩, .enemy 0, .enemy 0, .enemy 3,
          fun _ => 0⟩).game_state (.enemy 3)).hp = 98 :=
  have h := damage_enemy_saturating
    ⟨3, ⟨⟨fun _ => 0, fun _ => 0, fun _ => 99, fun _ => 2⟩, ⟨0⟩⟩,
      fun _ => 0, fun _ => 0, fun _ => 0, fun _ => 0⟩
    ⟨0, ⟨fun _ => ⟨0, 0, 99, 2⟩, ⟨⟨20, 0, 99, 1⟩, 0⟩⟩, .enemy 0, .enemy 0, .enemy 3,
      fun _ => 0⟩
    (by decide) (by decide)
  ⟨h.1.1 (by decide), h.2.1 (by decide)⟩

namespace Step05

theorem set_entities_loop_spec_step05 (fuel : Nat) : ∀ (index : Nat) (g : Globals), index ≤ 30 →
    30 - index ≤ fuel →
    set_entities_loop fuel index g =
      { g with
        place_enemy_index := if index < 30 then 29 else g.place_enemy_index
        game_state :=
          { entities :=
              { x := fun i => if index ≤ i ∧ i < 30 then (i * 5) % 40
                  else g.game_state.entities.x i
                y := fun i => if index ≤ i ∧ i < 30 then i / 2 + 9
                  else g.game_state.entities.y i
                hp := fun i => if index ≤ i ∧ i < 30 then 99
                  else g.game_state.entities.hp i
                type := fun i => if index ≤ i ∧ i < 30 then ENTITY_ENEMY
                  else g.game_state.entities.type i }
            player := g.game_state.player } } := by
  induction fuel with
  | zero =>
    intro k g h1 h2
    obtain ⟨sp, ⟨⟨ex, ey, eh, et⟩, pl⟩, pi, di, dmi, sc⟩ := g
    have hk : k = 30 := by omega
    subst hk
    have hf : ∀ i : Nat, ¬ (30 ≤ i ∧ i < 30) := by omega
    simp [set_entities_loop, hf]
  | succ fuel ih =>
    intro k g h1 h2
    obtain ⟨sp, ⟨⟨ex, ey, eh, et⟩, pl⟩, pi, di, dmi, sc⟩ := g
    by_cases hk : k < 30
    · have hb : to_byte (k + 1) = k + 1 := to_byte_of_lt _ (by omega)
      have hx : to_byte (k * 5 % 40) = k * 5 % 40 := to_byte_of_lt _ (by omega)
      have hy : to_byte (k / 2 + 9) = k / 2 + 9 := to_byte_of_lt _ (by omega)
      simp only [set_entities_loop, NO_ENEMIES, hk, if_true, place_enemy, hb, hx, hy,
        SCREEN_SIZE_X]
      rw [ih _ _ (by omega) (by omega)]
      simp only [Globals.mk.injEq, SoA.s_game_state.mk.injEq, SoA.s_entity.mk.injEq, true_and,
        and_true]
      refine ⟨⟨?_, ?_, ?_, ?_⟩, ?_⟩
      · funext i; simp only [store]; split_ifs <;> first | rfl | omega
      · funext i; simp only [store]; split_ifs <;> first | rfl | omega
      · funext i; simp only [store]; split_ifs <;> first | rfl | omega
      · funext i; simp only [store]; split_ifs <;> first | rfl | omega
      · split_ifs <;> omega
    · have hk2 : k = 30 := by omega
      subst hk2
      have hf : ∀ i : Nat, ¬ (30 ≤ i ∧ i < 30) := by omega
      simp [set_entities_loop, NO_ENEMIES, hf]

theorem set_entities_loop_fuel_step05 (fuel : Nat) (g : Globals) (h : 30 ≤ fuel) :
    set_entities_loop fuel 0 g = set_entities_loop 256 0 g := by
  rw [set_entities_loop_spec_step05 fuel 0 g (Nat.zero_le _) (by omega),
    set_entities_loop_spec_step05 256 0 g (Nat.zero_le _) (by omega)]

theorem set_entities_eq_step05 (g : Globals) :
    set_entities g =
      { g with
        place_enemy_index := 29
        game_state :=
          { entities :=
              { x := fun i => if i = 30 then 20 else if i < 30 then (i * 5) % 40
                  else g.game_state.entities.x i
                y := fun i => if i < 30 then i / 2 + 9 else g.game_state.entities.y i
                hp := fun i => if i = 30 then 99 else if i < 30 then 99
                  else g.game_state.entities.hp i
                type := fun i => if i = 30 then ENTITY_PLAYER else if i < 30 then ENTITY_ENEMY
                  else g.game_state.entities.type i }
            player := g.game_state.player } } := by
  simp only [set_entities]
  rw [set_entities_loop_spec_step05 256 0 g (Nat.zero_le _) (by omega)]
  simp only [Globals.mk.injEq, SoA.s_game_state.mk.injEq, SoA.s_entity.mk.injEq, true_and,
    and_true, PLAYER_INDEX, NO_ENEMIES, SCREEN_SIZE_X]
  refine ⟨⟨?_, ?_, ?_, ?_⟩, ?_⟩
  · funext i; simp only [store]; split_ifs <;> first | rfl | omega
  · funext i; split_ifs <;> first | rfl | omega
  · funext i; simp only [store]; split_ifs <;> first | rfl | omega
  · funext i; simp only [store]; split_ifs <;> first | rfl | omega
  · rfl

end Step05

namespace Step02

theorem set_entities_loop_spec_step02 (fuel : Nat) : ∀ (index : Nat) (gs : s_game_state),
    index ≤ 30 → 30 - index ≤ fuel →
    set_entities_loop fuel index gs =
      { gs with
        enemies := fun j => if index ≤ j ∧ j < 30
          then ⟨((j : Int) * 5) % 40, (j : Int) / 2 + 9, 99, 2⟩ else gs.enemies j } := by
  induction fuel with
  | zero =>
    intro k gs h1 h2
    obtain ⟨en, pl⟩ := gs
    have hk : k = 30 := by omega
    subst hk
    have hf : ∀ i : Nat, ¬ (30 ≤ i ∧ i < 30) := by omega
    simp [set_entities_loop, hf]
  | succ fuel ih =>
    intro k gs h1 h2
    obtain ⟨en, pl⟩ := gs
    by_cases hk : k < 30
    · simp only [set_entities_loop, NO_ENEMIES, hk, if_true, place_enemy, SCREEN_SIZE_X,
        ENTITY_ENEMY]
      rw [ih _ _ (by omega) (by omega)]
      simp only [s_game_state.mk.injEq, and_true]
      funext j
      split_ifs <;> first | rfl | omega | (subst_vars; rfl)
    · have hk2 : k = 30 := by omega
      subst hk2
      have hf : ∀ i : Nat, ¬ (30 ≤ i ∧ i < 30) := by omega
      simp [set_entities_loop, NO_ENEMIES, hf]

theorem set_entities_loop_fuel_step02 (fuel : Nat) (gs : s_game_state) (h : 30 ≤ fuel) :
    set_entities_loop fuel 0 gs = set_entities_loop NO_ENEMIES 0 gs := by
  rw [set_entities_loop_spec_step02 fuel 0 gs (Nat.zero_le _) (by omega),
    set_entities_loop_spec_step02 NO_ENEMIES 0 gs (Nat.zero_le _) (by simp [NO_ENEMIES])]

theorem set_entities_eq_step02 (gs : s_game_state) :
    set_entities gs =
      { enemies := fun j => if j < 30
          then ⟨((j : Int) * 5) % 40, (j : Int) / 2 + 9, 99, 2⟩ else gs.enemies j
        player :=
          { entity := { x := 20, y := gs.player.entity.y, hp := 99, type := 1 }
            attack := gs.player.attack } } := by
  simp only [set_entities]
  rw [set_entities_loop_spec_step02 NO_ENEMIES 0 gs (Nat.zero_le _) (by simp [NO_ENEMIES])]
  simp only [s_game_state.mk.injEq, s_player.mk.injEq, s_entity.mk.injEq, Nat.zero_le, true_and,
    and_true, SCREEN_SIZE_X, ENTITY_PLAYER]
  exact ⟨rfl, rfl⟩

end Step02

/-- C4: for every prior game state and every `i` in `[0, 30)`, after
`set_entities` (step 09, and likewise step 05) enemy slot `i` has
`x = (i*5) mod 40`, `y = i/2 + 9`, `hp = 99` and `type = ENTITY_ENEMY`. -/
theorem set_entities_places_enemies (g : Step09.Globals) (g5 : Step05.Globals) (i : Nat)
    (hi : i < 30) :
    ((Step09.set_entities g).game_state.entities.x i = (i * 5) % 40 ∧
      (Step09.set_entities g).game_state.entities.y i = i / 2 + 9 ∧
      (Step09.set_entities g).game_state.entities.hp i = 99 ∧
      (Step09.set_entities g).game_state.entities.type i = ENTITY_ENEMY) ∧
    ((Step05.set_entities g5).game_state.entities.x i = (i * 5) % 40 ∧
      (Step05.set_entities g5).game_state.entities.y i = i / 2 + 9 ∧
      (Step05.set_entities g5).game_state.entities.hp i = 99 ∧
      (Step05.set_entities g5).game_state.entities.type i = ENTITY_ENEMY) := by
  have hne : i ≠ 30 := by omega
  rw [Step09.set_entities_eq, Step05.set_entities_eq_step05]
  simp only [hi, hne, if_true, if_false, and_self]

/-- Witness of C4: enemy slot 7 after `set_entities` on states filled with 9. -/
theorem set_entities_places_enemies_witness :
    ((Step09.set_entities
        ⟨9, ⟨⟨fun _ => 9, fun _ => 9, fun _ => 9, fun _ => 9⟩, ⟨9⟩⟩,
          fun _ => 0, fun _ => 0, fun _ => 0, fun _ => 0⟩).game_state.entities.x 7 = 35 ∧
      (Step09.set_entities
        ⟨9, ⟨⟨fun _ => 9, fun _ => 9, fun _ => 9, fun _ => 9⟩, ⟨9⟩⟩,
          fun _ => 0, fun _ => 0, fun _ => 0, fun _ => 0⟩).game_state.entities.y 7 = 12) ∧
    ((Step05.set_entities
        ⟨0, ⟨⟨fun _ => 9, fun _ => 9, fun _ => 9, fun _ => 9⟩, ⟨9⟩⟩, 9, 9, 9,
          fun _ => 0⟩).game_state.entities.x 7 = 35 ∧
      (Step05.set_entities
        ⟨0, ⟨⟨fun _ => 9, fun _ => 9, fun _ => 9, fun _ => 9⟩, ⟨9⟩⟩, 9, 9, 9,
          fun _ => 0⟩).game_state.entities.y 7 = 12) :=
  have h := set_entities_places_enemies
    ⟨9, ⟨⟨fun _ => 9, fun _ => 9, fun _ => 9, fun _ => 9⟩, ⟨9⟩⟩,
      fun _ => 0, fun _ => 0, fun _ => 0, fun _ => 0⟩
    ⟨0, ⟨⟨fun _ => 9, fun _ => 9, fun _ => 9, fun _ => 9⟩, ⟨9⟩⟩, 9, 9, 9, fun _ => 0⟩
    7 (by decide)
  ⟨⟨h.1.1, h.1.2.1⟩, ⟨h.2.1, h.2.2.1⟩⟩

/-- C5, the code at the failing input: `set_entities` gives the player slot
`x = 20`, `hp = 99` and `type = ENTITY_PLAYER`, and leaves its `y` as it was:
row 5 from a prior state whose player row is 5, row 0 from one whose player row
is 0, in step 09 (slot 30) and in step 02 (`player.entity`). -/
theorem set_entities_keeps_player_row :
    ((Step09.set_entities
        ⟨0, ⟨⟨fun _ => 0, fun i => if i = 30 then 5 else 0, fun _ => 0, fun _ => 0⟩, ⟨0⟩⟩,
          fun _ => 0, fun _ => 0, fun _ => 0, fun _ => 0⟩).game_state.entities.x 30 = 20 ∧
      (Step09.set_entities
        ⟨0, ⟨⟨fun _ => 0, fun i => if i = 30 then 5 else 0, fun _ => 0, fun _ => 0⟩, ⟨0⟩⟩,
          fun _ => 0, fun _ => 0, fun _ => 0, fun _ => 0⟩).game_state.entities.hp 30 = 99 ∧
      (Step09.set_entities
        ⟨0, ⟨⟨fun _ => 0, fun i => if i = 30 then 5 else 0, fun _ => 0, fun _ => 0⟩, ⟨0⟩⟩,
          fun _ => 0, fun _ => 0, fun _ => 0, fun _ => 0⟩).game_state.entities.type 30 =
        ENTITY_PLAYER ∧
      (Step09.set_entities
        ⟨0, ⟨⟨fun _ => 0, fun i => if i = 30 then 5 else 0, fun _ => 0, fun _ => 0⟩, ⟨0⟩⟩,
          fun _ => 0, fun _ => 0, fun _ => 0, fun _ => 0⟩).game_state.entities.y 30 = 5 ∧
      (Step09.set_entities
        ⟨0, ⟨⟨fun _ => 0, fun _ => 0, fun _ => 0, fun _ => 0⟩, ⟨0⟩⟩,
          fun _ => 0, fun _ => 0, fun _ => 0, fun _ => 0⟩).game_state.entities.y 30 = 0) ∧
    ((Step02.set_entities
        ⟨fun _ => ⟨0, 0, 0, 0⟩, ⟨⟨0, 5, 0, 0⟩, 0⟩⟩).player.entity = ⟨20, 5, 99, 1⟩ ∧
      (Step02.set_entities
        ⟨fun _ => ⟨0, 0, 0, 0⟩, ⟨⟨0, 0, 0, 0⟩, 0⟩⟩).player.entity = ⟨20, 0, 99, 1⟩) := by
  refine ⟨⟨?_, ?_, ?_, ?_, ?_⟩, ?_, ?_⟩ <;> decide


/-- C6: after `init_lookup_tables`, for every `h` in `[0, 99]`,
`div_10_lookup[h] = 0x10 + h / 10` and `mod_10_lookup[h] = 0x10 + h mod 10`, the
display characters of the tens and ones digits of `h`, and for every `y` in
`[0, 24)`, `screen_line_lookup[y]` is the surface base plus `y * 40`. -/
theorem init_lookup_tables_entries (savmsc : Nat) (g : Step09.Globals) (h y : Nat)
    (hh : h ≤ 99) (hy : y < 24) :
    (Step09.init_lookup_tables savmsc g).div_10_lookup h = 0x10 + h / 10 ∧
    (Step09.init_lookup_tables savmsc g).mod_10_lookup h = 0x10 + h % 10 ∧
    (Step09.init_lookup_tables savmsc g).screen_line_lookup y = savmsc + y * 40 := by
  exact Step09.init_lookup_tables_values savmsc g h y hh hy

/-- Witness of C6: the entries for health 47 and row 5, with the surface at
address 40000. -/
theorem init_lookup_tables_entries_witness :
    (Step09.init_lookup_tables 40000
        ⟨0, ⟨⟨fun _ => 0, fun _ => 0, fun _ => 0, fun _ => 0⟩, ⟨0⟩⟩,
          fun _ => 0, fun _ => 0, fun _ => 0, fun _ => 0⟩).div_10_lookup 47 = 0x10 + 47 / 10 ∧
    (Step09.init_lookup_tables 40000
        ⟨0, ⟨⟨fun _ => 0, fun _ => 0, fun _ => 0, fun _ => 0⟩, ⟨0⟩⟩,
          fun _ => 0, fun _ => 0, fun _ => 0, fun _ => 0⟩).mod_10_lookup 47 = 0x10 + 47 % 10 ∧
    (Step09.init_lookup_tables 40000
        ⟨0, ⟨⟨fun _ => 0, fun _ => 0, fun _ => 0, fun _ => 0⟩, ⟨0⟩⟩,
          fun _ => 0, fun _ => 0, fun _ => 0, fun _ => 0⟩).screen_line_lookup 5 =
      40000 + 5 * 40 :=
  init_lookup_tables_entries 40000
    ⟨0, ⟨⟨fun _ => 0, fun _ => 0, fun _ => 0, fun _ => 0⟩, ⟨0⟩⟩,
      fun _ => 0, fun _ => 0, fun _ => 0, fun _ => 0⟩ 47 5 (by decide) (by decide)

namespace Step09

theorem get_entity_tile_eq (t : Nat) (ht : t ≤ 2) :
    get_entity_tile.getD t 0 =
      if t = ENTITY_DEAD then Char.toNat 'x'
      else if t = ENTITY_PLAYER then Char.toNat 'p' else Char.toNat 'e' := by
  interval_cases t <;> rfl

theorem with_tables_fields (savmsc : Nat) (g0 : Globals) (i : Nat) (gs : SoA.s_game_state)
    (sc : Nat → Nat) :
    (with_tables savmsc g0 i gs sc).index1 = i ∧
    (with_tables savmsc g0 i gs sc).game_state = gs ∧
    (with_tables savmsc g0 i gs sc).screen = sc ∧
    (with_tables savmsc g0 i gs sc).div_10_lookup = (init_lookup_tables savmsc g0).div_10_lookup ∧
    (with_tables savmsc g0 i gs sc).mod_10_lookup = (init_lookup_tables savmsc g0).mod_10_lookup ∧
    (with_tables savmsc g0 i gs sc).screen_line_lookup =
      (init_lookup_tables savmsc g0).screen_line_lookup := by
  simp only [with_tables, and_self]

theorem draw_entity_screen (g : Globals) :
    (draw_entity g).screen =
      store (store (store g.screen
        (g.screen_line_lookup (g.game_state.entities.y g.index1) +
          g.game_state.entities.x g.index1)
        (get_entity_tile.getD (g.game_state.entities.type g.index1) 0))
        (g.screen_line_lookup (g.game_state.entities.y g.index1) +
          g.game_state.entities.x g.index1 + 1)
        (g.div_10_lookup (g.game_state.entities.hp g.index1)))
        (g.screen_line_lookup (g.game_state.entities.y g.index1) +
          g.game_state.entities.x g.index1 + 1 + 1)
        (g.mod_10_lookup (g.game_state.entities.hp g.index1)) :=
  rfl

end Step09

/-- C7: after `init_lookup_tables`, for every slot index whose `y < 24`,
`hp <= 99` and `type` is 0, 1 or 2, `draw_entity` writes the tile glyph (`'x'`
for Dead, `'p'` for Player, `'e'` for Enemy) at surface offset `y*40 + x`, the
tens-digit character of `hp` at the next offset and the ones-digit character at
the one after; every other surface cell and the whole entity state are
unchanged. -/
theorem draw_entity_writes (savmsc : Nat) (g0 : Step09.Globals) (i : Nat)
    (gs : SoA.s_game_state) (sc : Nat → Nat)
    (hy : gs.entities.y i < 24) (hhp : gs.entities.hp i ≤ 99) (ht : gs.entities.type i ≤ 2) :
    (Step09.draw_entity (Step09.with_tables savmsc g0 i gs sc)).screen
        (savmsc + (gs.entities.y i * 40 + gs.entities.x i)) =
      (if gs.entities.type i = ENTITY_DEAD then Char.toNat 'x'
        else if gs.entities.type i = ENTITY_PLAYER then Char.toNat 'p' else Char.toNat 'e') ∧
    (Step09.draw_entity (Step09.with_tables savmsc g0 i gs sc)).screen
        (savmsc + (gs.entities.y i * 40 + gs.entities.x i + 1)) = 0x10 + gs.entities.hp i / 10 ∧
    (Step09.draw_entity (Step09.with_tables savmsc g0 i gs sc)).screen
        (savmsc + (gs.entities.y i * 40 + gs.entities.x i + 2)) = 0x10 + gs.entities.hp i % 10 ∧
    (∀ off : Nat, off ≠ gs.entities.y i * 40 + gs.entities.x i →
      off ≠ gs.entities.y i * 40 + gs.entities.x i + 1 →
      off ≠ gs.entities.y i * 40 + gs.entities.x i + 2 →
      (Step09.draw_entity (Step09.with_tables savmsc g0 i gs sc)).screen (savmsc + off) =
        sc (savmsc + off)) ∧
    (∀ a : Nat, a < savmsc →
      (Step09.draw_entity (Step09.with_tables savmsc g0 i gs sc)).screen a = sc a) ∧
    (Step09.draw_entity (Step09.with_tables savmsc g0 i gs sc)).game_state = gs := by
  obtain ⟨w1, w2, w3, w4, w5, w6⟩ := Step09.with_tables_fields savmsc g0 i gs sc
  obtain ⟨t1, t2, t3⟩ := Step09.init_lookup_tables_values savmsc g0 (gs.entities.hp i)
    (gs.entities.y i) hhp hy
  have htile := Step09.get_entity_tile_eq (gs.entities.type i) ht
  rw [Step09.draw_entity_screen, w1, w2, w3, w4, w5, w6, t1, t2, t3, htile]
  refine ⟨?_, ?_, ?_, ?_, ?_, ?_⟩
  · rw [store_other _ _ _ _ (by omega), store_other _ _ _ _ (by omega)]
    rw [show savmsc + (gs.entities.y i * 40 + gs.entities.x i) =
      savmsc + gs.entities.y i * 40 + gs.entities.x i by omega, store_same]
  · rw [store_other _ _ _ _ (by omega)]
    rw [show savmsc + (gs.entities.y i * 40 + gs.entities.x i + 1) =
      savmsc + gs.entities.y i * 40 + gs.entities.x i + 1 by omega, store_same]
  · rw [show savmsc + (gs.entities.y i * 40 + gs.entities.x i + 2) =
      savmsc + gs.entities.y i * 40 + gs.entities.x i + 1 + 1 by omega, store_same]
  · intro off h0 h1 h2
    rw [store_other _ _ _ _ (by omega), store_other _ _ _ _ (by omega),
      store_other _ _ _ _ (by omega)]
  · intro a ha
    rw [store_other _ _ _ _ (by omega), store_other _ _ _ _ (by omega),
      store_other _ _ _ _ (by omega)]
  · rfl


/-- Witness of C7: an enemy at `(15, 10)` with health 98, the surface at
address 40000: `'e'`, then the characters of 9 and 8, at offsets 415 to 417. -/
theorem draw_entity_writes_witness :
    (Step09.draw_entity (Step09.with_tables 40000
        ⟨0, ⟨⟨fun _ => 0, fun _ => 0, fun _ => 0, fun _ => 0⟩, ⟨0⟩⟩,
          fun _ => 0, fun _ => 0, fun _ => 0, fun _ => 0⟩ 3
        ⟨⟨fun _ => 15, fun _ => 10, fun _ => 98, fun _ => 2⟩, ⟨0⟩⟩ (fun _ => 0))).screen
        (40000 + 415) = Char.toNat 'e' ∧
    (Step09.draw_entity (Step09.with_tables 40000
        ⟨0, ⟨⟨fun _ => 0, fun _ => 0, fun _ => 0, fun _ => 0⟩, ⟨0⟩⟩,
          fun _ => 0, fun _ => 0, fun _ => 0, fun _ => 0⟩ 3
        ⟨⟨fun _ => 15, fun _ => 10, fun _ => 98, fun _ => 2⟩, ⟨0⟩⟩ (fun _ => 0))).screen
        (40000 + 416) = 0x10 + 9 ∧
    (Step09.draw_entity (Step09.with_tables 40000
        ⟨0, ⟨⟨fun _ => 0, fun _ => 0, fun _ => 0, fun _ => 0⟩, ⟨0⟩⟩,
          fun _ => 0, fun _ => 0, fun _ => 0, fun _ => 0⟩ 3
        ⟨⟨fun _ => 15, fun _ => 10, fun _ => 98, fun _ => 2⟩, ⟨0⟩⟩ (fun _ => 0))).screen
        (40000 + 417) = 0x10 + 8 :=
  have h := draw_entity_writes 40000
    ⟨0, ⟨⟨fun _ => 0, fun _ => 0, fun _ => 0, fun _ => 0⟩, ⟨0⟩⟩,
      fun _ => 0, fun _ => 0, fun _ => 0, fun _ => 0⟩ 3
    ⟨⟨fun _ => 15, fun _ => 10, fun _ => 98, fun _ => 2⟩, ⟨0⟩⟩ (fun _ => 0)
    (by decide) (by decide) (by decide)
  ⟨h.1, h.2.1, h.2.2.1⟩

namespace Step08

theorem get_entity_tile_byte_step08 (t : Nat) : to_byte (get_entity_tile t) = get_entity_tile t := by
  unfold get_entity_tile
  split_ifs <;> rfl

theorem draw_entity_screen_step08 (g : Globals) :
    (draw_entity g).screen =
      store (store (store g.screen
        (g.screen_ptr + (g.game_state.entities.y g.index1 * 40 +
          g.game_state.entities.x g.index1))
        (to_byte (get_entity_tile (g.game_state.entities.type g.index1))))
        (g.screen_ptr + (g.game_state.entities.y g.index1 * 40 +
          g.game_state.entities.x g.index1) + 1)
        (to_byte (g.game_state.entities.hp g.index1 / 10 + 16)))
        (g.screen_ptr + (g.game_state.entities.y g.index1 * 40 +
          g.game_state.entities.x g.index1) + 1 + 1)
        (to_byte (g.game_state.entities.hp g.index1 % 10 + 16)) :=
  rfl

end Step08

theorem get_entity_tile_table_eq_switch (t : Nat) (ht : t ≤ 2) :
    Step09.get_entity_tile.getD t 0 = Step08.get_entity_tile t := by
  interval_cases t <;> rfl

/-- C8: for every slot whose `y < 24`, `hp <= 99` and `type` is 0, 1 or 2, the
table-driven `draw_entity` of step 09 (after `init_lookup_tables` on the surface
base `screen_ptr`) leaves the same surface as the arithmetic and `switch`
`draw_entity` of step 08: the array `get_entity_tile[type]` equals the function
`get_entity_tile(type)`, `div_10_lookup[hp]` equals `hp/10 + 0x10`,
`mod_10_lookup[hp]` equals `hp%10 + 0x10`, and `screen_line_lookup[y] + x`
equals `&screen_ptr[y*40 + x]`. -/
theorem draw_entity_tables_match_arithmetic (g0 : Step09.Globals) (g8 : Step08.Globals)
    (hy : g8.game_state.entities.y g8.index1 < 24)
    (hhp : g8.game_state.entities.hp g8.index1 ≤ 99)
    (ht : g8.game_state.entities.type g8.index1 ≤ 2) :
    Step09.get_entity_tile.getD (g8.game_state.entities.type g8.index1) 0 =
      Step08.get_entity_tile (g8.game_state.entities.type g8.index1) ∧
    (Step09.with_tables g8.screen_ptr g0 g8.index1 g8.game_state g8.screen).div_10_lookup
        (g8.game_state.entities.hp g8.index1) =
      g8.game_state.entities.hp g8.index1 / 10 + 0x10 ∧
    (Step09.with_tables g8.screen_ptr g0 g8.index1 g8.game_state g8.screen).mod_10_lookup
        (g8.game_state.entities.hp g8.index1) =
      g8.game_state.entities.hp g8.index1 % 10 + 0x10 ∧
    (Step09.with_tables g8.screen_ptr g0 g8.index1 g8.game_state g8.screen).screen_line_lookup
        (g8.game_state.entities.y g8.index1) + g8.game_state.entities.x g8.index1 =
      g8.screen_ptr + (g8.game_state.entities.y g8.index1 * 40 +
        g8.game_state.entities.x g8.index1) ∧
    (Step09.draw_entity
        (Step09.with_tables g8.screen_ptr g0 g8.index1 g8.game_state g8.screen)).screen =
      (Step08.draw_entity g8).screen ∧
    (Step09.draw_entity
        (Step09.with_tables g8.screen_ptr g0 g8.index1 g8.game_state g8.screen)).game_state =
      (Step08.draw_entity g8).game_state := by
  obtain ⟨w1, w2, w3, w4, w5, w6⟩ :=
    Step09.with_tables_fields g8.screen_ptr g0 g8.index1 g8.game_state g8.screen
  obtain ⟨t1, t2, t3⟩ := Step09.init_lookup_tables_values g8.screen_ptr g0
    (g8.game_state.entities.hp g8.index1) (g8.game_state.entities.y g8.index1) hhp hy
  have htile := get_entity_tile_table_eq_switch (g8.game_state.entities.type g8.index1) ht
  have hd : to_byte (g8.game_state.entities.hp g8.index1 / 10 + 16) =
      0x10 + g8.game_state.entities.hp g8.index1 / 10 := by
    simp only [to_byte]; omega
  have hm : to_byte (g8.game_state.entities.hp g8.index1 % 10 + 16) =
      0x10 + g8.game_state.entities.hp g8.index1 % 10 := by
    simp only [to_byte]; omega
  have hp : g8.screen_ptr + g8.game_state.entities.y g8.index1 * 40 +
      g8.game_state.entities.x g8.index1 =
      g8.screen_ptr + (g8.game_state.entities.y g8.index1 * 40 +
        g8.game_state.entities.x g8.index1) := by omega
  refine ⟨htile, ?_, ?_, ?_, ?_, rfl⟩
  · rw [w4, t1]; omega
  · rw [w5, t2]; omega
  · rw [w6, t3, hp]
  · rw [Step09.draw_entity_screen, Step08.draw_entity_screen_step08, w1, w2, w3, w4, w5, w6, t1, t2, t3,
      htile, hd, hm, hp, Step08.get_entity_tile_byte_step08]


/-- Witness of C8: an enemy at `(15, 10)` with health 98, the surface at
address 40000. -/
theorem draw_entity_tables_match_arithmetic_witness :
    (Step09.draw_entity
        (Step09.with_tables 40000
          ⟨0, ⟨⟨fun _ => 0, fun _ => 0, fun _ => 0, fun _ => 0⟩, ⟨0⟩⟩,
            fun _ => 0, fun _ => 0, fun _ => 0, fun _ => 0⟩ 3
          ⟨⟨fun _ => 15, fun _ => 10, fun _ => 98, fun _ => 2⟩, ⟨0⟩⟩ (fun _ => 0))).screen =
      (Step08.draw_entity
        ⟨3, 40000, ⟨⟨fun _ => 15, fun _ => 10, fun _ => 98, fun _ => 2⟩, ⟨0⟩⟩,
          fun _ => 0⟩).screen :=
  (draw_entity_tables_match_arithmetic
    ⟨0, ⟨⟨fun _ => 0, fun _ => 0, fun _ => 0, fun _ => 0⟩, ⟨0⟩⟩,
      fun _ => 0, fun _ => 0, fun _ => 0, fun _ => 0⟩
    ⟨3, 40000, ⟨⟨fun _ => 15, fun _ => 10, fun _ => 98, fun _ => 2⟩, ⟨0⟩⟩, fun _ => 0⟩
    (by decide) (by decide) (by decide)).2.2.2.2.1

namespace Step09

theorem one_frame_loop_exit (g : Globals) :
    ¬ (one_frame_loop 256 { g with index1 := 0 }).index1 < NO_ENEMIES := by
  rw [(one_frame_loop_spec 256 { g with index1 := 0 } (Nat.zero_le _)
    (by show 30 - 0 ≤ 256; omega)).1]
  simp [NO_ENEMIES]

theorem one_frame_spec (g : Globals) :
    (one_frame g).index1 = 30 ∧
    (one_frame g).game_state.entities.x = g.game_state.entities.x ∧
    (one_frame g).game_state.entities.y = g.game_state.entities.y ∧
    (one_frame g).game_state.entities.type = g.game_state.entities.type ∧
    (one_frame g).game_state.player = g.game_state.player ∧
    (one_frame g).div_10_lookup = g.div_10_lookup ∧
    (one_frame g).mod_10_lookup = g.mod_10_lookup ∧
    (one_frame g).screen_line_lookup = g.screen_line_lookup ∧
    (one_frame g).game_state.entities.hp =
      fun i => if i < 30 ∧ g.game_state.entities.hp i > 0
        then to_byte (g.game_state.entities.hp i + 255) else g.game_state.entities.hp i := by
  obtain ⟨_, i2, i3, i4, i5, i6, i7, i8, i9⟩ :=
    one_frame_loop_spec 256 { g with index1 := 0 } (Nat.zero_le _)
      (by show 30 - 0 ≤ 256; omega)
  refine ⟨rfl, i2, i3, i4, i5, i6, i7, i8, ?_⟩
  show (one_frame_loop 256 { g with index1 := 0 }).game_state.entities.hp = _
  rw [i9]
  funext i
  simp only [Nat.zero_le, true_and]

theorem one_frame_hp (g : Globals) (i : Nat) (hb : g.game_state.entities.hp i < 256) :
    (one_frame g).game_state.entities.hp i =
      if i < 30 then g.game_state.entities.hp i - 1 else g.game_state.entities.hp i := by
  rw [(one_frame_spec g).2.2.2.2.2.2.2.2]
  simp only [to_byte]
  split_ifs <;> omega

theorem frames_spec (n : Nat) : ∀ g : Globals,
    (frames n g).game_state.entities.x = g.game_state.entities.x ∧
    (frames n g).game_state.entities.y = g.game_state.entities.y ∧
    (frames n g).game_state.entities.type = g.game_state.entities.type ∧
    (frames n g).game_state.player = g.game_state.player ∧
    (frames n g).div_10_lookup = g.div_10_lookup ∧
    (frames n g).mod_10_lookup = g.mod_10_lookup ∧
    (frames n g).screen_line_lookup = g.screen_line_lookup ∧
    (∀ i, g.game_state.entities.hp i < 256 →
      (frames n g).game_state.entities.hp i =
        if i < 30 then g.game_state.entities.hp i - n else g.game_state.entities.hp i) := by
  induction n with
  | zero =>
    intro g
    refine ⟨rfl, rfl, rfl, rfl, rfl, rfl, rfl, ?_⟩
    intro i _
    simp [frames]
  | succ n ih =>
    intro g
    obtain ⟨_, f2, f3, f4, f5, f6, f7, f8, _⟩ := one_frame_spec g
    obtain ⟨i1, i2, i3, i4, i5, i6, i7, i8⟩ := ih (one_frame g)
    refine ⟨i1.trans f2, i2.trans f3, i3.trans f4, i4.trans f5, i5.trans f6, i6.trans f7,
      i7.trans f8, ?_⟩
    intro i hb
    have h1 := one_frame_hp g i hb
    have hb2 : (one_frame g).game_state.entities.hp i < 256 := by
      rw [h1]; split_ifs <;> omega
    show (frames n (one_frame g)).game_state.entities.hp i = _
    rw [i8 i hb2, h1]
    split_ifs <;> omega

end Step09

/-- C9: for every `n`, after `set_entities` followed by `n` calls of
`one_frame`, every enemy slot `i` in `[0, 30)` has `hp = 99 - n` when `n <= 99`
and `hp = 0` when `n >= 99`, and the player slot has `hp = 99`; one frame ticks
every enemy slot exactly once (its health goes down by one, or stays 0) and
leaves the player's health alone; after the 100 frames of `main` every enemy
is at 0 and the player at 99. -/
theorem frames_health (n : Nat) (g g1 : Step09.Globals) (savmsc : Nat) (i : Nat) (hi : i < 30)
    (hb : g1.game_state.entities.hp i < 256) :
    ((n ≤ 99 → (Step09.frames n (Step09.set_entities g)).game_state.entities.hp i = 99 - n) ∧
      (99 ≤ n → (Step09.frames n (Step09.set_entities g)).game_state.entities.hp i = 0) ∧
      (Step09.frames n (Step09.set_entities g)).game_state.entities.hp PLAYER_INDEX = 99) ∧
    ((Step09.one_frame g1).game_state.entities.hp i = g1.game_state.entities.hp i - 1 ∧
      (Step09.one_frame g1).game_state.entities.hp PLAYER_INDEX =
        g1.game_state.entities.hp PLAYER_INDEX) ∧
    ((Step09.main savmsc g).game_state.entities.hp i = 0 ∧
      (Step09.main savmsc g).game_state.entities.hp PLAYER_INDEX = 99) := by
  have key : ∀ (m : Nat) (g0 : Step09.Globals),
      (Step09.frames m (Step09.set_entities g0)).game_state.entities.hp i = 99 - m ∧
      (Step09.frames m (Step09.set_entities g0)).game_state.entities.hp PLAYER_INDEX = 99 := by
    intro m g0
    have hs : ∀ j, j ≤ 30 → (Step09.set_entities g0).game_state.entities.hp j = 99 := by
      intro j hj
      rw [Step09.set_entities_eq]
      simp only
      split_ifs <;> first | rfl | omega
    have hf := (Step09.frames_spec m (Step09.set_entities g0)).2.2.2.2.2.2.2
    constructor
    · rw [hf i (by rw [hs i (by omega)]; omega), hs i (by omega)]
      simp only [hi, if_true]
    · rw [hf PLAYER_INDEX (by rw [hs _ (by simp [PLAYER_INDEX, NO_ENEMIES])]; omega),
        hs _ (by simp [PLAYER_INDEX, NO_ENEMIES])]
      simp [PLAYER_INDEX, NO_ENEMIES]
  obtain ⟨k1, k2⟩ := key n g
  obtain ⟨m1, m2⟩ := key 100 (Step09.init_lookup_tables savmsc g)
  have hmain : Step09.main savmsc g =
      Step09.frames 100 (Step09.set_entities (Step09.init_lookup_tables savmsc g)) := by
    simp only [Step09.main]
  rw [hmain]
  refine ⟨⟨fun _ => k1, fun h => ?_, k2⟩, ⟨?_, ?_⟩, ?_, m2⟩
  · rw [k1]; omega
  · rw [Step09.one_frame_hp g1 i hb]
    simp only [hi, if_true]
  · rw [(Step09.one_frame_spec g1).2.2.2.2.2.2.2.2]
    simp [PLAYER_INDEX, NO_ENEMIES]
  · exact m1


/-- Witness of C9: enemy slot 3 after `set_entities` and 100 frames from the
zero state, and after one frame from a state where every health is 99. -/
theorem frames_health_witness :
    (Step09.frames 100 (Step09.set_entities
        ⟨0, ⟨⟨fun _ => 0, fun _ => 0, fun _ => 0, fun _ => 0⟩, ⟨0⟩⟩,
          fun _ => 0, fun _ => 0, fun _ => 0, fun _ => 0⟩)).game_state.entities.hp 3 = 0 ∧
    (Step09.one_frame
        ⟨0, ⟨⟨fun _ => 0, fun _ => 0, fun _ => 99, fun _ => 2⟩, ⟨0⟩⟩,
          fun _ => 0, fun _ => 0, fun _ => 0, fun _ => 0⟩).game_state.entities.hp 3 = 99 - 1 :=
  have h := frames_health 100
    ⟨0, ⟨⟨fun _ => 0, fun _ => 0, fun _ => 0, fun _ => 0⟩, ⟨0⟩⟩,
      fun _ => 0, fun _ => 0, fun _ => 0, fun _ => 0⟩
    ⟨0, ⟨⟨fun _ => 0, fun _ => 0, fun _ => 99, fun _ => 2⟩, ⟨0⟩⟩,
      fun _ => 0, fun _ => 0, fun _ => 0, fun _ => 0⟩
    40000 3 (by decide) (by decide)
  ⟨h.1.2.1 (by decide), h.2.1.1⟩

namespace Step05

theorem damage_enemy_frame_step05 (g : Globals) :
    (damage_enemy g).game_state.entities.x = g.game_state.entities.x ∧
    (damage_enemy g).game_state.entities.y = g.game_state.entities.y ∧
    (damage_enemy g).game_state.entities.type = g.game_state.entities.type ∧
    (damage_enemy g).game_state.player = g.game_state.player ∧
    (∀ j, j ≠ g.damage_enemy_index →
      (damage_enemy g).game_state.entities.hp j = g.game_state.entities.hp j) := by
  unfold damage_enemy
  split_ifs
  · refine ⟨rfl, rfl, rfl, rfl, ?_⟩
    intro j hj
    exact store_other _ _ _ _ hj
  · exact ⟨rfl, rfl, rfl, rfl, fun _ _ => rfl⟩

theorem draw_entity_game_state_step05 (g : Globals) : (draw_entity g).game_state = g.game_state :=
  rfl

theorem one_frame_loop_spec_step05 (fuel : Nat) : ∀ (index : Nat) (g : Globals), index ≤ 30 →
    30 - index ≤ fuel →
    (one_frame_loop fuel index g).game_state.entities.x = g.game_state.entities.x ∧
    (one_frame_loop fuel index g).game_state.entities.y = g.game_state.entities.y ∧
    (one_frame_loop fuel index g).game_state.entities.type = g.game_state.entities.type ∧
    (one_frame_loop fuel index g).game_state.player = g.game_state.player ∧
    (∀ j, ¬ (index ≤ j ∧ j < 30) →
      (one_frame_loop fuel index g).game_state.entities.hp j = g.game_state.entities.hp j) := by
  induction fuel with
  | zero =>
    intro k g _ _
    exact ⟨rfl, rfl, rfl, rfl, fun _ _ => rfl⟩
  | succ fuel ih =>
    intro k g h1 h2
    by_cases hk : k < 30
    · have hb : to_byte (k + 1) = k + 1 := to_byte_of_lt _ (by omega)
      have hstep : one_frame_loop (fuel + 1) k g =
          one_frame_loop fuel (k + 1)
            (draw_entity
              { damage_enemy { g with damage_enemy_index := k } with draw_entity_index := k }) := by
        simp only [one_frame_loop, NO_ENEMIES, hk, if_true, hb]
      obtain ⟨d1, d2, d3, d4, d5⟩ := damage_enemy_frame_step05 { g with damage_enemy_index := k }
      obtain ⟨i1, i2, i3, i4, i5⟩ := ih (k + 1)
        (draw_entity
          { damage_enemy { g with damage_enemy_index := k } with draw_entity_index := k })
        (by omega) (by omega)
      rw [hstep]
      refine ⟨i1.trans d1, i2.trans d2, i3.trans d3, i4.trans d4, ?_⟩
      intro j hj
      rw [i5 j (by omega)]
      exact d5 j (by show j ≠ k; omega)
    · have hstep : one_frame_loop (fuel + 1) k g = g := by
        simp only [one_frame_loop, NO_ENEMIES, hk, if_false]
      rw [hstep]
      exact ⟨rfl, rfl, rfl, rfl, fun _ _ => rfl⟩

theorem one_frame_loop_fuel_step05 (fuel : Nat) : ∀ (fuel2 index : Nat) (g : Globals),
    index ≤ 30 → 30 - index ≤ fuel → 30 - index ≤ fuel2 →
    one_frame_loop fuel index g = one_frame_loop fuel2 index g := by
  induction fuel with
  | zero =>
    intro fuel2 k g h1 h2 _
    have hk : ¬ k < 30 := by omega
    cases fuel2 with
    | zero => rfl
    | succ f2 => simp only [one_frame_loop, NO_ENEMIES, hk, if_false]
  | succ fuel ih =>
    intro fuel2 k g h1 h2 h3
    by_cases hk : k < 30
    · have hb : to_byte (k + 1) = k + 1 := to_byte_of_lt _ (by omega)
      cases fuel2 with
      | zero => omega
      | succ f2 =>
        simp only [one_frame_loop, NO_ENEMIES, hk, if_true, hb]
        exact ih f2 (k + 1) _ (by omega) (by omega) (by omega)
    · cases fuel2 with
      | zero => simp only [one_frame_loop, NO_ENEMIES, hk, if_false]
      | succ f2 => simp only [one_frame_loop, NO_ENEMIES, hk, if_false]

theorem one_frame_frame_step05 (g : Globals) :
    (one_frame g).game_state.entities.x = g.game_state.entities.x ∧
    (one_frame g).game_state.entities.y = g.game_state.entities.y ∧
    (one_frame g).game_state.entities.type = g.game_state.entities.type ∧
    (one_frame g).game_state.player = g.game_state.player ∧
    (∀ j, ¬ j < 30 →
      (one_frame g).game_state.entities.hp j = g.game_state.entities.hp j) := by
  obtain ⟨i1, i2, i3, i4, i5⟩ := one_frame_loop_spec_step05 256 0 g (Nat.zero_le _) (by omega)
  have e : (one_frame g).game_state = (one_frame_loop 256 0 g).game_state := by
    simp only [one_frame, draw_entity]
  rw [e]
  exact ⟨i1, i2, i3, i4, fun j hj => i5 j (by omega)⟩

end Step05

/-- C10: for every game state, `one_frame` (step 09, and likewise step 05)
leaves the `x`, `y` and `type` arrays and `player.attack` unchanged and changes
no `hp` cell outside the enemy indices `[0, 30)`, so the player's `hp` is
unchanged; `damage_enemy` leaves `x`, `y`, `type` and `player.attack` unchanged
and changes no `hp` cell other than the one at its index. -/
theorem one_frame_changes_only_enemy_hp (g : Step09.Globals) (g5 : Step05.Globals) (j : Nat) :
    ((Step09.one_frame g).game_state.entities.x = g.game_state.entities.x ∧
      (Step09.one_frame g).game_state.entities.y = g.game_state.entities.y ∧
      (Step09.one_frame g).game_state.entities.type = g.game_state.entities.type ∧
      (Step09.one_frame g).game_state.player.attack = g.game_state.player.attack ∧
      (Step09.one_frame g).game_state.entities.hp PLAYER_INDEX =
        g.game_state.entities.hp PLAYER_INDEX ∧
      (¬ j < 30 →
        (Step09.one_frame g).game_state.entities.hp j = g.game_state.entities.hp j)) ∧
    ((Step09.damage_enemy g).game_state.entities.x = g.game_state.entities.x ∧
      (Step09.damage_enemy g).game_state.entities.y = g.game_state.entities.y ∧
      (Step09.damage_enemy g).game_state.entities.type = g.game_state.entities.type ∧
      (Step09.damage_enemy g).game_state.player.attack = g.game_state.player.attack ∧
      (j ≠ g.index1 →
        (Step09.damage_enemy g).game_state.entities.hp j = g.game_state.entities.hp j)) ∧
    ((Step05.one_frame g5).game_state.entities.x = g5.game_state.entities.x ∧
      (Step05.one_frame g5).game_state.entities.y = g5.game_state.entities.y ∧
      (Step05.one_frame g5).game_state.entities.type = g5.game_state.entities.type ∧
      (Step05.one_frame g5).game_state.player.attack = g5.game_state.player.attack ∧
      (Step05.one_frame g5).game_state.entities.hp PLAYER_INDEX =
        g5.game_state.entities.hp PLAYER_INDEX ∧
      (¬ j < 30 →
        (Step05.one_frame g5).game_state.entities.hp j = g5.game_state.entities.hp j)) ∧
    ((Step05.damage_enemy g5).game_state.entities.x = g5.game_state.entities.x ∧
      (Step05.damage_enemy g5).game_state.entities.y = g5.game_state.entities.y ∧
      (Step05.damage_enemy g5).game_state.entities.type = g5.game_state.entities.type ∧
      (Step05.damage_enemy g5).game_state.player.attack = g5.game_state.player.attack ∧
      (j ≠ g5.damage_enemy_index →
        (Step05.damage_enemy g5).game_state.entities.hp j = g5.game_state.entities.hp j)) := by
  obtain ⟨_, a2, a3, a4, a5, _, _, _, a9⟩ := Step09.one_frame_spec g
  obtain ⟨_, b2, b3, b4, b5, _, _, _, _⟩ := Step09.damage_enemy_frame g
  have b9 := Step09.damage_enemy_hp g
  obtain ⟨c1, c2, c3, c4, c5⟩ := Step05.one_frame_frame_step05 g5
  obtain ⟨d1, d2, d3, d4, d5⟩ := Step05.damage_enemy_frame_step05 g5
  refine ⟨⟨a2, a3, a4, by rw [a5], ?_, ?_⟩, ⟨b2, b3, b4, by rw [b5], ?_⟩,
    ⟨c1, c2, c3, by rw [c4], c5 _ (by simp [PLAYER_INDEX, NO_ENEMIES]), c5 j⟩,
    ⟨d1, d2, d3, by rw [d4], d5 j⟩⟩
  · rw [a9]; simp [PLAYER_INDEX, NO_ENEMIES]
  · intro hj; rw [a9]; simp [hj]
  · intro hj; rw [b9]; simp [hj]

/-- Witness of C10: slot 30, the player, against the cursor at slot 3. -/
theorem one_frame_changes_only_enemy_hp_witness :
    (Step09.one_frame
        ⟨3, ⟨⟨fun _ => 0, fun _ => 0, fun _ => 99, fun _ => 2⟩, ⟨0⟩⟩,
          fun _ => 0, fun _ => 0, fun _ => 0, fun _ => 0⟩).game_state.entities.hp 30 = 99 ∧
    (Step09.damage_enemy
        ⟨3, ⟨⟨fun _ => 0, fun _ => 0, fun _ => 99, fun _ => 2⟩, ⟨0⟩⟩,
          fun _ => 0, fun _ => 0, fun _ => 0, fun _ => 0⟩).game_state.entities.hp 30 = 99 ∧
    (Step05.one_frame
        ⟨0, ⟨⟨fun _ => 0, fun _ => 0, fun _ => 99, fun _ => 2⟩, ⟨0⟩⟩, 0, 0, 3,
          fun _ => 0⟩).game_state.entities.hp 30 = 99 ∧
    (Step05.damage_enemy
        ⟨0, ⟨⟨fun _ => 0, fun _ => 0, fun _ => 99, fun _ => 2⟩, ⟨0⟩⟩, 0, 0, 3,
          fun _ => 0⟩).game_state.entities.hp 30 = 99 :=
  have h := one_frame_changes_only_enemy_hp
    ⟨3, ⟨⟨fun _ => 0, fun _ => 0, fun _ => 99, fun _ => 2⟩, ⟨0⟩⟩,
      fun _ => 0, fun _ => 0, fun _ => 0, fun _ => 0⟩
    ⟨0, ⟨⟨fun _ => 0, fun _ => 0, fun _ => 99, fun _ => 2⟩, ⟨0⟩⟩, 0, 0, 3, fun _ => 0⟩ 30
  ⟨h.1.2.2.2.2.2 (by decide), h.2.1.2.2.2.2 (by decide), h.2.2.1.2.2.2.2.2 (by decide),
    h.2.2.2.2.2.2.2 (by decide)⟩


namespace Mapget

theorem test1_body_increments : increments_cell test1_body := by
  intro g hx hy
  have h := MapSet_map .S1 { g with temp := MapGet1 g g.x g.y } g.x g.y
    (MapGet1 g g.x g.y + 1) hx hy
  have hv := MapGet_value .S1 g g.x g.y hx hy
  simp only [MapGet, MapSet] at h hv
  refine ⟨?_, rfl, rfl, rfl⟩
  show (MapSet1 { g with temp := MapGet1 g g.x g.y } g.x g.y (MapGet1 g g.x g.y + 1)).map = _
  rw [h, hv]

theorem test2_body_increments : increments_cell test2_body := by
  intro g hx hy
  have h := MapSet_map .S2 { g with temp := MapGet2 g g.x g.y } g.x g.y
    (MapGet2 g g.x g.y + 1) hx hy
  have hv := MapGet_value .S2 g g.x g.y hx hy
  simp only [MapGet, MapSet] at h hv
  refine ⟨?_, rfl, rfl, rfl⟩
  show (MapSet2 { g with temp := MapGet2 g g.x g.y } g.x g.y (MapGet2 g g.x g.y + 1)).map = _
  rw [h, hv]

theorem test3_body_increments : increments_cell test3_body := by
  intro g hx hy
  have h := MapSet_map .S3 { (MapGet3 g g.x g.y).1 with temp := (MapGet3 g g.x g.y).2 } g.x g.y
    ((MapGet3 g g.x g.y).2 + 1) hx hy
  have hv := MapGet_value .S3 g g.x g.y hx hy
  simp only [MapGet, MapSet] at h hv
  refine ⟨?_, rfl, rfl, rfl⟩
  show (MapSet3 { (MapGet3 g g.x g.y).1 with temp := (MapGet3 g g.x g.y).2 } g.x g.y
    ((MapGet3 g g.x g.y).2 + 1)).map = _
  rw [h, hv]
  rfl

end Mapget

namespace Mapget

theorem x_loop_spec (body : Globals → Globals) (hbody : increments_cell body) (fuel : Nat) :
    ∀ g : Globals, g.x ≤ 20 → 20 - g.x ≤ fuel → g.y < 12 →
    (x_loop body fuel g).map =
      (fun idx => if 20 * g.y + g.x ≤ idx ∧ idx < 20 * g.y + 20
        then to_byte (g.map idx + 1) else g.map idx) ∧
    (x_loop body fuel g).x = 20 ∧ (x_loop body fuel g).y = g.y ∧
    (x_loop body fuel g).i = g.i := by
  induction fuel with
  | zero =>
    intro g h1 h2 _
    have hx : g.x = 20 := by omega
    refine ⟨?_, hx, rfl, rfl⟩
    funext idx
    have : ¬ (20 * g.y + g.x ≤ idx ∧ idx < 20 * g.y + 20) := by omega
    simp only [x_loop, this, if_false]
  | succ fuel ih =>
    intro g h1 h2 hy
    by_cases hx : g.x < 20
    · obtain ⟨b1, b2, b3, b4⟩ := hbody g hx hy
      have hb : to_byte (g.x + 1) = g.x + 1 := to_byte_of_lt _ (by omega)
      have hstep : x_loop body (fuel + 1) g =
          x_loop body fuel { body g with x := g.x + 1 } := by
        simp only [x_loop, MAP_SIZE_X, hx, if_true]
        rw [b2, hb]
      obtain ⟨i1, i2, i3, i4⟩ := ih { body g with x := g.x + 1 }
        (by show g.x + 1 ≤ 20; omega) (by show 20 - (g.x + 1) ≤ fuel; omega)
        (by show (body g).y < 12; rw [b3]; exact hy)
      rw [hstep]
      refine ⟨?_, i2, i3.trans b3, i4.trans b4⟩
      rw [i1]
      funext idx
      show (if 20 * (body g).y + (g.x + 1) ≤ idx ∧ idx < 20 * (body g).y + 20
        then to_byte ((body g).map idx + 1) else (body g).map idx) = _
      rw [b3, b1]
      simp only [store, MAP_SIZE_X]
      split_ifs <;> first | rfl | omega | (subst_vars; rfl)
    · have hx2 : g.x = 20 := by omega
      have hstep : x_loop body (fuel + 1) g = g := by
        simp only [x_loop, MAP_SIZE_X, hx, if_false]
      rw [hstep]
      refine ⟨?_, hx2, rfl, rfl⟩
      funext idx
      have : ¬ (20 * g.y + g.x ≤ idx ∧ idx < 20 * g.y + 20) := by omega
      simp only [this, if_false]

theorem y_loop_spec (body : Globals → Globals) (hbody : increments_cell body) (fuel : Nat) :
    ∀ g : Globals, g.y ≤ 12 → 12 - g.y ≤ fuel →
    (y_loop body fuel g).map =
      (fun idx => if 20 * g.y ≤ idx ∧ idx < 240
        then to_byte (g.map idx + 1) else g.map idx) ∧
    (y_loop body fuel g).y = 12 ∧ (y_loop body fuel g).i = g.i := by
  induction fuel with
  | zero =>
    intro g h1 h2
    have hy : g.y = 12 := by omega
    refine ⟨?_, hy, rfl⟩
    funext idx
    have : ¬ (20 * g.y ≤ idx ∧ idx < 240) := by omega
    simp only [y_loop, this, if_false]
  | succ fuel ih =>
    intro g h1 h2
    by_cases hy : g.y < 12
    · obtain ⟨x1, _, x3, x4⟩ := x_loop_spec body hbody 256 { g with x := 0 }
        (Nat.zero_le _) (by show 20 - 0 ≤ 256; omega) hy
      have hb : to_byte (g.y + 1) = g.y + 1 := to_byte_of_lt _ (by omega)
      have hstep : y_loop body (fuel + 1) g =
          y_loop body fuel { x_loop body 256 { g with x := 0 } with y := g.y + 1 } := by
        simp only [y_loop, MAP_SIZE_Y, hy, if_true]
        rw [x3, hb]
      obtain ⟨i1, i2, i3⟩ := ih { x_loop body 256 { g with x := 0 } with y := g.y + 1 }
        (by show g.y + 1 ≤ 12; omega) (by show 12 - (g.y + 1) ≤ fuel; omega)
      rw [hstep]
      refine ⟨?_, i2, i3.trans x4⟩
      rw [i1]
      funext idx
      show (if 20 * (g.y + 1) ≤ idx ∧ idx < 240
        then to_byte ((x_loop body 256 { g with x := 0 }).map idx + 1)
        else (x_loop body 256 { g with x := 0 }).map idx) = _
      rw [x1]
      show (if 20 * (g.y + 1) ≤ idx ∧ idx < 240
        then to_byte ((if 20 * g.y + 0 ≤ idx ∧ idx < 20 * g.y + 20
          then to_byte (g.map idx + 1) else g.map idx) + 1)
        else (if 20 * g.y + 0 ≤ idx ∧ idx < 20 * g.y + 20
          then to_byte (g.map idx + 1) else g.map idx)) = _
      split_ifs <;> first | rfl | omega
    · have hy2 : g.y = 12 := by omega
      have hstep : y_loop body (fuel + 1) g = g := by
        simp only [y_loop, MAP_SIZE_Y, hy, if_false]
      rw [hstep]
      refine ⟨?_, hy2, rfl⟩
      funext idx
      have : ¬ (20 * g.y ≤ idx ∧ idx < 240) := by omega
      simp only [this, if_false]

theorem sweep_spec (body : Globals → Globals) (hbody : increments_cell body) (g : Globals) :
    (sweep body g).map = (fun idx => if idx < 240 then to_byte (g.map idx + 1) else g.map idx) ∧
    (sweep body g).y = 12 ∧ (sweep body g).i = g.i := by
  obtain ⟨h1, h2, h3⟩ := y_loop_spec body hbody 256 { g with y := 0 } (Nat.zero_le _)
    (by show 12 - 0 ≤ 256; omega)
  refine ⟨?_, h2, h3⟩
  show (y_loop body 256 { g with y := 0 }).map = _
  rw [h1]
  funext idx
  show (if 20 * 0 ≤ idx ∧ idx < 240 then to_byte (g.map idx + 1) else g.map idx) = _
  simp only [Nat.mul_zero, Nat.zero_le, true_and]

theorem i_loop_spec (body : Globals → Globals) (hbody : increments_cell body) (fuel : Nat) :
    ∀ g : Globals, g.i ≤ 100 → 100 - g.i ≤ fuel →
    (i_loop body fuel g).map =
      (fun idx => if idx < 240 ∧ g.i < 100
        then (g.map idx + (100 - g.i)) % 256 else g.map idx) ∧
    (i_loop body fuel g).i = 100 := by
  induction fuel with
  | zero =>
    intro g h1 h2
    have hi : g.i = 100 := by omega
    refine ⟨?_, hi⟩
    funext idx
    have : ¬ (idx < 240 ∧ g.i < 100) := by omega
    simp only [i_loop, this, if_false]
  | succ fuel ih =>
    intro g h1 h2
    by_cases hi : g.i < 100
    · obtain ⟨s1, _, s3⟩ := sweep_spec body hbody g
      have hb : to_byte (g.i + 1) = g.i + 1 := to_byte_of_lt _ (by omega)
      have hstep : i_loop body (fuel + 1) g =
          i_loop body fuel { sweep body g with i := g.i + 1 } := by
        simp only [i_loop, hi, if_true]
        rw [s3, hb]
      obtain ⟨i1, i2⟩ := ih { sweep body g with i := g.i + 1 }
        (by show g.i + 1 ≤ 100; omega) (by show 100 - (g.i + 1) ≤ fuel; omega)
      rw [hstep]
      refine ⟨?_, i2⟩
      rw [i1]
      funext idx
      show (if idx < 240 ∧ g.i + 1 < 100
        then ((sweep body g).map idx + (100 - (g.i + 1))) % 256
        else (sweep body g).map idx) = _
      rw [s1]
      simp only [to_byte]
      split_ifs <;> omega
    · have hi2 : g.i = 100 := by omega
      have hstep : i_loop body (fuel + 1) g = g := by
        simp only [i_loop, hi, if_false]
      rw [hstep]
      refine ⟨?_, hi2⟩
      funext idx
      have : ¬ (idx < 240 ∧ g.i < 100) := by omega
      simp only [this, if_false]

theorem sweep_iterate (body : Globals → Globals) (hbody : increments_cell body) (n : Nat) :
    ∀ g : Globals, ((sweep body)^[n] g).map =
      fun idx => if idx < 240 ∧ 0 < n then (g.map idx + n) % 256 else g.map idx := by
  induction n with
  | zero =>
    intro g
    funext idx
    simp
  | succ n ih =>
    intro g
    rw [Function.iterate_succ_apply, ih (sweep body g), (sweep_spec body hbody g).1]
    funext idx
    simp only [to_byte]
    split_ifs <;> omega

theorem test_map (body : Globals → Globals) (hbody : increments_cell body) (g : Globals) :
    (i_loop body 256 { g with i := 0 }).map =
      (fun idx => if idx < 240 then (g.map idx + 100) % 256 else g.map idx) ∧
    (i_loop body 256 { g with i := 0 }).map = ((sweep body)^[100] g).map ∧
    (i_loop body 256 { g with i := 0 }).i = 100 := by
  obtain ⟨h1, h2⟩ := i_loop_spec body hbody 256 { g with i := 0 } (Nat.zero_le _)
    (by show 100 - 0 ≤ 256; omega)
  have h3 : (i_loop body 256 { g with i := 0 }).map =
      fun idx => if idx < 240 then (g.map idx + 100) % 256 else g.map idx := by
    rw [h1]
    funext idx
    show (if idx < 240 ∧ 0 < 100 then (g.map idx + (100 - 0)) % 256 else g.map idx) = _
    simp
  refine ⟨h3, ?_, h2⟩
  rw [h3, sweep_iterate body hbody 100 g]
  funext idx
  simp

end Mapget

/-- C11: starting from a grid whose 240 cells are all 0, one full sweep (one pass
of the `y`/`x` double loop of `test1`, of `test2` or of `test3`) leaves every
cell equal to 1: the cell of every flat index below 240, and so the value read
at every `(x, y)` of the grid through the strategy of the test. -/
theorem sweep_from_zero (g : Mapget.Globals) (idx x y : Nat)
    (hz : ∀ k, k < 240 → g.map k = 0) (hidx : idx < 240) (hx : x < 20) (hy : y < 12) :
    ((Mapget.sweep Mapget.test1_body g).map idx = 1 ∧
      (Mapget.sweep Mapget.test2_body g).map idx = 1 ∧
      (Mapget.sweep Mapget.test3_body g).map idx = 1) ∧
    (Mapget.MapGet1 (Mapget.sweep Mapget.test1_body g) x y = 1 ∧
      Mapget.MapGet2 (Mapget.sweep Mapget.test2_body g) x y = 1 ∧
      (Mapget.MapGet3 (Mapget.sweep Mapget.test3_body g) x y).2 = 1) := by
  have key : ∀ body, Mapget.increments_cell body → ∀ k, k < 240 →
      (Mapget.sweep body g).map k = 1 := by
    intro body hb k hk
    rw [(Mapget.sweep_spec body hb g).1]
    simp only [hk, if_true, hz k hk, to_byte]
  have hc : 20 * y + x < 240 := by omega
  have r1 := Mapget.MapGet_value .S1 (Mapget.sweep Mapget.test1_body g) x y hx hy
  have r2 := Mapget.MapGet_value .S2 (Mapget.sweep Mapget.test2_body g) x y hx hy
  have r3 := Mapget.MapGet_value .S3 (Mapget.sweep Mapget.test3_body g) x y hx hy
  simp only [Mapget.MapGet, Mapget.MAP_SIZE_X] at r1 r2 r3
  refine ⟨⟨key _ Mapget.test1_body_increments idx hidx,
    key _ Mapget.test2_body_increments idx hidx,
    key _ Mapget.test3_body_increments idx hidx⟩, ?_, ?_, ?_⟩
  · rw [r1]; exact key _ Mapget.test1_body_increments _ hc
  · rw [r2]; exact key _ Mapget.test2_body_increments _ hc
  · rw [r3]; exact key _ Mapget.test3_body_increments _ hc

/-- Witness of C11: the all-zero globals, flat index 105 and cell `(5, 5)`. -/
theorem sweep_from_zero_witness :
    (Mapget.sweep Mapget.test1_body ⟨0, 0, fun _ => 0, 0, 0, 0, 0⟩).map 105 = 1 ∧
    (Mapget.sweep Mapget.test2_body ⟨0, 0, fun _ => 0, 0, 0, 0, 0⟩).map 105 = 1 ∧
    (Mapget.sweep Mapget.test3_body ⟨0, 0, fun _ => 0, 0, 0, 0, 0⟩).map 105 = 1 :=
  (sweep_from_zero ⟨0, 0, fun _ => 0, 0, 0, 0, 0⟩ 105 5 5 (fun _ _ => rfl) (by decide)
    (by decide) (by decide)).1

/-- C12: the map `(x, y) -> x + map_lookup[y]` is injective on
`[0, 20) x [0, 12)`, its values lie in `[0, 240)` and every index of `[0, 240)`
is the value at some `(x, y)` of the grid; a set at `(x, y)` through any
strategy leaves the value read, through any strategy, at every other
`(x2, y2)` of the grid unchanged. -/
theorem cell_index_one_to_one (x y x2 y2 k v : Nat) (S T : Mapget.Strategy)
    (g : Mapget.Globals) (hx : x < 20) (hy : y < 12) (hx2 : x2 < 20) (hy2 : y2 < 12)
    (hk : k < 240) :
    (x + Mapget.map_lookup.getD y 0 = x2 + Mapget.map_lookup.getD y2 0 → x = x2 ∧ y = y2) ∧
    x + Mapget.map_lookup.getD y 0 < 240 ∧
    (∃ a b, a < 20 ∧ b < 12 ∧ a + Mapget.map_lookup.getD b 0 = k) ∧
    (¬ (x2 = x ∧ y2 = y) →
      (Mapget.MapGet T (Mapget.MapSet S g x y v) x2 y2).2 = (Mapget.MapGet T g x2 y2).2) := by
  have h1 := Mapget.map_lookup_eq y hy
  have h2 := Mapget.map_lookup_eq y2 hy2
  refine ⟨?_, ?_, ⟨k % 20, k / 20, by omega, by omega, ?_⟩, ?_⟩
  · rw [h1, h2]; omega
  · rw [h1]; omega
  · rw [Mapget.map_lookup_eq (k / 20) (by omega)]; omega
  · intro hne
    rw [Mapget.MapGet_value T _ x2 y2 hx2 hy2, Mapget.MapGet_value T g x2 y2 hx2 hy2,
      Mapget.MapSet_map S g x y v hx hy]
    exact store_other _ _ _ _ (by simp only [Mapget.MAP_SIZE_X]; omega)

/-- Witness of C12: cells `(3, 5)` and `(4, 5)`, index 103, a set through
strategy 1 and a read through strategy 3. -/
theorem cell_index_one_to_one_witness :
    (Mapget.MapGet .S3 (Mapget.MapSet .S1 ⟨0, 0, fun _ => 0, 0, 0, 0, 0⟩ 3 5 7) 4 5).2 =
      (Mapget.MapGet .S3 ⟨0, 0, fun _ => 0, 0, 0, 0, 0⟩ 4 5).2 :=
  (cell_index_one_to_one 3 5 4 5 103 7 .S1 .S3 ⟨0, 0, fun _ => 0, 0, 0, 0, 0⟩
    (by decide) (by decide) (by decide) (by decide) (by decide)).2.2.2 (by decide)

/-- C17: for every initial grid, `test1`, `test2` and `test3` compute the same
grid: each leaves every one of the 240 cells equal to (old value + 100) mod 256
and every other index as it was, each is the grid of 100 successive sweeps,
and each ends its outer loop by the test `i < 100` failing. -/
theorem tests_add_hundred (g : Mapget.Globals) (idx : Nat) (hidx : idx < 240) :
    ((Mapget.test1 g).map idx = (g.map idx + 100) % 256 ∧
      (Mapget.test2 g).map idx = (g.map idx + 100) % 256 ∧
      (Mapget.test3 g).map idx = (g.map idx + 100) % 256) ∧
    ((Mapget.test1 g).map = (Mapget.test2 g).map ∧
      (Mapget.test2 g).map = (Mapget.test3 g).map) ∧
    ((Mapget.test1 g).map = ((Mapget.sweep Mapget.test1_body)^[100] g).map ∧
      (Mapget.test2 g).map = ((Mapget.sweep Mapget.test2_body)^[100] g).map ∧
      (Mapget.test3 g).map = ((Mapget.sweep Mapget.test3_body)^[100] g).map) ∧
    ((Mapget.test1 g).i = 100 ∧ (Mapget.test2 g).i = 100 ∧ (Mapget.test3 g).i = 100) := by
  obtain ⟨a1, a2, a3⟩ := Mapget.test_map _ Mapget.test1_body_increments g
  obtain ⟨b1, b2, b3⟩ := Mapget.test_map _ Mapget.test2_body_increments g
  obtain ⟨c1, c2, c3⟩ := Mapget.test_map _ Mapget.test3_body_increments g
  have e1 : Mapget.test1 g = Mapget.i_loop Mapget.test1_body 256 { g with i := 0 } := by
    simp only [Mapget.test1]
  have e2 : Mapget.test2 g = Mapget.i_loop Mapget.test2_body 256 { g with i := 0 } := by
    simp only [Mapget.test2]
  have e3 : Mapget.test3 g = Mapget.i_loop Mapget.test3_body 256 { g with i := 0 } := by
    simp only [Mapget.test3]
  rw [e1, e2, e3]
  refine ⟨⟨?_, ?_, ?_⟩, ⟨?_, ?_⟩, ⟨a2, b2, c2⟩, a3, b3, c3⟩
  · rw [a1]; simp only [hidx, if_true]
  · rw [b1]; simp only [hidx, if_true]
  · rw [c1]; simp only [hidx, if_true]
  · rw [a1, b1]
  · rw [b1, c1]

/-- Witness of C17: the grid whose cells all hold 200, flat index 105. -/
theorem tests_add_hundred_witness :
    (Mapget.test1 ⟨0, 0, fun _ => 200, 0, 0, 0, 0⟩).map 105 = (200 + 100) % 256 ∧
    (Mapget.test2 ⟨0, 0, fun _ => 200, 0, 0, 0, 0⟩).map 105 = (200 + 100) % 256 ∧
    (Mapget.test3 ⟨0, 0, fun _ => 200, 0, 0, 0, 0⟩).map 105 = (200 + 100) % 256 :=
  (tests_add_hundred ⟨0, 0, fun _ => 200, 0, 0, 0, 0⟩ 105 (by decide)).1

/-- C19: 8-bit arithmetic does not truncate in the grid index path: every entry
of the byte table `map_lookup` equals `y * 20` (at most 220), and for every
`x < 20`, `y < 12` the byte `array_index` that `MapGet3` and `MapSet3` compute
equals the integer `x + 20 * y` (at most 239), which is the index
`x + map_lookup[y]` of strategy 2, so both strategies address the same cell. -/
theorem array_index_not_truncated (g : Mapget.Globals) (x y a : Nat) (hx : x < 20)
    (hy : y < 12) :
    (Mapget.map_lookup.getD y 0 = y * 20 ∧ Mapget.map_lookup.getD y 0 ≤ 220) ∧
    ((Mapget.MapGet3 g x y).1.array_index = x + 20 * y ∧
      (Mapget.MapSet3 g x y a).array_index = x + 20 * y ∧ x + 20 * y ≤ 239) ∧
    ((Mapget.MapGet3 g x y).1.array_index = x + Mapget.map_lookup.getD y 0 ∧
      (Mapget.MapGet3 g x y).2 = Mapget.MapGet2 g x y ∧
      (Mapget.MapSet3 g x y a).map = (Mapget.MapSet2 g x y a).map) := by
  have h1 := Mapget.map_lookup_eq y hy
  have h3 : to_byte (x + 20 * y) = x + 20 * y := to_byte_of_lt _ (by omega)
  have hg : (Mapget.MapGet3 g x y).1.array_index = to_byte (x + Mapget.map_lookup.getD y 0) :=
    rfl
  have hs : (Mapget.MapSet3 g x y a).array_index = to_byte (x + Mapget.map_lookup.getD y 0) :=
    rfl
  have v3 := Mapget.MapGet_value .S3 g x y hx hy
  have v2 := Mapget.MapGet_value .S2 g x y hx hy
  have m3 := Mapget.MapSet_map .S3 g x y a hx hy
  have m2 := Mapget.MapSet_map .S2 g x y a hx hy
  simp only [Mapget.MapGet, Mapget.MapSet] at v3 v2 m3 m2
  refine ⟨⟨?_, ?_⟩, ⟨?_, ?_, ?_⟩, ?_, ?_, ?_⟩
  · rw [h1]; omega
  · rw [h1]; omega
  · rw [hg, h1, h3]
  · rw [hs, h1, h3]
  · omega
  · rw [hg, h1, h3]
  · rw [v3, v2]
  · rw [m3, m2]

/-- Witness of C19: cell `(19, 11)`, the largest index, 239. -/
theorem array_index_not_truncated_witness :
    (Mapget.MapGet3 ⟨0, 0, fun _ => 0, 0, 0, 0, 0⟩ 19 11).1.array_index = 19 + 20 * 11 ∧
    (Mapget.MapSet3 ⟨0, 0, fun _ => 0, 0, 0, 0, 0⟩ 19 11 1).array_index = 19 + 20 * 11 :=
  have h := array_index_not_truncated ⟨0, 0, fun _ => 0, 0, 0, 0, 0⟩ 19 11 1 (by decide)
    (by decide)
  ⟨h.2.1.1, h.2.1.2.1⟩

theorem store3_idempotent (s : Nat → Nat) (p a b c : Nat) :
    store (store (store (store (store (store s p a) (p + 1) b) (p + 1 + 1) c) p a) (p + 1) b)
      (p + 1 + 1) c = store (store (store s p a) (p + 1) b) (p + 1 + 1) c := by
  funext j
  simp only [store]
  split_ifs <;> rfl

theorem store3_pointwise (s1 s2 : Nat → Nat) (p a b c j : Nat) (h : s1 j = s2 j) :
    store (store (store s1 p a) (p + 1) b) (p + 1 + 1) c j =
      store (store (store s2 p a) (p + 1) b) (p + 1 + 1) c j := by
  simp only [store]
  split_ifs <;> first | rfl | exact h

namespace Step09

theorem draw_entity_idempotent (g : Globals) :
    (draw_entity (draw_entity g)).screen = (draw_entity g).screen := by
  have e := draw_entity_screen (draw_entity g)
  obtain ⟨f1, f2, f3, f4, f5⟩ := draw_entity_frame g
  rw [f1, f2, f3, f4, f5, draw_entity_screen g] at e
  rw [e, draw_entity_screen g]
  exact store3_idempotent _ _ _ _ _

end Step09

namespace Step08

theorem draw_entity_frame_step08 (g : Globals) :
    (draw_entity g).index1 = g.index1 ∧ (draw_entity g).screen_ptr = g.screen_ptr ∧
    (draw_entity g).game_state = g.game_state :=
  ⟨rfl, rfl, rfl⟩

theorem draw_entity_idempotent_step08 (g : Globals) :
    (draw_entity (draw_entity g)).screen = (draw_entity g).screen := by
  have e := draw_entity_screen_step08 (draw_entity g)
  obtain ⟨f1, f2, f3⟩ := draw_entity_frame_step08 g
  rw [f1, f2, f3, draw_entity_screen_step08 g] at e
  rw [e, draw_entity_screen_step08 g]
  exact store3_idempotent _ _ _ _ _

end Step08

/-- C13: rendering is idempotent and deterministic, in step 09 and in step 08:
for every entity state and surface, `draw_entity` called twice in a row for the
same slot leaves the surface of a single call (and the entity state of before),
and from two surfaces that agree at an address, hence from two surfaces that
agree everywhere, it leaves surfaces that agree there. -/
theorem draw_entity_idempotent_deterministic (g : Step09.Globals) (g8 : Step08.Globals)
    (sc1 sc2 : Nat → Nat) (a : Nat) :
    ((Step09.draw_entity (Step09.draw_entity g)).screen = (Step09.draw_entity g).screen ∧
      (Step09.draw_entity (Step09.draw_entity g)).game_state = g.game_state ∧
      (sc1 a = sc2 a →
        (Step09.draw_entity { g with screen := sc1 }).screen a =
          (Step09.draw_entity { g with screen := sc2 }).screen a) ∧
      (sc1 = sc2 →
        (Step09.draw_entity { g with screen := sc1 }).screen =
          (Step09.draw_entity { g with screen := sc2 }).screen)) ∧
    ((Step08.draw_entity (Step08.draw_entity g8)).screen = (Step08.draw_entity g8).screen ∧
      (Step08.draw_entity (Step08.draw_entity g8)).game_state = g8.game_state ∧
      (sc1 a = sc2 a →
        (Step08.draw_entity { g8 with screen := sc1 }).screen a =
          (Step08.draw_entity { g8 with screen := sc2 }).screen a) ∧
      (sc1 = sc2 →
        (Step08.draw_entity { g8 with screen := sc1 }).screen =
          (Step08.draw_entity { g8 with screen := sc2 }).screen)) := by
  refine ⟨⟨Step09.draw_entity_idempotent g, rfl, ?_, ?_⟩,
    ⟨Step08.draw_entity_idempotent_step08 g8, rfl, ?_, ?_⟩⟩
  · intro h
    rw [Step09.draw_entity_screen, Step09.draw_entity_screen]
    exact store3_pointwise _ _ _ _ _ _ _ h
  · intro h; rw [h]
  · intro h
    rw [Step08.draw_entity_screen_step08, Step08.draw_entity_screen_step08]
    exact store3_pointwise _ _ _ _ _ _ _ h
  · intro h; rw [h]

/-- Witness of C13: an enemy at `(15, 10)` with health 98 drawn on two surfaces
that agree at address 7 and differ elsewhere. -/
theorem draw_entity_idempotent_deterministic_witness :
    (Step09.draw_entity
        { (⟨3, ⟨⟨fun _ => 15, fun _ => 10, fun _ => 98, fun _ => 2⟩, ⟨0⟩⟩,
            fun _ => 0, fun _ => 0, fun _ => 0, fun _ => 0⟩ : Step09.Globals) with
          screen := fun j => if j = 7 then 1 else 2 }).screen 7 =
      (Step09.draw_entity
        { (⟨3, ⟨⟨fun _ => 15, fun _ => 10, fun _ => 98, fun _ => 2⟩, ⟨0⟩⟩,
            fun _ => 0, fun _ => 0, fun _ => 0, fun _ => 0⟩ : Step09.Globals) with
          screen := fun j => if j = 7 then 1 else 3 }).screen 7 ∧
    (Step08.draw_entity
        { (⟨3, 40000, ⟨⟨fun _ => 15, fun _ => 10, fun _ => 98, fun _ => 2⟩, ⟨0⟩⟩,
            fun _ => 0⟩ : Step08.Globals) with
          screen := fun j => if j = 7 then 1 else 2 }).screen 7 =
      (Step08.draw_entity
        { (⟨3, 40000, ⟨⟨fun _ => 15, fun _ => 10, fun _ => 98, fun _ => 2⟩, ⟨0⟩⟩,
            fun _ => 0⟩ : Step08.Globals) with
          screen := fun j => if j = 7 then 1 else 3 }).screen 7 :=
  have h := draw_entity_idempotent_deterministic
    ⟨3, ⟨⟨fun _ => 15, fun _ => 10, fun _ => 98, fun _ => 2⟩, ⟨0⟩⟩,
      fun _ => 0, fun _ => 0, fun _ => 0, fun _ => 0⟩
    ⟨3, 40000, ⟨⟨fun _ => 15, fun _ => 10, fun _ => 98, fun _ => 2⟩, ⟨0⟩⟩, fun _ => 0⟩
    (fun j => if j = 7 then 1 else 2) (fun j => if j = 7 then 1 else 3) 7
  ⟨h.1.2.2.1 (by decide), h.2.2.2.1 (by decide)⟩

/-! ### The entity engine: ranges and bounds -/

namespace Step09

theorem set_entities_in_range (g : Globals) (hy : g.game_state.entities.y PLAYER_INDEX < 24) :
    in_range (set_entities g).game_state := by
  intro i hi
  simp only [NO_ENTITIES, NO_ENEMIES] at hi
  simp only [PLAYER_INDEX, NO_ENEMIES] at hy
  rw [set_entities_eq]
  simp only [SCREEN_SIZE_X, SCREEN_SIZE_Y, ENTITY_PLAYER, ENTITY_ENEMY]
  by_cases h30 : i = 30
  · subst h30
    simp only [if_true, Nat.lt_irrefl, if_false]
    exact ⟨by omega, hy, by omega, by omega⟩
  · have hlt : i < 30 := by omega
    simp only [h30, hlt, if_true, if_false]
    exact ⟨by omega, by omega, by omega, by omega⟩

theorem damage_enemy_in_range (g : Globals) (h : in_range g.game_state) :
    in_range (damage_enemy g).game_state := by
  intro i hi
  obtain ⟨h1, h2, h3, h4⟩ := h i hi
  obtain ⟨_, d2, d3, d4, _⟩ := damage_enemy_frame g
  rw [d2, d3, d4, damage_enemy_hp]
  refine ⟨h1, h2, ?_, h4⟩
  simp only [to_byte]
  split_ifs <;> omega

theorem one_frame_in_range (g : Globals) (h : in_range g.game_state) :
    in_range (one_frame g).game_state := by
  intro i hi
  obtain ⟨h1, h2, h3, h4⟩ := h i hi
  obtain ⟨_, f2, f3, f4, _, _, _, _, f9⟩ := one_frame_spec g
  rw [f2, f3, f4, f9]
  refine ⟨h1, h2, ?_, h4⟩
  simp only [to_byte]
  split_ifs <;> omega

theorem frames_in_range (n : Nat) : ∀ g : Globals, in_range g.game_state →
    in_range (frames n g).game_state := by
  induction n with
  | zero => intro g h; exact h
  | succ n ih => intro g h; exact ih (one_frame g) (one_frame_in_range g h)

theorem init_lookup_tables_game_state (savmsc : Nat) (g : Globals) :
    (init_lookup_tables savmsc g).game_state = g.game_state := by
  rw [init_lookup_tables_eq]

end Step09

/-- C14: in the state `set_entities` produces from the zero-initialised globals
(directly, or after `init_lookup_tables` as in `main`), and in every state
reached from it by any number of `one_frame` calls, every one of the 31 slots
has `x` in `[0, 40)`, `y` in `[0, 24)` and `hp` in `[0, 99]`. -/
theorem entity_ranges_invariant (sc : Nat → Nat) (savmsc n i : Nat) (hi : i < 31) :
    ((Step09.frames n (Step09.set_entities (Step09.zero_init sc))).game_state.entities.x i < 40 ∧
      (Step09.frames n (Step09.set_entities (Step09.zero_init sc))).game_state.entities.y i
        < 24 ∧
      (Step09.frames n (Step09.set_entities (Step09.zero_init sc))).game_state.entities.hp i
        ≤ 99) ∧
    ((Step09.frames n (Step09.set_entities
        (Step09.init_lookup_tables savmsc (Step09.zero_init sc)))).game_state.entities.x i < 40 ∧
      (Step09.frames n (Step09.set_entities
        (Step09.init_lookup_tables savmsc (Step09.zero_init sc)))).game_state.entities.y i < 24 ∧
      (Step09.frames n (Step09.set_entities
        (Step09.init_lookup_tables savmsc (Step09.zero_init sc)))).game_state.entities.hp i
        ≤ 99) := by
  have h1 := Step09.frames_in_range n _
    (Step09.set_entities_in_range (Step09.zero_init sc) (by simp [Step09.zero_init])) i
    (by simp only [NO_ENTITIES, NO_ENEMIES]; omega)
  have h2 := Step09.frames_in_range n _
    (Step09.set_entities_in_range (Step09.init_lookup_tables savmsc (Step09.zero_init sc))
      (by rw [Step09.init_lookup_tables_game_state]; simp [Step09.zero_init])) i
    (by simp only [NO_ENTITIES, NO_ENEMIES]; omega)
  simp only [SCREEN_SIZE_X, Step09.SCREEN_SIZE_Y] at h1 h2
  exact ⟨⟨by omega, h1.2.1, h1.2.2.1⟩, ⟨by omega, h2.2.1, h2.2.2.1⟩⟩

/-- Witness of C14: the player slot after 100 frames. -/
theorem entity_ranges_invariant_witness :
    (Step09.frames 100 (Step09.set_entities
      (Step09.zero_init (fun _ => 0)))).game_state.entities.x 30 < 40 ∧
    (Step09.frames 100 (Step09.set_entities
      (Step09.zero_init (fun _ => 0)))).game_state.entities.y 30 < 24 ∧
    (Step09.frames 100 (Step09.set_entities
      (Step09.zero_init (fun _ => 0)))).game_state.entities.hp 30 ≤ 99 :=
  (entity_ranges_invariant (fun _ => 0) 40000 100 30 (by decide)).1

namespace Step09

theorem draw_entity_in_bounds_of_in_range (savmsc : Nat) (g : Globals)
    (hidx : g.index1 < 31) (hr : in_range g.game_state)
    (ht : ∀ y, y < 24 → g.screen_line_lookup y = savmsc + y * 40) :
    draw_entity_in_bounds savmsc g := by
  obtain ⟨h1, h2, h3, h4⟩ := hr g.index1 (by simp only [NO_ENTITIES, NO_ENEMIES]; omega)
  simp only [SCREEN_SIZE_X, SCREEN_SIZE_Y] at h1 h2
  have hlen : get_entity_tile.length = 3 := rfl
  simp only [draw_entity_in_bounds, glyph_addr, NO_ENTITIES, NO_ENEMIES, SCREEN_SIZE_X,
    SCREEN_SIZE_Y, MAX_LOOKUP_VALUE, hlen, ht _ h2]
  exact ⟨by omega, h2, by omega, by omega, by omega, by omega⟩

theorem one_frame_loop_checked_eq (savmsc : Nat) (fuel : Nat) : ∀ g : Globals,
    g.index1 ≤ 30 → 30 - g.index1 ≤ fuel → in_range g.game_state →
    (∀ y, y < 24 → g.screen_line_lookup y = savmsc + y * 40) →
    one_frame_loop_checked savmsc fuel g = some (one_frame_loop fuel g) := by
  induction fuel with
  | zero =>
    intro g h1 h2 _ _
    have hk : ¬ g.index1 < 30 := by omega
    simp only [one_frame_loop_checked, one_frame_loop, NO_ENEMIES, hk, if_false]
  | succ fuel ih =>
    intro g h1 h2 hr ht
    by_cases hk : g.index1 < 30
    · have hb : to_byte (g.index1 + 1) = g.index1 + 1 := to_byte_of_lt _ (by omega)
      obtain ⟨d1, _, _, _, _, _, _, d8, _⟩ := damage_enemy_frame g
      have hdb : damage_enemy_in_bounds g := by
        simp only [damage_enemy_in_bounds, NO_ENTITIES, NO_ENEMIES]; omega
      have hr2 := damage_enemy_in_range g hr
      have hdraw : draw_entity_in_bounds savmsc (damage_enemy g) :=
        draw_entity_in_bounds_of_in_range savmsc _ (by rw [d1]; omega) hr2
          (by rw [d8]; exact ht)
      have hidx : (draw_entity (damage_enemy g)).index1 = g.index1 := d1
      have hstep : one_frame_loop (fuel + 1) g =
          one_frame_loop fuel { draw_entity (damage_enemy g) with index1 := g.index1 + 1 } := by
        simp only [one_frame_loop, NO_ENEMIES, hk, if_true]
        rw [hidx, hb]
      have hstepc : one_frame_loop_checked savmsc (fuel + 1) g =
          one_frame_loop_checked savmsc fuel
            { draw_entity (damage_enemy g) with index1 := g.index1 + 1 } := by
        simp only [one_frame_loop_checked, NO_ENEMIES, hk, if_true, hdb, hdraw]
        rw [hidx, hb]
      rw [hstep, hstepc]
      exact ih _ (by show g.index1 + 1 ≤ 30; omega) (by show 30 - (g.index1 + 1) ≤ fuel; omega)
        hr2 (by show ∀ y, y < 24 → (damage_enemy g).screen_line_lookup y = _; rw [d8]; exact ht)
    · simp only [one_frame_loop_checked, one_frame_loop, NO_ENEMIES, hk, if_false]

theorem one_frame_checked_eq (savmsc : Nat) (g : Globals) (hr : in_range g.game_state)
    (ht : ∀ y, y < 24 → g.screen_line_lookup y = savmsc + y * 40) :
    one_frame_checked savmsc g = some (one_frame g) := by
  have hl := one_frame_loop_checked_eq savmsc 256 { g with index1 := 0 } (Nat.zero_le _)
    (by show 30 - 0 ≤ 256; omega) hr ht
  obtain ⟨_, i2, i3, i4, _, _, _, i8, i9⟩ := one_frame_loop_spec 256 { g with index1 := 0 }
    (Nat.zero_le _) (by show 30 - 0 ≤ 256; omega)
  have hr2 : in_range (one_frame_loop 256 { g with index1 := 0 }).game_state := by
    intro i hi
    obtain ⟨h1, h2, h3, h4⟩ := hr i hi
    rw [i2, i3, i4, i9]
    refine ⟨h1, h2, ?_, h4⟩
    show (if 0 ≤ i ∧ i < 30 ∧ g.game_state.entities.hp i > 0
      then to_byte (g.game_state.entities.hp i + 255) else g.game_state.entities.hp i) ≤ 99
    simp only [to_byte]
    split_ifs <;> omega
  have hdraw : draw_entity_in_bounds savmsc
      { one_frame_loop 256 { g with index1 := 0 } with index1 := PLAYER_INDEX } :=
    draw_entity_in_bounds_of_in_range savmsc _ (by simp [PLAYER_INDEX, NO_ENEMIES]) hr2
      (by show ∀ y, y < 24 → (one_frame_loop 256 { g with index1 := 0 }).screen_line_lookup y = _
          rw [i8]; exact ht)
  simp only [one_frame_checked, hl, hdraw, if_true, one_frame]

theorem frames_tables (n : Nat) (g : Globals) :
    (frames n g).screen_line_lookup = g.screen_line_lookup ∧
    (frames n g).div_10_lookup = g.div_10_lookup ∧
    (frames n g).mod_10_lookup = g.mod_10_lookup := by
  obtain ⟨_, _, _, _, f5, f6, f7, _⟩ := frames_spec n g
  exact ⟨f7, f5, f6⟩

theorem set_entities_tables (g : Globals) :
    (set_entities g).screen_line_lookup = g.screen_line_lookup ∧
    (set_entities g).div_10_lookup = g.div_10_lookup ∧
    (set_entities g).mod_10_lookup = g.mod_10_lookup := by
  rw [set_entities_eq]
  exact ⟨rfl, rfl, rfl⟩

theorem reachable_tables (savmsc n : Nat) (g : Globals) :
    (∀ y, y < 24 →
      (frames n (set_entities (init_lookup_tables savmsc g))).screen_line_lookup y =
        savmsc + y * 40) ∧
    (∀ h, h ≤ 99 →
      (frames n (set_entities (init_lookup_tables savmsc g))).div_10_lookup h = 0x10 + h / 10 ∧
      (frames n (set_entities (init_lookup_tables savmsc g))).mod_10_lookup h =
        0x10 + h % 10) := by
  obtain ⟨f1, f2, f3⟩ := frames_tables n (set_entities (init_lookup_tables savmsc g))
  obtain ⟨s1, s2, s3⟩ := set_entities_tables (init_lookup_tables savmsc g)
  rw [f1, f2, f3, s1, s2, s3]
  constructor
  · intro y hy
    exact (init_lookup_tables_values savmsc g 0 y (by omega) hy).2.2
  · intro h hh
    obtain ⟨t1, t2, _⟩ := init_lookup_tables_values savmsc g h 0 hh (by omega)
    exact ⟨t1, t2⟩

end Step09

/-- C15: in every state reached from `init_lookup_tables` and `set_entities` on
the zero-initialised globals by `one_frame` calls, `one_frame` with every array
access checked runs to its end and gives the state of `one_frame`: entity
indices are below 31, `y` indexes `screen_line_lookup` below 24, `hp` indexes
the digit tables below 100, `type` indexes `get_entity_tile` below 3 and the
three cells written lie inside the 40x24 surface; moreover every slot has
`x + 2 < 40`, so its cells lie in its own row, and `y*40 + x + 2 < 960`. -/
theorem one_frame_accesses_in_bounds (sc : Nat → Nat) (savmsc n i : Nat) (hi : i < 31) :
    Step09.one_frame_checked savmsc
        (Step09.frames n (Step09.set_entities
          (Step09.init_lookup_tables savmsc (Step09.zero_init sc)))) =
      some (Step09.one_frame
        (Step09.frames n (Step09.set_entities
          (Step09.init_lookup_tables savmsc (Step09.zero_init sc))))) ∧
    ((Step09.frames n (Step09.set_entities
        (Step09.init_lookup_tables savmsc (Step09.zero_init sc)))).game_state.entities.y i < 24 ∧
      (Step09.frames n (Step09.set_entities
        (Step09.init_lookup_tables savmsc (Step09.zero_init sc)))).game_state.entities.hp i
        < 100 ∧
      (Step09.frames n (Step09.set_entities
        (Step09.init_lookup_tables savmsc (Step09.zero_init sc)))).game_state.entities.type i
        < 3 ∧
      (Step09.frames n (Step09.set_entities
        (Step09.init_lookup_tables savmsc (Step09.zero_init sc)))).game_state.entities.x i + 2
        < 40 ∧
      (Step09.frames n (Step09.set_entities
        (Step09.init_lookup_tables savmsc (Step09.zero_init sc)))).game_state.entities.y i * 40 +
        (Step09.frames n (Step09.set_entities
          (Step09.init_lookup_tables savmsc (Step09.zero_init sc)))).game_state.entities.x i + 2
        < 960) := by
  have hr := Step09.frames_in_range n _
    (Step09.set_entities_in_range (Step09.init_lookup_tables savmsc (Step09.zero_init sc))
      (by rw [Step09.init_lookup_tables_game_state]; simp [Step09.zero_init]))
  have ht := (Step09.reachable_tables savmsc n (Step09.zero_init sc)).1
  have h := hr i (by simp only [NO_ENTITIES, NO_ENEMIES]; omega)
  simp only [SCREEN_SIZE_X, Step09.SCREEN_SIZE_Y] at h
  exact ⟨Step09.one_frame_checked_eq savmsc _ hr ht,
    h.2.1, by omega, by omega, h.1, by omega⟩

/-- Witness of C15: slot 29, the last enemy, in the state after 3 frames. -/
theorem one_frame_accesses_in_bounds_witness :
    (Step09.frames 3 (Step09.set_entities
        (Step09.init_lookup_tables 40000
          (Step09.zero_init (fun _ => 0))))).game_state.entities.x 29 + 2 < 40 ∧
    (Step09.frames 3 (Step09.set_entities
        (Step09.init_lookup_tables 40000
          (Step09.zero_init (fun _ => 0))))).game_state.entities.y 29 < 24 :=
  have h := one_frame_accesses_in_bounds (fun _ => 0) 40000 3 29 (by decide)
  ⟨h.2.2.2.2.1, h.2.1⟩

/-! ### The entity engine: the surface after a frame -/

namespace Step09

theorem draw_entity_screen_at (g : Globals) :
    (draw_entity g).screen (glyph_addr g g.index1) =
      get_entity_tile.getD (g.game_state.entities.type g.index1) 0 ∧
    (draw_entity g).screen (glyph_addr g g.index1 + 1) =
      g.div_10_lookup (g.game_state.entities.hp g.index1) ∧
    (draw_entity g).screen (glyph_addr g g.index1 + 1 + 1) =
      g.mod_10_lookup (g.game_state.entities.hp g.index1) ∧
    (∀ a, a ≠ glyph_addr g g.index1 → a ≠ glyph_addr g g.index1 + 1 →
      a ≠ glyph_addr g g.index1 + 1 + 1 → (draw_entity g).screen a = g.screen a) := by
  rw [draw_entity_screen]
  simp only [glyph_addr]
  refine ⟨?_, ?_, ?_, ?_⟩
  · rw [store_other _ _ _ _ (by omega), store_other _ _ _ _ (by omega), store_same]
  · rw [store_other _ _ _ _ (by omega), store_same]
  · rw [store_same]
  · intro a h0 h1 h2
    rw [store_other _ _ _ _ h2, store_other _ _ _ _ h1, store_other _ _ _ _ h0]

theorem glyph_addr_congr (g g2 : Globals)
    (hx : g2.game_state.entities.x = g.game_state.entities.x)
    (hy : g2.game_state.entities.y = g.game_state.entities.y)
    (hs : g2.screen_line_lookup = g.screen_line_lookup) (j : Nat) :
    glyph_addr g2 j = glyph_addr g j := by
  simp only [glyph_addr, hx, hy, hs]

theorem one_frame_loop_screen_other (fuel : Nat) : ∀ g : Globals, g.index1 ≤ 30 →
    30 - g.index1 ≤ fuel → ∀ a : Nat,
    (∀ j, g.index1 ≤ j → j < 30 →
      a ≠ glyph_addr g j ∧ a ≠ glyph_addr g j + 1 ∧ a ≠ glyph_addr g j + 1 + 1) →
    (one_frame_loop fuel g).screen a = g.screen a := by
  induction fuel with
  | zero => intro g _ _ a _; rfl
  | succ fuel ih =>
    intro g h1 h2 a ha
    by_cases hk : g.index1 < 30
    · have hb : to_byte (g.index1 + 1) = g.index1 + 1 := to_byte_of_lt _ (by omega)
      obtain ⟨d1, d2, d3, _, _, _, _, d8, d9⟩ := damage_enemy_frame g
      have hidx : (draw_entity (damage_enemy g)).index1 = g.index1 := d1
      have hstep : one_frame_loop (fuel + 1) g =
          one_frame_loop fuel { draw_entity (damage_enemy g) with index1 := g.index1 + 1 } := by
        simp only [one_frame_loop, NO_ENEMIES, hk, if_true]
        rw [hidx, hb]
      have hga : ∀ j, glyph_addr
          { draw_entity (damage_enemy g) with index1 := g.index1 + 1 } j = glyph_addr g j :=
        fun j => glyph_addr_congr g _ d2 d3 d8 j
      have hgd : ∀ j, glyph_addr (damage_enemy g) j = glyph_addr g j :=
        fun j => glyph_addr_congr g _ d2 d3 d8 j
      rw [hstep, ih _ (by show g.index1 + 1 ≤ 30; omega)
        (by show 30 - (g.index1 + 1) ≤ fuel; omega) a
        (by
          intro j hj1 hj2
          rw [hga j]
          exact ha j (by show g.index1 ≤ j; have : g.index1 + 1 ≤ j := hj1; omega) hj2)]
      show (draw_entity (damage_enemy g)).screen a = g.screen a
      obtain ⟨hk0, hk1, hk2⟩ := ha g.index1 (Nat.le_refl _) hk
      rw [(draw_entity_screen_at (damage_enemy g)).2.2.2 a
        (by rw [d1, hgd]; exact hk0) (by rw [d1, hgd]; exact hk1)
        (by rw [d1, hgd]; exact hk2), d9]
    · have hstep : one_frame_loop (fuel + 1) g = g := by
        simp only [one_frame_loop, NO_ENEMIES, hk, if_false]
      rw [hstep]

end Step09

namespace Step09

theorem one_frame_loop_screen_glyph (fuel : Nat) : ∀ g : Globals, g.index1 ≤ 30 →
    30 - g.index1 ≤ fuel →
    (∀ i j, g.index1 ≤ i → i < j → j < 30 →
      glyph_addr g i + 2 < glyph_addr g j ∨ glyph_addr g j + 2 < glyph_addr g i) →
    ∀ j, g.index1 ≤ j → j < 30 →
    (one_frame_loop fuel g).screen (glyph_addr g j) =
      get_entity_tile.getD (g.game_state.entities.type j) 0 ∧
    (one_frame_loop fuel g).screen (glyph_addr g j + 1) =
      g.div_10_lookup ((one_frame_loop fuel g).game_state.entities.hp j) ∧
    (one_frame_loop fuel g).screen (glyph_addr g j + 1 + 1) =
      g.mod_10_lookup ((one_frame_loop fuel g).game_state.entities.hp j) := by
  induction fuel with
  | zero => intro g h1 h2 _ j hj1 hj2; omega
  | succ fuel ih =>
    intro g h1 h2 hd j hj1 hj2
    have hk : g.index1 < 30 := by omega
    have hb : to_byte (g.index1 + 1) = g.index1 + 1 := to_byte_of_lt _ (by omega)
    obtain ⟨d1, d2, d3, d4, _, d6, d7, d8, d9⟩ := damage_enemy_frame g
    have hidx : (draw_entity (damage_enemy g)).index1 = g.index1 := d1
    have hstep : one_frame_loop (fuel + 1) g =
        one_frame_loop fuel { draw_entity (damage_enemy g) with index1 := g.index1 + 1 } := by
      simp only [one_frame_loop, NO_ENEMIES, hk, if_true]
      rw [hidx, hb]
    have hga : ∀ j, glyph_addr
        { draw_entity (damage_enemy g) with index1 := g.index1 + 1 } j = glyph_addr g j :=
      fun j => glyph_addr_congr g _ d2 d3 d8 j
    have hgd : ∀ j, glyph_addr (damage_enemy g) j = glyph_addr g j :=
      fun j => glyph_addr_congr g _ d2 d3 d8 j
    have hle : (g.index1 + 1) ≤ 30 := by omega
    have hfu : 30 - (g.index1 + 1) ≤ fuel := by omega
    rw [hstep]
    by_cases hjk : j = g.index1
    · subst hjk
      have hother : ∀ c, c ≤ 2 →
          (one_frame_loop fuel
            { draw_entity (damage_enemy g) with index1 := g.index1 + 1 }).screen
            (glyph_addr g g.index1 + c) =
          (draw_entity (damage_enemy g)).screen (glyph_addr g g.index1 + c) := by
        intro c hc
        exact one_frame_loop_screen_other fuel _ hle hfu _ (by
          intro j2 hj21 hj22
          rw [hga j2]
          have hj21b : g.index1 + 1 ≤ j2 := hj21
          have := hd g.index1 j2 (Nat.le_refl _) (by omega) hj22
          omega)
      have hhp : (one_frame_loop fuel
          { draw_entity (damage_enemy g) with index1 := g.index1 + 1 }).game_state.entities.hp
          g.index1 = (damage_enemy g).game_state.entities.hp g.index1 := by
        rw [(one_frame_loop_spec fuel _ hle hfu).2.2.2.2.2.2.2.2]
        have hne : ¬ (g.index1 + 1 ≤ g.index1 ∧ g.index1 < 30 ∧
            (damage_enemy g).game_state.entities.hp g.index1 > 0) := by omega
        show (if g.index1 + 1 ≤ g.index1 ∧ g.index1 < 30 ∧
            (damage_enemy g).game_state.entities.hp g.index1 > 0
          then to_byte ((damage_enemy g).game_state.entities.hp g.index1 + 255)
          else (damage_enemy g).game_state.entities.hp g.index1) = _
        rw [if_neg hne]
      obtain ⟨s0, s1, s2, _⟩ := draw_entity_screen_at (damage_enemy g)
      rw [d1, hgd, d4] at s0
      rw [d1, hgd, d6] at s1
      rw [d1, hgd, d7] at s2
      have o0 := hother 0 (by omega)
      have o1 := hother 1 (by omega)
      have o2 := hother 2 (by omega)
      rw [hhp]
      exact ⟨by rw [← s0]; exact o0, by rw [← s1]; exact o1, by rw [← s2]; exact o2⟩
    · have ih1 := ih { draw_entity (damage_enemy g) with index1 := g.index1 + 1 } hle hfu
        (by
          intro i j2 hi1 hi2 hi3
          rw [hga i, hga j2]
          have hi1b : g.index1 + 1 ≤ i := hi1
          exact hd i j2 (by omega) hi2 hi3)
        j (by show g.index1 + 1 ≤ j; omega) hj2
      rw [hga j] at ih1
      obtain ⟨r0, r1, r2⟩ := ih1
      refine ⟨?_, ?_, ?_⟩
      · rw [r0]; show get_entity_tile.getD ((damage_enemy g).game_state.entities.type j) 0 = _
        rw [d4]
      · rw [r1]; show (damage_enemy g).div_10_lookup _ = _
        rw [d6]
      · rw [r2]; show (damage_enemy g).mod_10_lookup _ = _
        rw [d7]

theorem one_frame_screen_glyph (g : Globals)
    (hd : ∀ i j, i < j → j ≤ 30 →
      glyph_addr g i + 2 < glyph_addr g j ∨ glyph_addr g j + 2 < glyph_addr g i)
    (j : Nat) (hj : j ≤ 30) :
    (one_frame g).screen (glyph_addr g j) =
      get_entity_tile.getD (g.game_state.entities.type j) 0 ∧
    (one_frame g).screen (glyph_addr g j + 1) =
      g.div_10_lookup ((one_frame g).game_state.entities.hp j) ∧
    (one_frame g).screen (glyph_addr g j + 1 + 1) =
      g.mod_10_lookup ((one_frame g).game_state.entities.hp j) := by
  obtain ⟨_, i2, i3, i4, _, i6, i7, i8, _⟩ := one_frame_loop_spec 256 { g with index1 := 0 }
    (Nat.zero_le _) (by show 30 - 0 ≤ 256; omega)
  have hone : one_frame g = draw_entity
      { one_frame_loop 256 { g with index1 := 0 } with index1 := PLAYER_INDEX } := by
    simp only [one_frame]
  have hga : ∀ j, glyph_addr
      { one_frame_loop 256 { g with index1 := 0 } with index1 := PLAYER_INDEX } j =
      glyph_addr g j :=
    fun j => glyph_addr_congr g _ i2 i3 i8 j
  have hg0 : ∀ j, glyph_addr { g with index1 := 0 } j = glyph_addr g j := fun _ => rfl
  obtain ⟨s0, s1, s2, s3⟩ := draw_entity_screen_at
    { one_frame_loop 256 { g with index1 := 0 } with index1 := PLAYER_INDEX }
  have hidx : ({ one_frame_loop 256 { g with index1 := 0 } with
      index1 := PLAYER_INDEX } : Globals).index1 = 30 := rfl
  rw [hidx, hga] at s0 s1 s2 s3
  have hhp : (one_frame g).game_state.entities.hp =
      (one_frame_loop 256 { g with index1 := 0 }).game_state.entities.hp := by
    rw [hone]; rfl
  rw [hhp, hone]
  by_cases h30 : j = 30
  · subst h30
    refine ⟨?_, ?_, ?_⟩
    · rw [s0]; show get_entity_tile.getD
        ((one_frame_loop 256 { g with index1 := 0 }).game_state.entities.type 30) 0 = _
      rw [i4]
    · rw [s1]; show (one_frame_loop 256 { g with index1 := 0 }).div_10_lookup _ = _
      rw [i6]
    · rw [s2]; show (one_frame_loop 256 { g with index1 := 0 }).mod_10_lookup _ = _
      rw [i7]
  · have hj30 : j < 30 := by omega
    have hdis := hd j 30 hj30 (Nat.le_refl _)
    obtain ⟨l0, l1, l2⟩ := one_frame_loop_screen_glyph 256 { g with index1 := 0 }
      (Nat.zero_le _) (by show 30 - 0 ≤ 256; omega)
      (by
        intro i j2 _ hi2 hi3
        rw [hg0 i, hg0 j2]
        exact hd i j2 hi2 (by omega))
      j (Nat.zero_le _) hj30
    rw [hg0 j] at l0 l1 l2
    refine ⟨?_, ?_, ?_⟩
    · rw [s3 _ (by omega) (by omega) (by omega)]; exact l0
    · rw [s3 _ (by omega) (by omega) (by omega)]; exact l1
    · rw [s3 _ (by omega) (by omega) (by omega)]; exact l2

end Step09

namespace Step09

theorem reachable_layout (sc : Nat → Nat) (savmsc n i : Nat) (hi : i < 31) :
    (frames n (set_entities (init_lookup_tables savmsc (zero_init sc)))).game_state.entities.x i =
      (if i < 30 then (i * 5) % 40 else 20) ∧
    (frames n (set_entities (init_lookup_tables savmsc (zero_init sc)))).game_state.entities.y i =
      (if i < 30 then i / 2 + 9 else 0) ∧
    (frames n (set_entities (init_lookup_tables savmsc (zero_init sc)))).game_state.entities.type
        i = (if i < 30 then ENTITY_ENEMY else ENTITY_PLAYER) ∧
    (frames n (set_entities (init_lookup_tables savmsc (zero_init sc)))).game_state.entities.hp i
      ≤ 99 := by
  obtain ⟨f1, f2, f3, _⟩ := frames_spec n (set_entities (init_lookup_tables savmsc (zero_init sc)))
  have hr := frames_in_range n _
    (set_entities_in_range (init_lookup_tables savmsc (zero_init sc))
      (by rw [init_lookup_tables_game_state]; simp [zero_init])) i
    (by simp only [NO_ENTITIES, NO_ENEMIES]; omega)
  refine ⟨?_, ?_, ?_, hr.2.2.1⟩
  · rw [f1, set_entities_eq]
    simp only
    split_ifs <;> omega
  · rw [f2, set_entities_eq, init_lookup_tables_game_state]
    simp only [zero_init]
  · rw [f3, set_entities_eq]
    simp only
    split_ifs <;> omega

theorem layout_disjoint (i j : Nat) (hi : i < 31) (hj : j < 31) (hij : i ≠ j) :
    (if i < 30 then i / 2 + 9 else 0) * 40 + (if i < 30 then (i * 5) % 40 else 20) + 2 <
        (if j < 30 then j / 2 + 9 else 0) * 40 + (if j < 30 then (j * 5) % 40 else 20) ∨
    (if j < 30 then j / 2 + 9 else 0) * 40 + (if j < 30 then (j * 5) % 40 else 20) + 2 <
        (if i < 30 then i / 2 + 9 else 0) * 40 + (if i < 30 then (i * 5) % 40 else 20) := by
  split_ifs <;> omega

end Step09

namespace Step09

theorem after_frames_glyph_addr (sc : Nat → Nat) (savmsc n k : Nat) (hk : k < 31) :
    glyph_addr (after_frames sc savmsc n) k =
      savmsc + ((if k < 30 then k / 2 + 9 else 0) * 40 + (if k < 30 then (k * 5) % 40 else 20)) := by
  obtain ⟨l1, l2, _, _⟩ := reachable_layout sc savmsc n k hk
  have ht := (reachable_tables savmsc n (zero_init sc)).1
  simp only [glyph_addr, after_frames]
  rw [l1, l2, ht _ (by split_ifs <;> omega)]
  omega

end Step09

/-- C18: in the layout `set_entities` produces on the zero-initialised globals
(the player in row 0), in `main` after any number of frames, no two of the 31
entities' three-cell ranges `[y*40 + x, y*40 + x + 2]` share a surface cell;
and after `one_frame`, for every slot, the three surface cells at its position
hold its tile (`'e'` for an enemy, `'p'` for the player) and the two digit
characters of its health after that frame's tick: the health before minus one
for an enemy, saturating at 0, the unchanged health for the player. -/
theorem one_frame_shows_every_entity (sc : Nat → Nat) (savmsc n i j : Nat)
    (hi : i < 31) (hj : j < 31) (hij : i ≠ j) :
    ((Step09.after_frames sc savmsc n).game_state.entities.y PLAYER_INDEX = 0 ∧
      ((Step09.after_frames sc savmsc n).game_state.entities.y i * 40 +
          (Step09.after_frames sc savmsc n).game_state.entities.x i + 2 <
        (Step09.after_frames sc savmsc n).game_state.entities.y j * 40 +
          (Step09.after_frames sc savmsc n).game_state.entities.x j ∨
       (Step09.after_frames sc savmsc n).game_state.entities.y j * 40 +
          (Step09.after_frames sc savmsc n).game_state.entities.x j + 2 <
        (Step09.after_frames sc savmsc n).game_state.entities.y i * 40 +
          (Step09.after_frames sc savmsc n).game_state.entities.x i)) ∧
    ((Step09.one_frame (Step09.after_frames sc savmsc n)).screen
        (savmsc + ((Step09.after_frames sc savmsc n).game_state.entities.y i * 40 +
          (Step09.after_frames sc savmsc n).game_state.entities.x i)) =
        (if i < 30 then Char.toNat 'e' else Char.toNat 'p') ∧
      (Step09.one_frame (Step09.after_frames sc savmsc n)).screen
        (savmsc + ((Step09.after_frames sc savmsc n).game_state.entities.y i * 40 +
          (Step09.after_frames sc savmsc n).game_state.entities.x i + 1)) =
        0x10 + (Step09.one_frame (Step09.after_frames sc savmsc n)).game_state.entities.hp i
          / 10 ∧
      (Step09.one_frame (Step09.after_frames sc savmsc n)).screen
        (savmsc + ((Step09.after_frames sc savmsc n).game_state.entities.y i * 40 +
          (Step09.after_frames sc savmsc n).game_state.entities.x i + 2)) =
        0x10 + (Step09.one_frame (Step09.after_frames sc savmsc n)).game_state.entities.hp i
          % 10) ∧
    (Step09.one_frame (Step09.after_frames sc savmsc n)).game_state.entities.hp i =
      (if i < 30 then (Step09.after_frames sc savmsc n).game_state.entities.hp i - 1
        else (Step09.after_frames sc savmsc n).game_state.entities.hp i) := by
  have hdef : Step09.after_frames sc savmsc n =
      Step09.frames n (Step09.set_entities
        (Step09.init_lookup_tables savmsc (Step09.zero_init sc))) := by
    simp only [Step09.after_frames]
  obtain ⟨xi, yi, ti, hpi⟩ := Step09.reachable_layout sc savmsc n i hi
  obtain ⟨xj, yj, _, _⟩ := Step09.reachable_layout sc savmsc n j hj
  obtain ⟨_, y30, _, _⟩ := Step09.reachable_layout sc savmsc n 30 (by omega)
  rw [← hdef] at xi yi ti hpi xj yj y30
  obtain ⟨_, htab⟩ := Step09.reachable_tables savmsc n (Step09.zero_init sc)
  rw [← hdef] at htab
  have hdis : ∀ a b, a < b → b ≤ 30 →
      Step09.glyph_addr (Step09.after_frames sc savmsc n) a + 2 <
        Step09.glyph_addr (Step09.after_frames sc savmsc n) b ∨
      Step09.glyph_addr (Step09.after_frames sc savmsc n) b + 2 <
        Step09.glyph_addr (Step09.after_frames sc savmsc n) a := by
    intro a b hab hb
    rw [Step09.after_frames_glyph_addr sc savmsc n a (by omega),
      Step09.after_frames_glyph_addr sc savmsc n b (by omega)]
    have := Step09.layout_disjoint a b (by omega) (by omega) (by omega)
    omega
  obtain ⟨g0, g1, g2⟩ := Step09.one_frame_screen_glyph (Step09.after_frames sc savmsc n) hdis i
    (by omega)
  have hga := Step09.after_frames_glyph_addr sc savmsc n i hi
  rw [hga] at g0 g1 g2
  have hr : Step09.in_range (Step09.after_frames sc savmsc n).game_state := by
    rw [hdef]
    exact Step09.frames_in_range n _
      (Step09.set_entities_in_range (Step09.init_lookup_tables savmsc (Step09.zero_init sc))
        (by rw [Step09.init_lookup_tables_game_state]; simp [Step09.zero_init]))
  have hhp99 := (Step09.one_frame_in_range _ hr i
    (by simp only [NO_ENTITIES, NO_ENEMIES]; omega)).2.2.1
  obtain ⟨hd10, hm10⟩ := htab _ hhp99
  have hhp := Step09.one_frame_hp (Step09.after_frames sc savmsc n) i (by omega)
  have htile : Step09.get_entity_tile.getD
      ((Step09.after_frames sc savmsc n).game_state.entities.type i) 0 =
      (if i < 30 then Char.toNat 'e' else Char.toNat 'p') := by
    rw [ti]
    split_ifs <;> rfl
  have hdis2 := Step09.layout_disjoint i j hi hj hij
  refine ⟨⟨?_, ?_⟩, ⟨?_, ?_, ?_⟩, hhp⟩
  · simp only [PLAYER_INDEX, NO_ENEMIES]
    rw [y30]
    simp
  · rw [xi, yi, xj, yj]
    exact hdis2
  · rw [xi, yi, ← htile]
    exact g0
  · rw [xi, yi, ← hd10]
    rw [← g1]
    congr 1
  · rw [xi, yi, ← hm10]
    rw [← g2]
    congr 1

/-- Witness of C18: enemy slot 3 against the player slot 30, two frames into
`main`, the surface at address 40000. -/
theorem one_frame_shows_every_entity_witness :
    (Step09.after_frames (fun _ => 0) 40000 2).game_state.entities.y PLAYER_INDEX = 0 ∧
    (Step09.one_frame (Step09.after_frames (fun _ => 0) 40000 2)).screen
        (40000 + ((Step09.after_frames (fun _ => 0) 40000 2).game_state.entities.y 3 * 40 +
          (Step09.after_frames (fun _ => 0) 40000 2).game_state.entities.x 3)) =
      (if 3 < 30 then Char.toNat 'e' else Char.toNat 'p') :=
  have h := one_frame_shows_every_entity (fun _ => 0) 40000 2 3 30 (by decide) (by decide)
    (by decide)
  ⟨h.1.1, h.2.1.1⟩

/-! ### The two layouts in simulation -/

namespace AoS

theorem deref_enemy_of_corresponds (a : s_game_state) (s : SoA.s_game_state)
    (h : corresponds a s) (k : Nat) (hk : k < 30) :
    deref a (.enemy k) =
      ⟨s.entities.x k, s.entities.y k, s.entities.hp k, s.entities.type k⟩ :=
  h.1 k hk

theorem deref_player_of_corresponds (a : s_game_state) (s : SoA.s_game_state)
    (h : corresponds a s) :
    deref a .player =
      ⟨s.entities.x 30, s.entities.y 30, s.entities.hp 30, s.entities.type 30⟩ :=
  h.2.1

theorem corresponds_assign_enemy (a : s_game_state) (s s2 : SoA.s_game_state) (k : Nat)
    (e : s_entity) (hk : k < 30) (h : corresponds a s)
    (he : e = ⟨s2.entities.x k, s2.entities.y k, s2.entities.hp k, s2.entities.type k⟩)
    (hx : ∀ i, i ≠ k → s2.entities.x i = s.entities.x i)
    (hy : ∀ i, i ≠ k → s2.entities.y i = s.entities.y i)
    (hhp : ∀ i, i ≠ k → s2.entities.hp i = s.entities.hp i)
    (ht : ∀ i, i ≠ k → s2.entities.type i = s.entities.type i)
    (hpl : s2.player = s.player) :
    corresponds (assign a (.enemy k) e) s2 := by
  obtain ⟨h1, h2, h3⟩ := h
  have h30 : (30 : Nat) ≠ k := by omega
  refine ⟨?_, ?_, ?_⟩
  · intro i hi
    show (if i = k then e else a.enemies i) = _
    by_cases hik : i = k
    · rw [if_pos hik, he, hik]
    · rw [if_neg hik, h1 i hi, hx i hik, hy i hik, hhp i hik, ht i hik]
  · show a.player.entity = _
    simp only [PLAYER_INDEX, NO_ENEMIES] at h2 ⊢
    rw [h2, hx 30 h30, hy 30 h30, hhp 30 h30, ht 30 h30]
  · show a.player.attack = _
    rw [h3, hpl]

end AoS

theorem damage_enemy_sim_04_05 (g4 : Step04.Globals) (g5 : Step05.Globals) (k : Nat)
    (hk : k < 30) (h : AoS.corresponds g4.game_state g5.game_state) :
    AoS.corresponds (Step04.damage_enemy { g4 with damage_enemy_ptr := .enemy k }).game_state
      (Step05.damage_enemy { g5 with damage_enemy_index := k }).game_state ∧
    (Step04.damage_enemy { g4 with damage_enemy_ptr := .enemy k }).screen = g4.screen ∧
    (Step04.damage_enemy { g4 with damage_enemy_ptr := .enemy k }).screen_ptr = g4.screen_ptr ∧
    (Step05.damage_enemy { g5 with damage_enemy_index := k }).screen = g5.screen ∧
    (Step05.damage_enemy { g5 with damage_enemy_index := k }).screen_ptr = g5.screen_ptr := by
  have hd : AoS.deref g4.game_state (.enemy k) = _ :=
    AoS.deref_enemy_of_corresponds _ _ h k hk
  unfold Step04.damage_enemy Step05.damage_enemy
  simp only [hd]
  by_cases hpos : g5.game_state.entities.hp k > 0
  · rw [if_pos hpos, if_pos hpos]
    refine ⟨?_, rfl, rfl, rfl, rfl⟩
    refine AoS.corresponds_assign_enemy g4.game_state g5.game_state _ k _ hk h ?_ ?_ ?_ ?_ ?_ ?_
    · simp only [store, if_true]
    · intro i _; rfl
    · intro i _; rfl
    · intro i hi; simp only [store, hi, if_false]
    · intro i _; rfl
    · rfl
  · rw [if_neg hpos, if_neg hpos]
    exact ⟨h, rfl, rfl, rfl, rfl⟩

theorem draw_entity_sim_04_05 (g4 : Step04.Globals) (g5 : Step05.Globals)
    (p : AoS.entity_ptr) (i : Nat)
    (hd : AoS.deref g4.game_state p =
      ⟨g5.game_state.entities.x i, g5.game_state.entities.y i, g5.game_state.entities.hp i,
        g5.game_state.entities.type i⟩)
    (hs : g4.screen = g5.screen) (hp : g4.screen_ptr = g5.screen_ptr) :
    (Step04.draw_entity { g4 with draw_entity_ptr := p }).screen =
      (Step05.draw_entity { g5 with draw_entity_index := i }).screen ∧
    (Step04.draw_entity { g4 with draw_entity_ptr := p }).game_state = g4.game_state ∧
    (Step05.draw_entity { g5 with draw_entity_index := i }).game_state = g5.game_state ∧
    (Step04.draw_entity { g4 with draw_entity_ptr := p }).screen_ptr = g4.screen_ptr ∧
    (Step05.draw_entity { g5 with draw_entity_index := i }).screen_ptr = g5.screen_ptr := by
  refine ⟨?_, rfl, rfl, rfl, rfl⟩
  simp only [Step04.draw_entity, Step05.draw_entity, hd, hs, hp, Step04.get_entity_tile,
    Step05.get_entity_tile]

theorem one_frame_loop_sim_04_05 (fuel : Nat) : ∀ (index : Nat) (g4 : Step04.Globals)
    (g5 : Step05.Globals), AoS.corresponds g4.game_state g5.game_state →
    g4.screen = g5.screen → g4.screen_ptr = g5.screen_ptr →
    AoS.corresponds (Step04.one_frame_loop fuel index g4).game_state
      (Step05.one_frame_loop fuel index g5).game_state ∧
    (Step04.one_frame_loop fuel index g4).screen = (Step05.one_frame_loop fuel index g5).screen ∧
    (Step04.one_frame_loop fuel index g4).screen_ptr =
      (Step05.one_frame_loop fuel index g5).screen_ptr := by
  induction fuel with
  | zero => intro k g4 g5 h hs hp; exact ⟨h, hs, hp⟩
  | succ fuel ih =>
    intro k g4 g5 h hs hp
    by_cases hk : k < 30
    · obtain ⟨c1, c2, c3, c4, c5⟩ := damage_enemy_sim_04_05 g4 g5 k hk h
      obtain ⟨e1, e2, e3, e4, e5⟩ := draw_entity_sim_04_05
        (Step04.damage_enemy { g4 with damage_enemy_ptr := .enemy k })
        (Step05.damage_enemy { g5 with damage_enemy_index := k }) (.enemy k) k
        (AoS.deref_enemy_of_corresponds _ _ c1 k hk)
        (by rw [c2, c4]; exact hs) (by rw [c3, c5]; exact hp)
      have hstep4 : Step04.one_frame_loop (fuel + 1) k g4 =
          Step04.one_frame_loop fuel (to_byte (k + 1))
            (Step04.draw_entity
              { Step04.damage_enemy { g4 with damage_enemy_ptr := .enemy k } with
                draw_entity_ptr := .enemy k }) := by
        simp only [Step04.one_frame_loop, NO_ENEMIES, hk, if_true]
      have hstep5 : Step05.one_frame_loop (fuel + 1) k g5 =
          Step05.one_frame_loop fuel (to_byte (k + 1))
            (Step05.draw_entity
              { Step05.damage_enemy { g5 with damage_enemy_index := k } with
                draw_entity_index := k }) := by
        simp only [Step05.one_frame_loop, NO_ENEMIES, hk, if_true]
      rw [hstep4, hstep5]
      exact ih _ _ _ (by rw [e2, e3]; exact c1) e1 (by rw [e4, e5, c3, c5]; exact hp)
    · have hstep4 : Step04.one_frame_loop (fuel + 1) k g4 = g4 := by
        simp only [Step04.one_frame_loop, NO_ENEMIES, hk, if_false]
      have hstep5 : Step05.one_frame_loop (fuel + 1) k g5 = g5 := by
        simp only [Step05.one_frame_loop, NO_ENEMIES, hk, if_false]
      rw [hstep4, hstep5]
      exact ⟨h, hs, hp⟩

theorem one_frame_sim_04_05 (g4 : Step04.Globals) (g5 : Step05.Globals)
    (h : AoS.corresponds g4.game_state g5.game_state)
    (hs : g4.screen = g5.screen) (hp : g4.screen_ptr = g5.screen_ptr) :
    AoS.corresponds (Step04.one_frame g4).game_state (Step05.one_frame g5).game_state ∧
    (Step04.one_frame g4).screen = (Step05.one_frame g5).screen ∧
    (Step04.one_frame g4).screen_ptr = (Step05.one_frame g5).screen_ptr := by
  obtain ⟨l1, l2, l3⟩ := one_frame_loop_sim_04_05 256 0 g4 g5 h hs hp
  obtain ⟨e1, e2, e3, e4, e5⟩ := draw_entity_sim_04_05
    (Step04.one_frame_loop 256 0 g4) (Step05.one_frame_loop 256 0 g5) .player 30
    (AoS.deref_player_of_corresponds _ _ l1) l2 l3
  have h4 : Step04.one_frame g4 = Step04.draw_entity
      { Step04.one_frame_loop 256 0 g4 with draw_entity_ptr := .player } := by
    simp only [Step04.one_frame]
  have h5 : Step05.one_frame g5 = Step05.draw_entity
      { Step05.one_frame_loop 256 0 g5 with draw_entity_index := 30 } := by
    simp only [Step05.one_frame, PLAYER_INDEX, NO_ENEMIES]
  rw [h4, h5]
  exact ⟨by rw [e2, e3]; exact l1, e1, by rw [e4, e5]; exact l3⟩

namespace AoS

theorem assign_assign (gs : s_game_state) (p : entity_ptr) (e1 e2 : s_entity) :
    assign (assign gs p e1) p e2 = assign gs p e2 := by
  cases p with
  | enemy k =>
    simp only [assign, s_game_state.mk.injEq, and_true]
    funext j
    split_ifs <;> rfl
  | player => rfl

end AoS

theorem set_entities_step_04 (fuel k : Nat) (g4 : Step04.Globals) (hk : k < 30) :
    Step04.set_entities_loop (fuel + 1) k g4 =
      Step04.set_entities_loop fuel (to_byte (k + 1))
        { g4 with
          place_enemy_ptr := .enemy k
          game_state := AoS.assign g4.game_state (.enemy k)
            ⟨to_byte ((k * 5) % 40), to_byte (k / 2 + 9), 99, ENTITY_ENEMY⟩ } := by
  simp only [Step04.set_entities_loop, NO_ENEMIES, hk, if_true, Step04.place_enemy,
    AoS.deref_assign, AoS.assign_assign, SCREEN_SIZE_X]

theorem set_entities_loop_sim_04_05 (fuel : Nat) : ∀ (index : Nat) (g4 : Step04.Globals)
    (g5 : Step05.Globals), AoS.corresponds g4.game_state g5.game_state →
    AoS.corresponds (Step04.set_entities_loop fuel index g4).game_state
      (Step05.set_entities_loop fuel index g5).game_state ∧
    (Step04.set_entities_loop fuel index g4).screen = g4.screen ∧
    (Step04.set_entities_loop fuel index g4).screen_ptr = g4.screen_ptr ∧
    (Step05.set_entities_loop fuel index g5).screen = g5.screen ∧
    (Step05.set_entities_loop fuel index g5).screen_ptr = g5.screen_ptr := by
  induction fuel with
  | zero => intro k g4 g5 h; exact ⟨h, rfl, rfl, rfl, rfl⟩
  | succ fuel ih =>
    intro k g4 g5 h
    by_cases hk : k < 30
    · have hstep5 : Step05.set_entities_loop (fuel + 1) k g5 =
          Step05.set_entities_loop fuel (to_byte (k + 1))
            { g5 with
              place_enemy_index := k
              game_state :=
                { entities :=
                    { x := store g5.game_state.entities.x k (to_byte ((k * 5) % 40))
                      y := store g5.game_state.entities.y k (to_byte (k / 2 + 9))
                      hp := store g5.game_state.entities.hp k 99
                      type := store g5.game_state.entities.type k ENTITY_ENEMY }
                  player := g5.game_state.player } } := by
        simp only [Step05.set_entities_loop, NO_ENEMIES, hk, if_true, Step05.place_enemy,
          SCREEN_SIZE_X]
      rw [set_entities_step_04 fuel k g4 hk, hstep5]
      exact ih _ _ _ (AoS.corresponds_assign_enemy g4.game_state g5.game_state _ k _ hk h
        (by simp only [store, if_true])
        (fun i hi => by simp only [store, hi, if_false])
        (fun i hi => by simp only [store, hi, if_false])
        (fun i hi => by simp only [store, hi, if_false])
        (fun i hi => by simp only [store, hi, if_false])
        rfl)
    · have hstep4 : Step04.set_entities_loop (fuel + 1) k g4 = g4 := by
        simp only [Step04.set_entities_loop, NO_ENEMIES, hk, if_false]
      have hstep5 : Step05.set_entities_loop (fuel + 1) k g5 = g5 := by
        simp only [Step05.set_entities_loop, NO_ENEMIES, hk, if_false]
      rw [hstep4, hstep5]
      exact ⟨h, rfl, rfl, rfl, rfl⟩

theorem corresponds_set_player (a : AoS.s_game_state) (s : SoA.s_game_state)
    (h : AoS.corresponds a s) :
    AoS.corresponds
      { enemies := a.enemies
        player :=
          { entity := ⟨SCREEN_SIZE_X / 2, a.player.entity.y, 99, ENTITY_PLAYER⟩
            attack := a.player.attack } }
      { entities :=
          { x := store s.entities.x PLAYER_INDEX (SCREEN_SIZE_X / 2)
            y := s.entities.y
            hp := store s.entities.hp PLAYER_INDEX 99
            type := store s.entities.type PLAYER_INDEX ENTITY_PLAYER }
        player := s.player } := by
  obtain ⟨h1, h2, h3⟩ := h
  refine ⟨?_, ?_, h3⟩
  · intro i hi
    have hne : i ≠ PLAYER_INDEX := by
      simp only [PLAYER_INDEX]; omega
    simp only [store, hne, if_false]
    exact h1 i hi
  · simp only [store, if_true]
    rw [h2]

theorem set_entities_sim_04_05 (g4 : Step04.Globals) (g5 : Step05.Globals)
    (h : AoS.corresponds g4.game_state g5.game_state) :
    AoS.corresponds (Step04.set_entities g4).game_state (Step05.set_entities g5).game_state ∧
    (Step04.set_entities g4).screen = g4.screen ∧
    (Step04.set_entities g4).screen_ptr = g4.screen_ptr ∧
    (Step05.set_entities g5).screen = g5.screen ∧
    (Step05.set_entities g5).screen_ptr = g5.screen_ptr := by
  obtain ⟨l1, l2, l3, l4, l5⟩ := set_entities_loop_sim_04_05 256 0 g4 g5 h
  refine ⟨?_, l2, l3, l4, l5⟩
  exact corresponds_set_player _ _ l1

theorem damage_enemy_sim_04_08 (g4 : Step04.Globals) (g8 : Step08.Globals) (k : Nat)
    (hk : k < 30) (h : AoS.corresponds g4.game_state g8.game_state) :
    AoS.corresponds (Step04.damage_enemy { g4 with damage_enemy_ptr := .enemy k }).game_state
      (Step08.damage_enemy { g8 with index1 := k }).game_state ∧
    (Step04.damage_enemy { g4 with damage_enemy_ptr := .enemy k }).screen = g4.screen ∧
    (Step04.damage_enemy { g4 with damage_enemy_ptr := .enemy k }).screen_ptr = g4.screen_ptr ∧
    (Step08.damage_enemy { g8 with index1 := k }).screen = g8.screen ∧
    (Step08.damage_enemy { g8 with index1 := k }).screen_ptr = g8.screen_ptr ∧
    (Step08.damage_enemy { g8 with index1 := k }).index1 = k := by
  have hd : AoS.deref g4.game_state (.enemy k) = _ :=
    AoS.deref_enemy_of_corresponds _ _ h k hk
  unfold Step04.damage_enemy Step08.damage_enemy
  simp only [hd]
  by_cases hpos : g8.game_state.entities.hp k > 0
  · rw [if_pos hpos, if_pos hpos]
    refine ⟨?_, rfl, rfl, rfl, rfl, rfl⟩
    refine AoS.corresponds_assign_enemy g4.game_state g8.game_state _ k _ hk h ?_ ?_ ?_ ?_ ?_ ?_
    · simp only [store, if_true]
    · intro i _; rfl
    · intro i _; rfl
    · intro i hi; simp only [store, hi, if_false]
    · intro i _; rfl
    · rfl
  · rw [if_neg hpos, if_neg hpos]
    exact ⟨h, rfl, rfl, rfl, rfl, rfl⟩

theorem draw_entity_sim_04_08 (g4 : Step04.Globals) (g8 : Step08.Globals)
    (p : AoS.entity_ptr)
    (hd : AoS.deref g4.game_state p =
      ⟨g8.game_state.entities.x g8.index1, g8.game_state.entities.y g8.index1,
        g8.game_state.entities.hp g8.index1, g8.game_state.entities.type g8.index1⟩)
    (hs : g4.screen = g8.screen) (hp : g4.screen_ptr = g8.screen_ptr) :
    (Step04.draw_entity { g4 with draw_entity_ptr := p }).screen =
      (Step08.draw_entity g8).screen ∧
    (Step04.draw_entity { g4 with draw_entity_ptr := p }).game_state = g4.game_state ∧
    (Step08.draw_entity g8).game_state = g8.game_state ∧
    (Step04.draw_entity { g4 with draw_entity_ptr := p }).screen_ptr = g4.screen_ptr ∧
    (Step08.draw_entity g8).screen_ptr = g8.screen_ptr ∧
    (Step08.draw_entity g8).index1 = g8.index1 := by
  refine ⟨?_, rfl, rfl, rfl, rfl, rfl⟩
  simp only [Step04.draw_entity, Step08.draw_entity, hd, hs, hp, Step04.get_entity_tile,
    Step08.get_entity_tile]

theorem one_frame_loop_sim_04_08 (fuel : Nat) : ∀ (index : Nat) (g4 : Step04.Globals)
    (g8 : Step08.Globals), AoS.corresponds g4.game_state g8.game_state →
    g4.screen = g8.screen → g4.screen_ptr = g8.screen_ptr →
    AoS.corresponds (Step04.one_frame_loop fuel index g4).game_state
      (Step08.one_frame_loop fuel { g8 with index1 := index }).game_state ∧
    (Step04.one_frame_loop fuel index g4).screen =
      (Step08.one_frame_loop fuel { g8 with index1 := index }).screen ∧
    (Step04.one_frame_loop fuel index g4).screen_ptr =
      (Step08.one_frame_loop fuel { g8 with index1 := index }).screen_ptr := by
  induction fuel with
  | zero => intro k g4 g8 h hs hp; exact ⟨h, hs, hp⟩
  | succ fuel ih =>
    intro k g4 g8 h hs hp
    by_cases hk : k < 30
    · obtain ⟨c1, c2, c3, c4, c5, c6⟩ := damage_enemy_sim_04_08 g4 g8 k hk h
      obtain ⟨e1, e2, e3, e4, e5, e6⟩ := draw_entity_sim_04_08
        (Step04.damage_enemy { g4 with damage_enemy_ptr := .enemy k })
        (Step08.damage_enemy { g8 with index1 := k }) (.enemy k)
        (by rw [c6]; exact AoS.deref_enemy_of_corresponds _ _ c1 k hk)
        (by rw [c2, c4]; exact hs) (by rw [c3, c5]; exact hp)
      have hstep4 : Step04.one_frame_loop (fuel + 1) k g4 =
          Step04.one_frame_loop fuel (to_byte (k + 1))
            (Step04.draw_entity
              { Step04.damage_enemy { g4 with damage_enemy_ptr := .enemy k } with
                draw_entity_ptr := .enemy k }) := by
        simp only [Step04.one_frame_loop, NO_ENEMIES, hk, if_true]
      have hstep8 : Step08.one_frame_loop (fuel + 1) { g8 with index1 := k } =
          Step08.one_frame_loop fuel
            { Step08.draw_entity (Step08.damage_enemy { g8 with index1 := k }) with
              index1 := to_byte (k + 1) } := by
        simp only [Step08.one_frame_loop, NO_ENEMIES, hk, if_true]
        rw [e6, c6]
      rw [hstep4, hstep8]
      exact ih _ _ _ (by rw [e2, e3]; exact c1) e1 (by rw [e4, e5, c3, c5]; exact hp)
    · have hstep4 : Step04.one_frame_loop (fuel + 1) k g4 = g4 := by
        simp only [Step04.one_frame_loop, NO_ENEMIES, hk, if_false]
      have hstep8 : Step08.one_frame_loop (fuel + 1) { g8 with index1 := k } =
          { g8 with index1 := k } := by
        simp only [Step08.one_frame_loop, NO_ENEMIES, hk, if_false]
      rw [hstep4, hstep8]
      exact ⟨h, hs, hp⟩

theorem one_frame_sim_04_08 (g4 : Step04.Globals) (g8 : Step08.Globals)
    (h : AoS.corresponds g4.game_state g8.game_state)
    (hs : g4.screen = g8.screen) (hp : g4.screen_ptr = g8.screen_ptr) :
    AoS.corresponds (Step04.one_frame g4).game_state (Step08.one_frame g8).game_state ∧
    (Step04.one_frame g4).screen = (Step08.one_frame g8).screen ∧
    (Step04.one_frame g4).screen_ptr = (Step08.one_frame g8).screen_ptr := by
  obtain ⟨l1, l2, l3⟩ := one_frame_loop_sim_04_08 256 0 g4 g8 h hs hp
  obtain ⟨e1, e2, e3, e4, e5, _⟩ := draw_entity_sim_04_08
    (Step04.one_frame_loop 256 0 g4)
    { Step08.one_frame_loop 256 { g8 with index1 := 0 } with index1 := 30 } .player
    (AoS.deref_player_of_corresponds _ _ l1) l2 l3
  have h4 : Step04.one_frame g4 = Step04.draw_entity
      { Step04.one_frame_loop 256 0 g4 with draw_entity_ptr := .player } := by
    simp only [Step04.one_frame]
  have h8 : Step08.one_frame g8 = Step08.draw_entity
      { Step08.one_frame_loop 256 { g8 with index1 := 0 } with index1 := 30 } := by
    simp only [Step08.one_frame, PLAYER_INDEX, NO_ENEMIES]
  rw [h4, h8]
  exact ⟨by rw [e2, e3]; exact l1, e1, by rw [e4, e5]; exact l3⟩

theorem set_entities_loop_sim_04_08 (fuel : Nat) : ∀ (index : Nat) (g4 : Step04.Globals)
    (g8 : Step08.Globals), AoS.corresponds g4.game_state g8.game_state →
    AoS.corresponds (Step04.set_entities_loop fuel index g4).game_state
      (Step08.set_entities_loop fuel { g8 with index1 := index }).game_state ∧
    (Step04.set_entities_loop fuel index g4).screen = g4.screen ∧
    (Step04.set_entities_loop fuel index g4).screen_ptr = g4.screen_ptr ∧
    (Step08.set_entities_loop fuel { g8 with index1 := index }).screen = g8.screen ∧
    (Step08.set_entities_loop fuel { g8 with index1 := index }).screen_ptr = g8.screen_ptr := by
  induction fuel with
  | zero => intro k g4 g8 h; exact ⟨h, rfl, rfl, rfl, rfl⟩
  | succ fuel ih =>
    intro k g4 g8 h
    by_cases hk : k < 30
    · have hstep8 : Step08.set_entities_loop (fuel + 1) { g8 with index1 := k } =
          Step08.set_entities_loop fuel
            { ({ g8 with
                game_state :=
                  { entities :=
                      { x := store g8.game_state.entities.x k (to_byte ((k * 5) % 40))
                        y := store g8.game_state.entities.y k (to_byte (k / 2 + 9))
                        hp := store g8.game_state.entities.hp k 99
                        type := store g8.game_state.entities.type k ENTITY_ENEMY }
                    player := g8.game_state.player } } : Step08.Globals) with
              index1 := to_byte (k + 1) } := by
        simp only [Step08.set_entities_loop, NO_ENEMIES, hk, if_true, Step08.place_enemy,
          SCREEN_SIZE_X]
      rw [set_entities_step_04 fuel k g4 hk, hstep8]
      exact ih _ _ _ (AoS.corresponds_assign_enemy g4.game_state g8.game_state _ k _ hk h
        (by simp only [store, if_true])
        (fun i hi => by simp only [store, hi, if_false])
        (fun i hi => by simp only [store, hi, if_false])
        (fun i hi => by simp only [store, hi, if_false])
        (fun i hi => by simp only [store, hi, if_false])
        rfl)
    · have hstep4 : Step04.set_entities_loop (fuel + 1) k g4 = g4 := by
        simp only [Step04.set_entities_loop, NO_ENEMIES, hk, if_false]
      have hstep8 : Step08.set_entities_loop (fuel + 1) { g8 with index1 := k } =
          { g8 with index1 := k } := by
        simp only [Step08.set_entities_loop, NO_ENEMIES, hk, if_false]
      rw [hstep4, hstep8]
      exact ⟨h, rfl, rfl, rfl, rfl⟩

theorem set_entities_sim_04_08 (g4 : Step04.Globals) (g8 : Step08.Globals)
    (h : AoS.corresponds g4.game_state g8.game_state) :
    AoS.corresponds (Step04.set_entities g4).game_state (Step08.set_entities g8).game_state ∧
    (Step04.set_entities g4).screen = g4.screen ∧
    (Step04.set_entities g4).screen_ptr = g4.screen_ptr ∧
    (Step08.set_entities g8).screen = g8.screen ∧
    (Step08.set_entities g8).screen_ptr = g8.screen_ptr := by
  obtain ⟨l1, l2, l3, l4, l5⟩ := set_entities_loop_sim_04_08 256 0 g4 g8 h
  have e4 : (Step04.set_entities g4).screen = (Step04.set_entities_loop 256 0 g4).screen ∧
      (Step04.set_entities g4).screen_ptr = (Step04.set_entities_loop 256 0 g4).screen_ptr := by
    simp only [Step04.set_entities, and_self]
  have e8 : (Step08.set_entities g8).screen =
        (Step08.set_entities_loop 256 { g8 with index1 := 0 }).screen ∧
      (Step08.set_entities g8).screen_ptr =
        (Step08.set_entities_loop 256 { g8 with index1 := 0 }).screen_ptr := by
    simp only [Step08.set_entities, and_self]
  rw [e4.1, e4.2, e8.1, e8.2]
  refine ⟨?_, l2, l3, l4, l5⟩
  have c := corresponds_set_player _ _ l1
  simp only [Step04.set_entities, Step08.set_entities]
  exact c

/-- C16: the array-of-structs version (step 04) and the structure-of-arrays
versions (steps 05 and 08) are in simulation under the correspondence
`enemies[i]` to slot `i`, `player.entity` to slot 30: from corresponding states
with equal surfaces and equal `screen_ptr`, `set_entities` leads to
corresponding states (the surfaces untouched, so still equal), and `one_frame`
leads to corresponding states and equal surfaces. -/
theorem layouts_in_simulation (g4 : Step04.Globals) (g5 : Step05.Globals)
    (g8 : Step08.Globals)
    (h5 : AoS.corresponds g4.game_state g5.game_state)
    (h8 : AoS.corresponds g4.game_state g8.game_state)
    (hs5 : g4.screen = g5.screen) (hp5 : g4.screen_ptr = g5.screen_ptr)
    (hs8 : g4.screen = g8.screen) (hp8 : g4.screen_ptr = g8.screen_ptr) :
    (AoS.corresponds (Step04.set_entities g4).game_state (Step05.set_entities g5).game_state ∧
      (Step04.set_entities g4).screen = (Step05.set_entities g5).screen ∧
      (Step04.set_entities g4).screen_ptr = (Step05.set_entities g5).screen_ptr) ∧
    (AoS.corresponds (Step04.set_entities g4).game_state (Step08.set_entities g8).game_state ∧
      (Step04.set_entities g4).screen = (Step08.set_entities g8).screen ∧
      (Step04.set_entities g4).screen_ptr = (Step08.set_entities g8).screen_ptr) ∧
    (AoS.corresponds (Step04.one_frame g4).game_state (Step05.one_frame g5).game_state ∧
      (Step04.one_frame g4).screen = (Step05.one_frame g5).screen ∧
      (Step04.one_frame g4).screen_ptr = (Step05.one_frame g5).screen_ptr) ∧
    (AoS.corresponds (Step04.one_frame g4).game_state (Step08.one_frame g8).game_state ∧
      (Step04.one_frame g4).screen = (Step08.one_frame g8).screen ∧
      (Step04.one_frame g4).screen_ptr = (Step08.one_frame g8).screen_ptr) := by
  obtain ⟨a1, a2, a3, a4, a5⟩ := set_entities_sim_04_05 g4 g5 h5
  obtain ⟨b1, b2, b3, b4, b5⟩ := set_entities_sim_04_08 g4 g8 h8
  refine ⟨⟨a1, ?_, ?_⟩, ⟨b1, ?_, ?_⟩, one_frame_sim_04_05 g4 g5 h5 hs5 hp5,
    one_frame_sim_04_08 g4 g8 h8 hs8 hp8⟩
  · rw [a2, a4]; exact hs5
  · rw [a3, a5]; exact hp5
  · rw [b2, b4]; exact hs8
  · rw [b3, b5]; exact hp8

/-- Witness of C16: the zero-initialised states of the three steps, with the
surface at address 40000; the pointer globals of step 04, assigned before
every use, stand at `player`. -/
theorem layouts_in_simulation_witness :
    AoS.corresponds
      (Step04.set_entities
        ⟨40000, ⟨fun _ => ⟨0, 0, 0, 0⟩, ⟨⟨0, 0, 0, 0⟩, 0⟩⟩, .player, .player, .player,
          fun _ => 0⟩).game_state
      (Step05.set_entities
        ⟨40000, ⟨⟨fun _ => 0, fun _ => 0, fun _ => 0, fun _ => 0⟩, ⟨0⟩⟩, 0, 0, 0,
          fun _ => 0⟩).game_state ∧
    (Step04.one_frame
        ⟨40000, ⟨fun _ => ⟨0, 0, 0, 0⟩, ⟨⟨0, 0, 0, 0⟩, 0⟩⟩, .player, .player, .player,
          fun _ => 0⟩).screen =
      (Step08.one_frame
        ⟨0, 40000, ⟨⟨fun _ => 0, fun _ => 0, fun _ => 0, fun _ => 0⟩, ⟨0⟩⟩, fun _ => 0⟩).screen :=
  have h := layouts_in_simulation
    ⟨40000, ⟨fun _ => ⟨0, 0, 0, 0⟩, ⟨⟨0, 0, 0, 0⟩, 0⟩⟩, .player, .player, .player, fun _ => 0⟩
    ⟨40000, ⟨⟨fun _ => 0, fun _ => 0, fun _ => 0, fun _ => 0⟩, ⟨0⟩⟩, 0, 0, 0, fun _ => 0⟩
    ⟨0, 40000, ⟨⟨fun _ => 0, fun _ => 0, fun _ => 0, fun _ => 0⟩, ⟨0⟩⟩, fun _ => 0⟩
    ⟨fun _ _ => rfl, rfl, rfl⟩ ⟨fun _ _ => rfl, rfl, rfl⟩ rfl rfl rfl rfl
  ⟨h.1.1, h.2.2.2.2.1⟩
